import Mathlib

/-! ## kernel-wfp IPsec backend: embedding and verification

Shallow embedding of `src/libcharon/plugins/kernel_wfp/kernel_wfp_ipsec.c`.

Conventions of the embedding:

* machine integers are natural numbers; the arithmetic the plugin performs on
  them (byte order conversion, prefix masks, the SPI counter) and the one
  assignment that narrows a value (a 64-bit lifetime to 32 bits) are reduced
  modulo the width explicitly;
* `chunk_t` is the list of its bytes, `chunk.len` is the length of the list;
* a pointer to an `entry_t` is a natural number, the heap maps every address to the
  record stored there, addresses are handed out in increasing order and never
  reused; `entry_destroy` appends the address to a log, so that a reference to a
  freed record is visible as a reference to a logged address;
* the packet filter engine is an external resource: every call consumes the next
  reply of an arbitrary reply stream and is appended to a trace of requests;
* the mutex is not modelled, operations run one after the other.
-/

namespace KernelWfp

/-! ## Values shared with the rest of the daemon -/

/-- Return codes of the backend operations (`status_t`), the four the plugin uses. -/
inductive status_t
  | SUCCESS
  | FAILED
  | NOT_SUPPORTED
  | NOT_FOUND
  deriving DecidableEq

/-- Bytes of a `chunk_t`. -/
abbrev chunk_t := List Nat

/-- Address families a `host_t` can report; `AF_UNSPEC` stands for every family
the `default:` branches reject. -/
inductive family_t
  | AF_INET
  | AF_INET6
  | AF_UNSPEC
  deriving DecidableEq

/-- Modelled from the spec: `host_t` (networking/host.c is not under src/), an
address value; `ip_equals` is address-value equality, ports take no part in it. -/
structure host_t where
  get_family : family_t
  get_address : chunk_t
  deriving DecidableEq

/-- Modelled from the spec: the IP protocol numbers the plugin compares against
(system headers, not under src/). -/
abbrev IPPROTO_ICMP : Nat := 1

/-- Modelled from the spec: IP protocol number of ESP (system headers). -/
abbrev IPPROTO_ESP : Nat := 50

/-- Modelled from the spec: IP protocol number of AH (system headers). -/
abbrev IPPROTO_AH : Nat := 51

/-- Modelled from the spec: enumerators of `encryption_algorithm_t`
(crypto/crypters/crypter.h is not under src/), numbered as in the IKEv2 registry. -/
abbrev ENCR_DES : Nat := 2

/-- Modelled from the spec: `encryption_algorithm_t` enumerator (crypter.h). -/
abbrev ENCR_3DES : Nat := 3

/-- Modelled from the spec: `encryption_algorithm_t` enumerator (crypter.h). -/
abbrev ENCR_NULL : Nat := 11

/-- Modelled from the spec: `encryption_algorithm_t` enumerator (crypter.h). -/
abbrev ENCR_AES_CBC : Nat := 12

/-- Modelled from the spec: `encryption_algorithm_t` enumerator (crypter.h). -/
abbrev ENCR_AES_CCM_ICV8 : Nat := 14

/-- Modelled from the spec: `encryption_algorithm_t` enumerator (crypter.h). -/
abbrev ENCR_AES_CCM_ICV12 : Nat := 15

/-- Modelled from the spec: `encryption_algorithm_t` enumerator (crypter.h). -/
abbrev ENCR_AES_CCM_ICV16 : Nat := 16

/-- Modelled from the spec: `encryption_algorithm_t` enumerator (crypter.h). -/
abbrev ENCR_AES_GCM_ICV8 : Nat := 18

/-- Modelled from the spec: `encryption_algorithm_t` enumerator (crypter.h). -/
abbrev ENCR_AES_GCM_ICV12 : Nat := 19

/-- Modelled from the spec: `encryption_algorithm_t` enumerator (crypter.h). -/
abbrev ENCR_AES_GCM_ICV16 : Nat := 20

/-- Modelled from the spec: `encryption_algorithm_t` enumerator (crypter.h). -/
abbrev ENCR_NULL_AUTH_AES_GMAC : Nat := 21

/-- Modelled from the spec: `encryption_algorithm_t` enumerator (crypter.h). -/
abbrev ENCR_CAMELLIA_CCM_ICV8 : Nat := 25

/-- Modelled from the spec: `encryption_algorithm_t` enumerator (crypter.h). -/
abbrev ENCR_CAMELLIA_CCM_ICV12 : Nat := 26

/-- Modelled from the spec: `encryption_algorithm_t` enumerator (crypter.h). -/
abbrev ENCR_CAMELLIA_CCM_ICV16 : Nat := 27

/-- Modelled from the spec: enumerators of `integrity_algorithm_t`
(crypto/signers/signer.h is not under src/), numbered as in the IKEv2 registry. -/
abbrev AUTH_HMAC_MD5_96 : Nat := 1

/-- Modelled from the spec: `integrity_algorithm_t` enumerator (signer.h). -/
abbrev AUTH_HMAC_SHA1_96 : Nat := 2

/-- Modelled from the spec: `integrity_algorithm_t` enumerator (signer.h). -/
abbrev AUTH_AES_128_GMAC : Nat := 9

/-- Modelled from the spec: `integrity_algorithm_t` enumerator (signer.h). -/
abbrev AUTH_AES_192_GMAC : Nat := 10

/-- Modelled from the spec: `integrity_algorithm_t` enumerator (signer.h). -/
abbrev AUTH_AES_256_GMAC : Nat := 11

/-- Modelled from the spec: `integrity_algorithm_t` enumerator (signer.h). -/
abbrev AUTH_HMAC_SHA2_256_128 : Nat := 12

/-- Modelled from the spec: `integrity_algorithm_t` enumerator (signer.h), the
"none" value of the daemon; it is not zero. -/
abbrev AUTH_UNDEFINED : Nat := 1024

/-- Modelled from the spec: `encryption_algorithm_is_aead` (crypto/crypters/crypter.c
is not under src/): the combined-mode identifiers AES-CCM, AES-GCM, the
authentication-only AES-GMAC and Camellia-CCM. -/
def encryption_algorithm_is_aead (alg : Nat) : Bool :=
  alg = ENCR_AES_CCM_ICV8 ∨ alg = ENCR_AES_CCM_ICV12 ∨ alg = ENCR_AES_CCM_ICV16 ∨
  alg = ENCR_AES_GCM_ICV8 ∨ alg = ENCR_AES_GCM_ICV12 ∨ alg = ENCR_AES_GCM_ICV16 ∨
  alg = ENCR_NULL_AUTH_AES_GMAC ∨
  alg = ENCR_CAMELLIA_CCM_ICV8 ∨ alg = ENCR_CAMELLIA_CCM_ICV12 ∨
  alg = ENCR_CAMELLIA_CCM_ICV16

/-- Modelled from the spec: `ipsec_mode_t` (ipsec/ipsec_types.h is not under src/). -/
inductive ipsec_mode_t
  | MODE_TRANSPORT
  | MODE_TUNNEL
  | MODE_BEET
  | MODE_PASS
  | MODE_DROP
  deriving DecidableEq

/-- Modelled from the spec: `policy_dir_t` (ipsec/ipsec_types.h is not under src/). -/
inductive policy_dir_t
  | POLICY_IN
  | POLICY_OUT
  | POLICY_FWD
  deriving DecidableEq

/-- Modelled from the spec: `policy_priority_t` (ipsec/ipsec_types.h is not under src/). -/
inductive policy_priority_t
  | POLICY_PRIORITY_DEFAULT
  | POLICY_PRIORITY_ROUTED
  | POLICY_PRIORITY_FALLBACK
  deriving DecidableEq

/-- Modelled from the spec: the part of `lifetime_cfg_t` (ipsec/ipsec_types.h) that
`add_sa` reads, `time.life` and `time.rekey`, both 64 bits wide. -/
structure lifetime_cfg_t where
  life : Nat
  rekey : Nat
  deriving DecidableEq

/-- Modelled from the spec: the part of `ipsec_sa_cfg_t` (ipsec/ipsec_types.h) that
`add_policy` reads. -/
structure ipsec_sa_cfg_t where
  esp_use : Bool
  esp_spi : Nat
  ah_use : Bool
  ah_spi : Nat
  deriving DecidableEq

/-- Modelled from the spec: `ts_type_t` (selectors/traffic_selector.h is not under
src/); `TS_OTHER` stands for every type the `default:` branches reject. -/
inductive ts_type_t
  | TS_IPV4_ADDR_RANGE
  | TS_IPV6_ADDR_RANGE
  | TS_OTHER
  deriving DecidableEq

/-- Modelled from the spec: `traffic_selector_t` (selectors/traffic_selector.c is not
under src/) is an interface object; it is represented by the results of the
methods the plugin calls on it. `to_subnet` returns a flag and writes a network
address and a prefix length. -/
structure traffic_selector_t where
  get_type : ts_type_t
  get_from_address : chunk_t
  get_to_address : chunk_t
  get_from_port : Nat
  get_to_port : Nat
  get_protocol : Nat
  is_host : Bool
  to_subnet : Bool
  to_subnet_net : host_t
  to_subnet_mask : Nat
  deriving DecidableEq

/-- Modelled from the spec: `untoh32` (utils/utils.h is not under src/), the 32-bit
value of four bytes in network order. -/
def untoh32 (p : chunk_t) : Nat :=
  (p.getD 0 0 % 256) * 2 ^ 24 + (p.getD 1 0 % 256) * 2 ^ 16 +
  (p.getD 2 0 % 256) * 2 ^ 8 + p.getD 3 0 % 256

/-- Byte order swap of a 32-bit value: `ntohl` and `htonl` on the little-endian
hosts the plugin is built for. -/
def ntohl (x : Nat) : Nat :=
  (x % 256) * 2 ^ 24 + (x / 2 ^ 8 % 256) * 2 ^ 16 + (x / 2 ^ 16 % 256) * 2 ^ 8 +
  x / 2 ^ 24 % 256

/-- Modelled from the spec: `traffic_selector_icmp_type` (traffic_selector.h), the
high byte of a port field. -/
def traffic_selector_icmp_type (port : Nat) : Nat := port / 256 % 256

/-- Modelled from the spec: `traffic_selector_icmp_code` (traffic_selector.h), the
low byte of a port field. -/
def traffic_selector_icmp_code (port : Nat) : Nat := port % 256

/-! ## Engine-side types -/

/-- Authentication transforms of the engine; `ZERO` is the value of zeroed memory. -/
inductive IPSEC_AUTH_TRANSFORM_ID0
  | ZERO
  | IPSEC_AUTH_TRANSFORM_ID_HMAC_MD5_96
  | IPSEC_AUTH_TRANSFORM_ID_HMAC_SHA_1_96
  | IPSEC_AUTH_TRANSFORM_ID_HMAC_SHA_256_128
  | IPSEC_AUTH_TRANSFORM_ID_GCM_AES_128
  | IPSEC_AUTH_TRANSFORM_ID_GCM_AES_192
  | IPSEC_AUTH_TRANSFORM_ID_GCM_AES_256
  deriving DecidableEq

/-- Cipher transforms of the engine; `ZERO` is the value of zeroed memory. -/
inductive IPSEC_CIPHER_TRANSFORM_ID0
  | ZERO
  | IPSEC_CIPHER_TRANSFORM_ID_CBC_DES
  | IPSEC_CIPHER_TRANSFORM_ID_CBC_3DES
  | IPSEC_CIPHER_TRANSFORM_ID_AES_128
  | IPSEC_CIPHER_TRANSFORM_ID_AES_192
  | IPSEC_CIPHER_TRANSFORM_ID_AES_256
  | IPSEC_CIPHER_TRANSFORM_ID_GCM_AES_128
  | IPSEC_CIPHER_TRANSFORM_ID_GCM_AES_192
  | IPSEC_CIPHER_TRANSFORM_ID_GCM_AES_256
  deriving DecidableEq

/-- The fields of `IPSEC_SA_AUTH_INFORMATION0` the plugin writes:
`authTransform.authTransformId` and `authKey`. -/
structure IPSEC_SA_AUTH_INFORMATION0 where
  authTransformId : IPSEC_AUTH_TRANSFORM_ID0
  authKey : chunk_t
  deriving DecidableEq

/-- The fields of `IPSEC_SA_CIPHER_INFORMATION0` the plugin writes:
`cipherTransform.cipherTransformId` and `cipherKey`. -/
structure IPSEC_SA_CIPHER_INFORMATION0 where
  cipherTransformId : IPSEC_CIPHER_TRANSFORM_ID0
  cipherKey : chunk_t
  deriving DecidableEq

/-- Pair of authentication and cipher information. -/
structure IPSEC_SA_AUTH_AND_CIPHER_INFORMATION0 where
  saCipherInformation : IPSEC_SA_CIPHER_INFORMATION0
  saAuthInformation : IPSEC_SA_AUTH_INFORMATION0
  deriving DecidableEq

/-- Transform shapes of an `IPSEC_SA0`. -/
inductive IPSEC_TRANSFORM_TYPE
  | IPSEC_TRANSFORM_AH
  | IPSEC_TRANSFORM_ESP_AUTH
  | IPSEC_TRANSFORM_ESP_AUTH_AND_CIPHER
  deriving DecidableEq

/-- The union of an `IPSEC_SA0`: which information block the engine is pointed at. -/
inductive IPSEC_SA0_information
  | ahInformation (a : IPSEC_SA_AUTH_INFORMATION0)
  | espAuthInformation (a : IPSEC_SA_AUTH_INFORMATION0)
  | espAuthAndCipherInformation (i : IPSEC_SA_AUTH_AND_CIPHER_INFORMATION0)
  deriving DecidableEq

/-- One SA as handed to the engine. -/
structure IPSEC_SA0 where
  spi : Nat
  saTransformType : IPSEC_TRANSFORM_TYPE
  information : IPSEC_SA0_information
  deriving DecidableEq

/-- IP version tags of the engine; `FWP_IP_VERSION_V4` is the zero value. -/
inductive FWP_IP_VERSION
  | FWP_IP_VERSION_V4
  | FWP_IP_VERSION_V6
  deriving DecidableEq

/-- The fields of `IPSEC_SA_BUNDLE0` the plugin sets. -/
structure IPSEC_SA_BUNDLE0 where
  lifetimeSeconds : Nat
  saList : List IPSEC_SA0
  ipVersion : FWP_IP_VERSION
  deriving DecidableEq

/-- Traffic types of an SA context. -/
inductive IPSEC_TRAFFIC_TYPE
  | IPSEC_TRAFFIC_TYPE_TRANSPORT
  | IPSEC_TRAFFIC_TYPE_TUNNEL
  deriving DecidableEq

/-- The address union of the traffic descriptions. -/
inductive wfp_address
  | unset
  | v4 (addr : Nat)
  | v6 (addr : chunk_t)
  deriving DecidableEq

/-- The fields of `IPSEC_TRAFFIC0` (and of the traffic part of `IPSEC_GETSPI1`);
`filterId` is the union of `ipsecFilterId` and `tunnelPolicyId`. -/
structure IPSEC_TRAFFIC0 where
  ipVersion : FWP_IP_VERSION
  localAddress : wfp_address
  remoteAddress : wfp_address
  trafficType : IPSEC_TRAFFIC_TYPE
  filterId : Nat
  deriving DecidableEq

/-- The fields of `IPSEC_TUNNEL_ENDPOINTS0` the plugin sets. -/
structure IPSEC_TUNNEL_ENDPOINTS0 where
  ipVersion : FWP_IP_VERSION
  localAddress : wfp_address
  remoteAddress : wfp_address
  deriving DecidableEq

/-- The fields of `IPSEC_GETSPI1` the plugin sets. -/
structure IPSEC_GETSPI1 where
  inboundIpsecTraffic : IPSEC_TRAFFIC0
  ipVersion : FWP_IP_VERSION
  deriving DecidableEq

/-- Match types of a filter condition; `FWP_MATCH_EQUAL` is the zero value. -/
inductive FWP_MATCH_TYPE
  | FWP_MATCH_EQUAL
  | FWP_MATCH_RANGE
  deriving DecidableEq

/-- Field keys of the filter conditions; `ZERO` is the value of zeroed memory. -/
inductive FWPM_CONDITION
  | ZERO
  | FWPM_CONDITION_IP_LOCAL_ADDRESS
  | FWPM_CONDITION_IP_REMOTE_ADDRESS
  | FWPM_CONDITION_IP_PROTOCOL
  | FWPM_CONDITION_ICMP_TYPE
  | FWPM_CONDITION_ICMP_CODE
  | FWPM_CONDITION_IP_LOCAL_PORT
  | FWPM_CONDITION_IP_REMOTE_PORT
  deriving DecidableEq

/-- Bound of a range (`FWP_VALUE0`); `FWP_EMPTY` is the value of zeroed memory. -/
inductive FWP_VALUE0
  | FWP_EMPTY
  | FWP_UINT16 (v : Nat)
  | FWP_UINT32 (v : Nat)
  | FWP_BYTE_ARRAY16_TYPE (v : chunk_t)
  deriving DecidableEq

/-- Value of a filter condition (`FWP_CONDITION_VALUE0`), tagged by its type. -/
inductive FWP_CONDITION_VALUE0
  | FWP_EMPTY
  | FWP_UINT8 (v : Nat)
  | FWP_UINT16 (v : Nat)
  | FWP_UINT32 (v : Nat)
  | FWP_BYTE_ARRAY16_TYPE (v : chunk_t)
  | FWP_V4_ADDR_MASK (addr mask : Nat)
  | FWP_V6_ADDR_MASK (addr : chunk_t) (prefixLength : Nat)
  | FWP_RANGE_TYPE (valueLow valueHigh : FWP_VALUE0)
  deriving DecidableEq

/-- One filter condition. -/
structure FWPM_FILTER_CONDITION0 where
  fieldKey : FWPM_CONDITION
  matchType : FWP_MATCH_TYPE
  conditionValue : FWP_CONDITION_VALUE0
  deriving DecidableEq

/-- The fields of `FWPM_FILTER0` that depend on the call: the direction selects
callout and layer, the conditions come from the selectors. -/
structure FWPM_FILTER0 where
  inbound : Bool
  filterCondition : List FWPM_FILTER_CONDITION0
  deriving DecidableEq

/-- Requests the plugin sends to the engine. -/
inductive wfp_request
  | FwpmEngineOpen0
  | FwpmProviderAdd0
  | FwpmFilterAdd0 (filter : FWPM_FILTER0)
  | FwpmFilterDeleteById0 (id : Nat)
  | FwpmProviderContextGetById0 (id : Nat)
  | FwpmProviderContextGetByKey0 (key : Nat)
  | FwpmIPsecTunnelAdd0 (key : Nat) (tunnelEndpoints : IPSEC_TUNNEL_ENDPOINTS0)
      (conds : List FWPM_FILTER_CONDITION0)
  | FwpmIPsecTunnelDeleteByKey0 (key : Nat)
  | IPsecSaContextCreate0 (traffic : IPSEC_TRAFFIC0)
  | IPsecSaContextSetSpi0 (id : Nat) (getSpi : IPSEC_GETSPI1) (spi : Nat)
  | IPsecSaContextAddInbound0 (id : Nat) (bundle : IPSEC_SA_BUNDLE0)
  | IPsecSaContextAddOutbound0 (id : Nat) (bundle : IPSEC_SA_BUNDLE0)
  | IPsecSaContextDeleteById0 (id : Nat)
  deriving DecidableEq

/-- Reply of the engine to one request: the status code (`ERROR_SUCCESS` is 0) and
the value it stores through the output pointer of the call, if it stores one. -/
structure wfp_reply where
  res : Nat
  out : Option Nat
  deriving DecidableEq

/-- The world outside the plugin: the engine session `this->handle` with the
replies it is going to give and the requests it has received, and the random
generator of the library with the results it is going to give (`none`: no
generator or no bytes). -/
structure HANDLE where
  replies : Nat → wfp_reply
  trace : List wfp_request
  rng : Nat → Option Nat
  rng_used : Nat

/-- One engine call: the request is recorded and answered by the next reply. -/
def wfp_call (h : HANDLE) (req : wfp_request) : wfp_reply × HANDLE :=
  (h.replies h.trace.length, { h with trace := h.trace ++ [req] })

/-! ## Records of the plugin -/

/-- Algorithm slot of an SA: identifier and key. -/
structure alg_key_t where
  alg : Nat
  key : chunk_t
  deriving DecidableEq

/-- Security association entry (`sa_entry_t`); `dst` is a pointer and may be NULL. -/
structure sa_entry_t where
  spi : Nat
  protocol : Nat
  lifetime : Nat
  dst : Option host_t
  integ : alg_key_t
  encr : alg_key_t
  deriving DecidableEq

/-- Security policy entry (`sp_entry_t`). -/
structure sp_entry_t where
  src : traffic_selector_t
  dst : traffic_selector_t
  deriving DecidableEq

/-- Collection of SA/SP database entries for a reqid (`entry_t`). The field
`local_` is `local` in the source. -/
structure entry_t where
  reqid : Nat
  local_ : host_t
  remote : host_t
  isa : sa_entry_t
  osa : sa_entry_t
  sps : List sp_entry_t
  mode : ipsec_mode_t
  encap : Bool
  policy_in : Nat
  policy_out : Nat
  sa_id : Nat
  deriving DecidableEq

/-- Zeroed `sa_entry_t`. -/
def sa_entry_zero : sa_entry_t :=
  { spi := 0, protocol := 0, lifetime := 0, dst := none,
    integ := { alg := 0, key := [] }, encr := { alg := 0, key := [] } }

/-- Content of memory that holds no entry. -/
def entry_zero : entry_t :=
  { reqid := 0, local_ := { get_family := family_t.AF_UNSPEC, get_address := [] },
    remote := { get_family := family_t.AF_UNSPEC, get_address := [] },
    isa := sa_entry_zero, osa := sa_entry_zero, sps := [],
    mode := ipsec_mode_t.MODE_TRANSPORT, encap := false,
    policy_in := 0, policy_out := 0, sa_id := 0 }

/-- What `hash_sa` and `equals_sa` read of a key: SPI and destination address. -/
structure sa_key_t where
  spi : Nat
  dst : host_t
  deriving DecidableEq

/-- Modelled from the spec: `hashtable_t` (collections/hashtable.c is not under src/),
a map from keys compared by value to entry pointers, as a list of bindings. -/
abbrev hashtable_t (κ : Type) := List (κ × Nat)

/-- Modelled from the spec: `hashtable_t.get`, the value bound to the key. -/
def hashtable_get {κ : Type} [DecidableEq κ] : hashtable_t κ → κ → Option Nat
  | [], _ => none
  | (k, v) :: t, key => if k = key then some v else hashtable_get t key

/-- Bindings of a table without those of one key. -/
def hashtable_erase {κ : Type} [DecidableEq κ] : hashtable_t κ → κ → hashtable_t κ
  | [], _ => []
  | (k, v) :: t, key =>
    if k = key then hashtable_erase t key else (k, v) :: hashtable_erase t key

/-- Modelled from the spec: `hashtable_t.put`, binds the key to the value and
replaces an existing binding of the key. -/
def hashtable_put {κ : Type} [DecidableEq κ] (t : hashtable_t κ) (key : κ) (v : Nat) :
    hashtable_t κ :=
  (key, v) :: hashtable_erase t key

/-- Modelled from the spec: `hashtable_t.remove`, removes the binding of the key and
returns the value it had. -/
def hashtable_remove {κ : Type} [DecidableEq κ] (t : hashtable_t κ) (key : κ) :
    Option Nat × hashtable_t κ :=
  (hashtable_get t key, hashtable_erase t key)

/-- Data of an expire callback job (`expire_data_t`). -/
structure expire_data_t where
  spi : Nat
  dst : host_t
  hard : Bool
  deriving DecidableEq

/-- Arguments of one `hydra->kernel_interface->expire` notification. -/
structure expire_event_t where
  reqid : Nat
  protocol : Nat
  spi : Nat
  hard : Bool
  deriving DecidableEq

/-- State of the backend (`private_kernel_wfp_ipsec_t`) together with the memory
and the collaborators it acts on: the entry heap with the next free address, the
log of `entry_destroy` calls, the jobs handed to the scheduler (with their delay)
and the notifications delivered to the kernel interface. -/
structure private_kernel_wfp_ipsec_t where
  nextspi : Nat
  tsas : hashtable_t Nat
  isas : hashtable_t sa_key_t
  osas : hashtable_t sa_key_t
  handle : HANDLE
  heap : Nat → entry_t
  brk : Nat
  destroyed : List Nat
  scheduled : List (expire_data_t × Nat)
  expired : List expire_event_t

/-! ## Algorithm translation tables -/

/-- The table of `alg2auth`. -/
def alg2auth_map : List (Nat × IPSEC_AUTH_TRANSFORM_ID0) :=
  [ (AUTH_HMAC_MD5_96, IPSEC_AUTH_TRANSFORM_ID0.IPSEC_AUTH_TRANSFORM_ID_HMAC_MD5_96),
    (AUTH_HMAC_SHA1_96, IPSEC_AUTH_TRANSFORM_ID0.IPSEC_AUTH_TRANSFORM_ID_HMAC_SHA_1_96),
    (AUTH_HMAC_SHA2_256_128,
      IPSEC_AUTH_TRANSFORM_ID0.IPSEC_AUTH_TRANSFORM_ID_HMAC_SHA_256_128),
    (AUTH_AES_128_GMAC, IPSEC_AUTH_TRANSFORM_ID0.IPSEC_AUTH_TRANSFORM_ID_GCM_AES_128),
    (AUTH_AES_192_GMAC, IPSEC_AUTH_TRANSFORM_ID0.IPSEC_AUTH_TRANSFORM_ID_GCM_AES_192),
    (AUTH_AES_256_GMAC, IPSEC_AUTH_TRANSFORM_ID0.IPSEC_AUTH_TRANSFORM_ID_GCM_AES_256) ]

/-- The loop of `alg2auth` over the rows that are left. -/
def alg2auth_scan (alg : Nat) (info : IPSEC_SA_AUTH_INFORMATION0) :
    List (Nat × IPSEC_AUTH_TRANSFORM_ID0) → Bool × IPSEC_SA_AUTH_INFORMATION0
  | [] => (false, info)
  | (a, t) :: rest =>
    if a = alg then (true, { info with authTransformId := t })
    else alg2auth_scan alg info rest

/-- Convert an `integrity_algorithm_t` to an engine transform: the flag it returns
and the content of `*info` afterwards. -/
def alg2auth (alg : Nat) (info : IPSEC_SA_AUTH_INFORMATION0) :
    Bool × IPSEC_SA_AUTH_INFORMATION0 :=
  alg2auth_scan alg info alg2auth_map

/-- The table of `alg2cipher`. -/
def alg2cipher_map : List (Nat × Int × IPSEC_CIPHER_TRANSFORM_ID0) :=
  [ (ENCR_DES, 8, IPSEC_CIPHER_TRANSFORM_ID0.IPSEC_CIPHER_TRANSFORM_ID_CBC_DES),
    (ENCR_3DES, 24, IPSEC_CIPHER_TRANSFORM_ID0.IPSEC_CIPHER_TRANSFORM_ID_CBC_3DES),
    (ENCR_AES_CBC, 16, IPSEC_CIPHER_TRANSFORM_ID0.IPSEC_CIPHER_TRANSFORM_ID_AES_128),
    (ENCR_AES_CBC, 24, IPSEC_CIPHER_TRANSFORM_ID0.IPSEC_CIPHER_TRANSFORM_ID_AES_192),
    (ENCR_AES_CBC, 32, IPSEC_CIPHER_TRANSFORM_ID0.IPSEC_CIPHER_TRANSFORM_ID_AES_256),
    (ENCR_AES_GCM_ICV16, 20,
      IPSEC_CIPHER_TRANSFORM_ID0.IPSEC_CIPHER_TRANSFORM_ID_GCM_AES_128),
    (ENCR_AES_GCM_ICV16, 28,
      IPSEC_CIPHER_TRANSFORM_ID0.IPSEC_CIPHER_TRANSFORM_ID_GCM_AES_192),
    (ENCR_AES_GCM_ICV16, 36,
      IPSEC_CIPHER_TRANSFORM_ID0.IPSEC_CIPHER_TRANSFORM_ID_GCM_AES_256) ]

/-- The loop of `alg2cipher` over the rows that are left. -/
def alg2cipher_scan (alg : Nat) (keylen : Int) (info : IPSEC_SA_CIPHER_INFORMATION0) :
    List (Nat × Int × IPSEC_CIPHER_TRANSFORM_ID0) → Bool × IPSEC_SA_CIPHER_INFORMATION0
  | [] => (false, info)
  | (a, k, t) :: rest =>
    if a = alg ∧ k = keylen then (true, { info with cipherTransformId := t })
    else alg2cipher_scan alg keylen info rest

/-- Convert an `encryption_algorithm_t` and a key length in bytes to an engine
transform: the flag it returns and the content of `*info` afterwards. -/
def alg2cipher (alg : Nat) (keylen : Int) (info : IPSEC_SA_CIPHER_INFORMATION0) :
    Bool × IPSEC_SA_CIPHER_INFORMATION0 :=
  alg2cipher_scan alg keylen info alg2cipher_map

/-- The table of `encr2integ`. -/
def encr2integ_map : List (Nat × Int × Nat) :=
  [ (ENCR_NULL_AUTH_AES_GMAC, 20, AUTH_AES_128_GMAC),
    (ENCR_NULL_AUTH_AES_GMAC, 28, AUTH_AES_192_GMAC),
    (ENCR_NULL_AUTH_AES_GMAC, 36, AUTH_AES_256_GMAC),
    (ENCR_AES_GCM_ICV16, 20, AUTH_AES_128_GMAC),
    (ENCR_AES_GCM_ICV16, 28, AUTH_AES_192_GMAC),
    (ENCR_AES_GCM_ICV16, 36, AUTH_AES_256_GMAC) ]

/-- The loop of `encr2integ` over the rows that are left. -/
def encr2integ_scan (encr : Nat) (keylen : Int) : List (Nat × Int × Nat) → Nat
  | [] => AUTH_UNDEFINED
  | (e, k, i) :: rest =>
    if e = encr ∧ k = keylen then i else encr2integ_scan encr keylen rest

/-- Get the integrity algorithm used for an AEAD transform. -/
def encr2integ (encr : Nat) (keylen : Int) : Nat :=
  encr2integ_scan encr keylen encr2integ_map

/-! ## Traffic selectors to filter conditions -/

/-- The bytes `prefix2mask` leaves in `netmask` from position `4 - n` on, for the
prefix length that is left at that position. -/
def prefix2mask_bytes : Nat → Nat → List Nat
  | 0, _ => []
  | n + 1, pfx =>
    if pfx < 8 then ((0xFF <<< (8 - pfx)) % 256) :: List.replicate n 0
    else 0xFF :: prefix2mask_bytes n (pfx - 8)

/-- Convert an IPv4 prefix to a host order subnet mask. -/
def prefix2mask (pfx : Nat) : Nat :=
  untoh32 (prefix2mask_bytes 4 pfx)

/-- Convert a 16-bit range to the match type and value of a condition. -/
def range2cond (cond : FWPM_FILTER_CONDITION0) (from_ to_ : Nat) :
    FWPM_FILTER_CONDITION0 :=
  if from_ = to_ then
    { cond with matchType := FWP_MATCH_TYPE.FWP_MATCH_EQUAL,
                conditionValue := FWP_CONDITION_VALUE0.FWP_UINT16 from_ }
  else
    { cond with matchType := FWP_MATCH_TYPE.FWP_MATCH_RANGE,
                conditionValue := FWP_CONDITION_VALUE0.FWP_RANGE_TYPE
                  (FWP_VALUE0.FWP_UINT16 from_) (FWP_VALUE0.FWP_UINT16 to_) }

/-- A freshly appended condition: zeroed memory. -/
def condition_zero : FWPM_FILTER_CONDITION0 :=
  { fieldKey := FWPM_CONDITION.ZERO, matchType := FWP_MATCH_TYPE.FWP_MATCH_EQUAL,
    conditionValue := FWP_CONDITION_VALUE0.FWP_EMPTY }

/-- The address condition of `ts2condition`: whether the selector could be
translated and the content of the appended condition at that point. -/
def ts2condition_address (ts : traffic_selector_t) (local_ : Bool) :
    Bool × FWPM_FILTER_CONDITION0 :=
  let from_ := ts.get_from_address
  let to_ := ts.get_to_address
  let cond := { condition_zero with
    fieldKey := if local_ then FWPM_CONDITION.FWPM_CONDITION_IP_LOCAL_ADDRESS
                else FWPM_CONDITION.FWPM_CONDITION_IP_REMOTE_ADDRESS }
  if ts.is_host then
    let cond := { cond with matchType := FWP_MATCH_TYPE.FWP_MATCH_EQUAL }
    match ts.get_type with
    | ts_type_t.TS_IPV4_ADDR_RANGE =>
      (true, { cond with
        conditionValue := FWP_CONDITION_VALUE0.FWP_UINT32 (untoh32 from_) })
    | ts_type_t.TS_IPV6_ADDR_RANGE =>
      (true, { cond with
        conditionValue := FWP_CONDITION_VALUE0.FWP_BYTE_ARRAY16_TYPE (from_.take 16) })
    | _ => (false, cond)
  else if ts.to_subnet then
    let cond := { cond with matchType := FWP_MATCH_TYPE.FWP_MATCH_EQUAL }
    match ts.to_subnet_net.get_family with
    | family_t.AF_INET =>
      (true, { cond with
        conditionValue := FWP_CONDITION_VALUE0.FWP_V4_ADDR_MASK (untoh32 from_)
          (prefix2mask ts.to_subnet_mask) })
    | family_t.AF_INET6 =>
      (true, { cond with
        conditionValue := FWP_CONDITION_VALUE0.FWP_V6_ADDR_MASK (from_.take 16)
          ts.to_subnet_mask })
    | _ => (false, cond)
  else
    let cond := { cond with matchType := FWP_MATCH_TYPE.FWP_MATCH_RANGE }
    match ts.get_type with
    | ts_type_t.TS_IPV4_ADDR_RANGE =>
      (true, { cond with
        conditionValue := FWP_CONDITION_VALUE0.FWP_RANGE_TYPE
          (FWP_VALUE0.FWP_UINT32 (untoh32 from_)) (FWP_VALUE0.FWP_UINT32 (untoh32 to_)) })
    | ts_type_t.TS_IPV6_ADDR_RANGE =>
      (true, { cond with
        conditionValue := FWP_CONDITION_VALUE0.FWP_RANGE_TYPE
          (FWP_VALUE0.FWP_BYTE_ARRAY16_TYPE (from_.take 16))
          (FWP_VALUE0.FWP_BYTE_ARRAY16_TYPE (to_.take 16)) })
    | _ =>
      (false, { cond with
        conditionValue := FWP_CONDITION_VALUE0.FWP_RANGE_TYPE
          FWP_VALUE0.FWP_EMPTY FWP_VALUE0.FWP_EMPTY })

/-- The protocol condition of `ts2condition`. -/
def ts2condition_protocol (ts : traffic_selector_t) (local_ : Bool) :
    List FWPM_FILTER_CONDITION0 :=
  if ts.get_protocol ≠ 0 ∧ local_ = true then
    [ { fieldKey := FWPM_CONDITION.FWPM_CONDITION_IP_PROTOCOL,
        matchType := FWP_MATCH_TYPE.FWP_MATCH_EQUAL,
        conditionValue := FWP_CONDITION_VALUE0.FWP_UINT8 ts.get_protocol } ]
  else []

/-- The port or ICMP conditions of `ts2condition`. -/
def ts2condition_ports (ts : traffic_selector_t) (local_ : Bool) :
    List FWPM_FILTER_CONDITION0 :=
  let from_port := ts.get_from_port
  let to_port := ts.get_to_port
  if ts.get_protocol = IPPROTO_ICMP then
    if local_ then
      let from_type := traffic_selector_icmp_type from_port
      let to_type := traffic_selector_icmp_type to_port
      let from_code := traffic_selector_icmp_code from_port
      let to_code := traffic_selector_icmp_code to_port
      (if from_type ≠ 0 ∨ to_type ≠ 0xFF then
        [ range2cond { condition_zero with
            fieldKey := FWPM_CONDITION.FWPM_CONDITION_ICMP_TYPE } from_type to_type ]
       else []) ++
      (if from_code ≠ 0 ∨ to_code ≠ 0xFF then
        [ range2cond { condition_zero with
            fieldKey := FWPM_CONDITION.FWPM_CONDITION_ICMP_CODE } from_code to_code ]
       else [])
    else []
  else if from_port ≠ 0 ∨ to_port ≠ 0xFFFF then
    [ range2cond { condition_zero with
        fieldKey := if local_ then FWPM_CONDITION.FWPM_CONDITION_IP_LOCAL_PORT
                    else FWPM_CONDITION.FWPM_CONDITION_IP_REMOTE_PORT }
        from_port to_port ]
  else []

/-- (Re-)allocate filter conditions for given local or remote traffic selector:
the flag it returns and the condition array afterwards. -/
def ts2condition (ts : traffic_selector_t) (local_ : Bool)
    (conds : List FWPM_FILTER_CONDITION0) : Bool × List FWPM_FILTER_CONDITION0 :=
  match ts2condition_address ts local_ with
  | (false, cond) => (false, conds ++ [cond])
  | (true, cond) =>
    (true, conds ++ [cond] ++ ts2condition_protocol ts local_ ++
      ts2condition_ports ts local_)

/-! ## Cleanup and destruction -/

/-- Remove a transport or tunnel policy from kernel. The reply to
`FwpmProviderContextGetById0` carries the key of the context it returns. -/
def cleanup_policy (h : HANDLE) (transport : Bool) (policy : Nat) : HANDLE :=
  if transport then
    (wfp_call h (wfp_request.FwpmFilterDeleteById0 policy)).2
  else
    let r := wfp_call h (wfp_request.FwpmProviderContextGetById0 policy)
    if r.1.res = 0 then
      (wfp_call r.2 (wfp_request.FwpmIPsecTunnelDeleteByKey0 (r.1.out.getD 0))).2
    else r.2

/-- Remove policies associated to an entry from kernel. -/
def cleanup_policies (h : HANDLE) (entry : entry_t) : HANDLE × entry_t :=
  let r1 : HANDLE × entry_t :=
    if entry.policy_in ≠ 0 then
      (cleanup_policy h (entry.mode = ipsec_mode_t.MODE_TRANSPORT) entry.policy_in,
        { entry with policy_in := 0 })
    else (h, entry)
  if r1.2.policy_out ≠ 0 then
    (cleanup_policy r1.1 (r1.2.mode = ipsec_mode_t.MODE_TRANSPORT) r1.2.policy_out,
      { r1.2 with policy_out := 0 })
  else r1

/-- Destroy a SA/SP entry set. The record keeps its last content in the model; the
address is appended to the log of destroyed entries. -/
def entry_destroy (this : private_kernel_wfp_ipsec_t) (entry : Nat) :
    private_kernel_wfp_ipsec_t :=
  let e := this.heap entry
  let h := if e.sa_id ≠ 0 then
      (wfp_call this.handle (wfp_request.IPsecSaContextDeleteById0 e.sa_id)).2
    else this.handle
  let r := cleanup_policies h e
  { this with handle := r.1, heap := Function.update this.heap entry r.2,
              destroyed := this.destroyed ++ [entry] }

/-! ## Installation pipeline -/

/-- The loop of `install_transport_sp` over the policies that are left. -/
def install_transport_sp_conds (inbound : Bool) :
    List sp_entry_t → List FWPM_FILTER_CONDITION0 → Bool × List FWPM_FILTER_CONDITION0
  | [], conds => (true, conds)
  | sp :: rest, conds =>
    let local_ := if inbound then sp.dst else sp.src
    let remote := if inbound then sp.src else sp.dst
    let r1 := ts2condition local_ true conds
    if r1.1 = false then (false, r1.2)
    else
      let r2 := ts2condition remote false r1.2
      if r2.1 = false then (false, r2.2)
      else install_transport_sp_conds inbound rest r2.2

/-- Install transport mode SP to the kernel. -/
def install_transport_sp (h : HANDLE) (entry : entry_t) (inbound : Bool) :
    Bool × HANDLE × entry_t :=
  let c := install_transport_sp_conds inbound entry.sps []
  if c.1 = false then (false, h, entry)
  else
    let r := wfp_call h
      (wfp_request.FwpmFilterAdd0 { inbound := inbound, filterCondition := c.2 })
    let entry :=
      if inbound then { entry with policy_in := r.1.out.getD entry.policy_in }
      else { entry with policy_out := r.1.out.getD entry.policy_out }
    if r.1.res ≠ 0 then (false, r.2, entry) else (true, r.2, entry)

/-- What the `switch` of `install_sa` settles: the transform shape and the two
local algorithm slots `integ` and `encr` (zeroed when not assigned). -/
structure install_sa_choice where
  saTransformType : IPSEC_TRANSFORM_TYPE
  integ : alg_key_t
  encr : alg_key_t
  deriving DecidableEq

/-- The `switch (sa->protocol)` of `install_sa`; `none` is the `default:` branch. -/
def install_sa_select (sa : sa_entry_t) : Option install_sa_choice :=
  if sa.protocol = IPPROTO_AH then
    some { saTransformType := IPSEC_TRANSFORM_TYPE.IPSEC_TRANSFORM_AH,
           integ := { alg := sa.integ.alg, key := sa.integ.key },
           encr := { alg := 0, key := [] } }
  else if sa.protocol = IPPROTO_ESP then
    let integ : alg_key_t :=
      if encryption_algorithm_is_aead sa.encr.alg then
        { alg := encr2integ sa.encr.alg sa.encr.key.length, key := sa.encr.key }
      else { alg := sa.integ.alg, key := sa.integ.key }
    if sa.encr.alg = ENCR_NULL ∨ sa.encr.alg = ENCR_NULL_AUTH_AES_GMAC then
      some { saTransformType := IPSEC_TRANSFORM_TYPE.IPSEC_TRANSFORM_ESP_AUTH,
             integ := integ, encr := { alg := 0, key := [] } }
    else
      some { saTransformType := IPSEC_TRANSFORM_TYPE.IPSEC_TRANSFORM_ESP_AUTH_AND_CIPHER,
             integ := integ, encr := { alg := sa.encr.alg, key := sa.encr.key } }
  else none

/-- The zeroed `IPSEC_SA_AUTH_AND_CIPHER_INFORMATION0 info = {}`. -/
def info_zero : IPSEC_SA_AUTH_AND_CIPHER_INFORMATION0 :=
  { saCipherInformation :=
      { cipherTransformId := IPSEC_CIPHER_TRANSFORM_ID0.ZERO, cipherKey := [] },
    saAuthInformation :=
      { authTransformId := IPSEC_AUTH_TRANSFORM_ID0.ZERO, authKey := [] } }

/-- The two algorithm lookups of `install_sa`: `none` when one of them reports an
unsupported algorithm, else the content of `info`. -/
def install_sa_info (c : install_sa_choice) :
    Option IPSEC_SA_AUTH_AND_CIPHER_INFORMATION0 :=
  let a : Bool × IPSEC_SA_AUTH_INFORMATION0 :=
    if c.integ.alg ≠ 0 then
      alg2auth c.integ.alg { info_zero.saAuthInformation with authKey := c.integ.key }
    else (true, info_zero.saAuthInformation)
  if a.1 = false then none
  else
    let e : Bool × IPSEC_SA_CIPHER_INFORMATION0 :=
      if c.encr.alg ≠ 0 then
        alg2cipher c.encr.alg c.encr.key.length
          { info_zero.saCipherInformation with cipherKey := c.encr.key }
      else (true, info_zero.saCipherInformation)
    if e.1 = false then none
    else some { saCipherInformation := e.2, saAuthInformation := a.2 }

/-- The bundle `install_sa` hands to the engine. -/
def install_sa_bundle (entry : entry_t) (inbound : Bool) (sa : sa_entry_t)
    (version : FWP_IP_VERSION) (c : install_sa_choice)
    (info : IPSEC_SA_AUTH_AND_CIPHER_INFORMATION0) : IPSEC_SA_BUNDLE0 :=
  { lifetimeSeconds := if inbound then entry.isa.lifetime else entry.osa.lifetime,
    saList := [ { spi := ntohl sa.spi, saTransformType := c.saTransformType,
                  information := match c.saTransformType with
                    | IPSEC_TRANSFORM_TYPE.IPSEC_TRANSFORM_AH =>
                      IPSEC_SA0_information.ahInformation info.saAuthInformation
                    | IPSEC_TRANSFORM_TYPE.IPSEC_TRANSFORM_ESP_AUTH =>
                      IPSEC_SA0_information.espAuthInformation info.saAuthInformation
                    | IPSEC_TRANSFORM_TYPE.IPSEC_TRANSFORM_ESP_AUTH_AND_CIPHER =>
                      IPSEC_SA0_information.espAuthAndCipherInformation info } ],
    ipVersion := version }

/-- Install a single SA. -/
def install_sa (h : HANDLE) (entry : entry_t) (inbound : Bool) (sa : sa_entry_t)
    (version : FWP_IP_VERSION) : Bool × HANDLE :=
  match install_sa_select sa with
  | none => (false, h)
  | some c =>
    match install_sa_info c with
    | none => (false, h)
    | some info =>
      let bundle := install_sa_bundle entry inbound sa version c info
      let r := wfp_call h
        (if inbound then wfp_request.IPsecSaContextAddInbound0 entry.sa_id bundle
         else wfp_request.IPsecSaContextAddOutbound0 entry.sa_id bundle)
      if r.1.res ≠ 0 then (false, r.2) else (true, r.2)

/-- The address of a host in the representation of the engine, with the IP
version; `none` for a family the `default:` branches reject. -/
def host2wfp (host : host_t) : Option (FWP_IP_VERSION × wfp_address) :=
  match host.get_family with
  | family_t.AF_INET =>
    some (FWP_IP_VERSION.FWP_IP_VERSION_V4, wfp_address.v4 (untoh32 host.get_address))
  | family_t.AF_INET6 =>
    some (FWP_IP_VERSION.FWP_IP_VERSION_V6, wfp_address.v6 (host.get_address.take 16))
  | family_t.AF_UNSPEC => none

/-- The remote address in the representation chosen by the family of the local one. -/
def remote2wfp (version : FWP_IP_VERSION) (remote : host_t) : wfp_address :=
  match version with
  | FWP_IP_VERSION.FWP_IP_VERSION_V4 => wfp_address.v4 (untoh32 remote.get_address)
  | FWP_IP_VERSION.FWP_IP_VERSION_V6 => wfp_address.v6 (remote.get_address.take 16)

/-- Install SAs to the kernel. -/
def install_sas (h : HANDLE) (entry : entry_t) (type : IPSEC_TRAFFIC_TYPE) :
    Bool × HANDLE × entry_t :=
  match host2wfp entry.local_ with
  | none => (false, h, entry)
  | some (version, laddr) =>
    let traffic : IPSEC_TRAFFIC0 :=
      { ipVersion := version, localAddress := laddr,
        remoteAddress := remote2wfp version entry.remote, trafficType := type,
        filterId := if type = IPSEC_TRAFFIC_TYPE.IPSEC_TRAFFIC_TYPE_TRANSPORT
                    then entry.policy_out else entry.policy_in }
    let spi : IPSEC_GETSPI1 :=
      { inboundIpsecTraffic :=
          { ipVersion := FWP_IP_VERSION.FWP_IP_VERSION_V4,
            localAddress := traffic.localAddress,
            remoteAddress := traffic.remoteAddress, trafficType := type,
            filterId := entry.policy_in },
        ipVersion := traffic.ipVersion }
    let r1 := wfp_call h (wfp_request.IPsecSaContextCreate0 traffic)
    let entry := { entry with sa_id := r1.1.out.getD entry.sa_id }
    if r1.1.res ≠ 0 then (false, r1.2, entry)
    else
      let r2 := wfp_call r1.2
        (wfp_request.IPsecSaContextSetSpi0 entry.sa_id spi (ntohl entry.isa.spi))
      if r2.1.res ≠ 0 then
        ( false,
          (wfp_call r2.2 (wfp_request.IPsecSaContextDeleteById0 entry.sa_id)).2,
          { entry with sa_id := 0 } )
      else
        let r3 := install_sa r2.2 entry true entry.isa spi.ipVersion
        if r3.1 = false then
          ( false,
            (wfp_call r3.2 (wfp_request.IPsecSaContextDeleteById0 entry.sa_id)).2,
            { entry with sa_id := 0 } )
        else
          let r4 := install_sa r3.2 entry false entry.osa spi.ipVersion
          if r4.1 = false then
            ( false,
              (wfp_call r4.2 (wfp_request.IPsecSaContextDeleteById0 entry.sa_id)).2,
              { entry with sa_id := 0 } )
          else (true, r4.2, entry)

/-- The three steps of `install_transport`, evaluated left to right until one fails. -/
def install_transport_steps (h : HANDLE) (entry : entry_t) : Bool × HANDLE × entry_t :=
  let r1 := install_transport_sp h entry true
  if r1.1 = false then r1
  else
    let r2 := install_transport_sp r1.2.1 r1.2.2 false
    if r2.1 = false then r2
    else install_sas r2.2.1 r2.2.2 IPSEC_TRAFFIC_TYPE.IPSEC_TRAFFIC_TYPE_TRANSPORT

/-- Install a transport mode SA/SP set to the kernel. -/
def install_transport (h : HANDLE) (entry : entry_t) : Bool × HANDLE × entry_t :=
  let r := install_transport_steps h entry
  if r.1 = true then r
  else
    let c := cleanup_policies r.2.1 r.2.2
    (false, c.1, c.2)

/-- Generate a new GUID, random: the GUID, or `none` when there is no generator or
it delivers no bytes. -/
def generate_guid (h : HANDLE) : Option Nat × HANDLE :=
  (h.rng h.rng_used, { h with rng_used := h.rng_used + 1 })

/-- The loop of `install_tunnel_sps` over the policies that are left. -/
def install_tunnel_sps_conds :
    List sp_entry_t → List FWPM_FILTER_CONDITION0 → Bool × List FWPM_FILTER_CONDITION0
  | [], conds => (true, conds)
  | sp :: rest, conds =>
    let r1 := ts2condition sp.src true conds
    if r1.1 = false then (false, r1.2)
    else
      let r2 := ts2condition sp.dst false r1.2
      if r2.1 = false then (false, r2.2)
      else install_tunnel_sps_conds rest r2.2

/-- Install tunnel mode SPs to the kernel. The reply to
`FwpmProviderContextGetByKey0` carries the identifier of the context it returns. -/
def install_tunnel_sps (h : HANDLE) (entry : entry_t) : Bool × HANDLE × entry_t :=
  match host2wfp entry.local_ with
  | none => (false, h, entry)
  | some (version, laddr) =>
    let tunnelEndpoints : IPSEC_TUNNEL_ENDPOINTS0 :=
      { ipVersion := version, localAddress := laddr,
        remoteAddress := remote2wfp version entry.remote }
    let g := generate_guid h
    match g.1 with
    | none => (false, g.2, entry)
    | some guid =>
      let c := install_tunnel_sps_conds entry.sps []
      if c.1 = false then (false, g.2, entry)
      else
        let r1 := wfp_call g.2 (wfp_request.FwpmIPsecTunnelAdd0 guid tunnelEndpoints c.2)
        if r1.1.res ≠ 0 then (false, r1.2, entry)
        else
          let r2 := wfp_call r1.2 (wfp_request.FwpmProviderContextGetByKey0 guid)
          if r2.1.res ≠ 0 then (false, r2.2, entry)
          else (true, r2.2, { entry with policy_in := r2.1.out.getD 0 })

/-- The two steps of `install_tunnel`, evaluated left to right until one fails. -/
def install_tunnel_steps (h : HANDLE) (entry : entry_t) : Bool × HANDLE × entry_t :=
  let r1 := install_tunnel_sps h entry
  if r1.1 = false then r1
  else install_sas r1.2.1 r1.2.2 IPSEC_TRAFFIC_TYPE.IPSEC_TRAFFIC_TYPE_TUNNEL

/-- Install a tunnel mode SA/SP set to the kernel. -/
def install_tunnel (h : HANDLE) (entry : entry_t) : Bool × HANDLE × entry_t :=
  let r := install_tunnel_steps h entry
  if r.1 = true then r
  else
    let c := cleanup_policies r.2.1 r.2.2
    (false, c.1, c.2)

/-- Install a SA/SP set to the kernel. -/
def install (h : HANDLE) (entry : entry_t) : Bool × HANDLE × entry_t :=
  match entry.mode with
  | ipsec_mode_t.MODE_TRANSPORT => install_transport h entry
  | ipsec_mode_t.MODE_TUNNEL => install_tunnel h entry
  | _ => (false, h, entry)

/-! ## Expiration -/

/-- Callback job for SA expiration. -/
def expire_job (this : private_kernel_wfp_ipsec_t) (data : expire_data_t) :
    private_kernel_wfp_ipsec_t :=
  let key : sa_key_t := { spi := data.spi, dst := data.dst }
  if data.hard then
    let r := hashtable_remove this.isas key
    let this := { this with isas := r.2 }
    match r.1 with
    | some entry =>
      let protocol := (this.heap entry).isa.protocol
      let reqid := (this.heap entry).reqid
      let this :=
        match (this.heap entry).osa.dst with
        | some dst =>
          { this with osas := (hashtable_remove this.osas
              { spi := (this.heap entry).osa.spi, dst := dst }).2 }
        | none => this
      let this := entry_destroy this entry
      if reqid ≠ 0 then
        { this with expired := this.expired ++
            [ { reqid := reqid, protocol := protocol, spi := data.spi, hard := data.hard } ] }
      else this
    | none => this
  else
    match hashtable_get this.isas key with
    | some entry =>
      let protocol := (this.heap entry).isa.protocol
      let reqid := (this.heap entry).reqid
      if reqid ≠ 0 then
        { this with expired := this.expired ++
            [ { reqid := reqid, protocol := protocol, spi := data.spi, hard := data.hard } ] }
      else this
    | none => this

/-- Schedule an expire event for an SA. The parameter `lifetime` is a `u_int32_t`:
of the value the caller passes, the low 32 bits are the delay of the job. -/
def schedule_expire (this : private_kernel_wfp_ipsec_t) (spi : Nat) (dst : host_t)
    (lifetime : Nat) (hard : Bool) : private_kernel_wfp_ipsec_t :=
  { this with scheduled := this.scheduled ++
      [ ({ spi := spi, dst := dst, hard := hard }, lifetime % 2 ^ 32) ] }

/-! ## Public interface -/

/-- The method `add_sa`; the arguments the body does not read (mark, tfc, ipcomp,
cpi, initiator, esn and the two selectors) are left out. The field `lifetime` of
an `sa_entry_t` is a `u_int32_t`: the assignment of the 64-bit `time.life` keeps
the low 32 bits. The tests before `schedule_expire` read the 64-bit values. -/
def add_sa (this : private_kernel_wfp_ipsec_t) (src dst : host_t) (spi protocol reqid : Nat)
    (lifetime : lifetime_cfg_t) (enc_alg : Nat) (enc_key : chunk_t) (int_alg : Nat)
    (int_key : chunk_t) (mode : ipsec_mode_t) (encap inbound : Bool) :
    status_t × private_kernel_wfp_ipsec_t :=
  if inbound then
    let local_ := dst
    let remote := src
    let e : entry_t :=
      { entry_zero with
        reqid := reqid,
        isa := { spi := spi, dst := some local_, protocol := protocol,
                 lifetime := lifetime.life % 2 ^ 32,
                 encr := { alg := enc_alg, key := enc_key },
                 integ := { alg := int_alg, key := int_key } },
        sps := [], local_ := local_, remote := remote, mode := mode, encap := encap }
    let entry := this.brk
    let this := { this with heap := Function.update this.heap entry e, brk := entry + 1 }
    let this :=
      if lifetime.life ≠ 0 then schedule_expire this spi local_ lifetime.life true
      else this
    let this :=
      if lifetime.rekey ≠ 0 ∧ lifetime.rekey ≠ lifetime.life then
        schedule_expire this spi local_ lifetime.rekey false
      else this
    ( status_t.SUCCESS,
      { this with tsas := hashtable_put this.tsas reqid entry,
                  isas := hashtable_put this.isas { spi := spi, dst := local_ } entry } )
  else
    let r := hashtable_remove this.tsas reqid
    let this := { this with tsas := r.2 }
    match r.1 with
    | none => (status_t.NOT_FOUND, this)
    | some entry =>
      let e := this.heap entry
      let e := { e with
        osa := { spi := spi, dst := some e.remote, protocol := protocol,
                 lifetime := lifetime.life % 2 ^ 32,
                 encr := { alg := enc_alg, key := enc_key },
                 integ := { alg := int_alg, key := int_key } } }
      ( status_t.SUCCESS,
        { this with heap := Function.update this.heap entry e,
                    osas := hashtable_put this.osas { spi := spi, dst := e.remote } entry } )

/-- The method `del_sa`; of its arguments the body reads `dst` and `spi`. -/
def del_sa (this : private_kernel_wfp_ipsec_t) (dst : host_t) (spi : Nat) :
    status_t × private_kernel_wfp_ipsec_t :=
  let key : sa_key_t := { spi := spi, dst := dst }
  let r := hashtable_remove this.isas key
  let this := { this with isas := r.2 }
  match r.1 with
  | some _ => (status_t.SUCCESS, this)
  | none =>
    let r := hashtable_remove this.osas key
    let this := { this with osas := r.2 }
    match r.1 with
    | some entry => (status_t.SUCCESS, entry_destroy this entry)
    | none => (status_t.NOT_FOUND, this)

/-- The method `add_policy`; of its arguments the body reads `dst`, the two
selectors, the direction, the SA configuration and the priority. -/
def add_policy (this : private_kernel_wfp_ipsec_t) (dst : host_t)
    (src_ts dst_ts : traffic_selector_t) (direction : policy_dir_t) (sa : ipsec_sa_cfg_t)
    (priority : policy_priority_t) : status_t × private_kernel_wfp_ipsec_t :=
  let key : sa_key_t := { spi := if sa.esp_use then sa.esp_spi else sa.ah_spi, dst := dst }
  if sa.esp_use = true ∧ sa.ah_use = true then (status_t.NOT_SUPPORTED, this)
  else
    match direction with
    | policy_dir_t.POLICY_IN => (status_t.SUCCESS, this)
    | policy_dir_t.POLICY_FWD => (status_t.SUCCESS, this)
    | policy_dir_t.POLICY_OUT =>
      match priority with
      | policy_priority_t.POLICY_PRIORITY_FALLBACK => (status_t.SUCCESS, this)
      | policy_priority_t.POLICY_PRIORITY_ROUTED => (status_t.NOT_SUPPORTED, this)
      | policy_priority_t.POLICY_PRIORITY_DEFAULT =>
        match hashtable_get this.osas key with
        | some entry =>
          if (this.heap entry).sps.length = 0 then
            let e := { this.heap entry with
              sps := (this.heap entry).sps ++ [ { src := src_ts, dst := dst_ts } ] }
            let r := install this.handle e
            ( if r.1 = false then status_t.FAILED else status_t.SUCCESS,
              { this with handle := r.2.1, heap := Function.update this.heap entry r.2.2 } )
          else (status_t.NOT_SUPPORTED, this)
        | none => (status_t.FAILED, this)

/-- Modelled from the spec: the feature flag `KERNEL_ESP_V3_TFC` of
`kernel_feature_t` (kernel/kernel_interface.h is not under src/). -/
abbrev KERNEL_ESP_V3_TFC : Nat := 1

/-- Modelled from the spec: the numeric value of a `status_t` enumerator
(utils/utils.h is not under src/); SUCCESS is zero, the others are not. -/
def status_value : status_t → Nat
  | status_t.SUCCESS => 0
  | status_t.FAILED => 1
  | status_t.NOT_SUPPORTED => 4
  | status_t.NOT_FOUND => 6

/-- The method `get_features`. -/
def get_features (this : private_kernel_wfp_ipsec_t) : Nat × private_kernel_wfp_ipsec_t :=
  (KERNEL_ESP_V3_TFC, this)

/-- The method `get_spi`: the status, the value stored in `*spi` and the state;
its arguments are not read. Modelled from the spec: `ref_get` (utils/utils.h is
not under src/) increments the 32-bit counter and returns the new value. -/
def get_spi (this : private_kernel_wfp_ipsec_t) :
    status_t × Nat × private_kernel_wfp_ipsec_t :=
  ( status_t.SUCCESS, (this.nextspi + 1) % 2 ^ 32,
    { this with nextspi := (this.nextspi + 1) % 2 ^ 32 } )

/-- The method `get_cpi`; its arguments are not read. -/
def get_cpi (this : private_kernel_wfp_ipsec_t) : status_t × private_kernel_wfp_ipsec_t :=
  (status_t.NOT_SUPPORTED, this)

/-- The method `update_sa`; its arguments are not read. -/
def update_sa (this : private_kernel_wfp_ipsec_t) : status_t × private_kernel_wfp_ipsec_t :=
  (status_t.NOT_SUPPORTED, this)

/-- The method `query_sa`; its arguments are not read. -/
def query_sa (this : private_kernel_wfp_ipsec_t) : status_t × private_kernel_wfp_ipsec_t :=
  (status_t.NOT_SUPPORTED, this)

/-- The method `flush_sas`. -/
def flush_sas (this : private_kernel_wfp_ipsec_t) : status_t × private_kernel_wfp_ipsec_t :=
  (status_t.NOT_SUPPORTED, this)

/-- The method `query_policy`; its arguments are not read. -/
def query_policy (this : private_kernel_wfp_ipsec_t) :
    status_t × private_kernel_wfp_ipsec_t :=
  (status_t.NOT_SUPPORTED, this)

/-- The method `del_policy`; its arguments are not read. -/
def del_policy (this : private_kernel_wfp_ipsec_t) : status_t × private_kernel_wfp_ipsec_t :=
  (status_t.SUCCESS, this)

/-- The method `flush_policies`. -/
def flush_policies (this : private_kernel_wfp_ipsec_t) :
    status_t × private_kernel_wfp_ipsec_t :=
  (status_t.NOT_SUPPORTED, this)

/-- The method `bypass_socket`; its arguments are not read. It is declared to
return `bool` and returns `NOT_SUPPORTED`: its caller sees that enumerator
converted to `bool`. -/
def bypass_socket (this : private_kernel_wfp_ipsec_t) : Bool × private_kernel_wfp_ipsec_t :=
  (decide (status_value status_t.NOT_SUPPORTED ≠ 0), this)

/-- The method `enable_udp_decap`; its arguments are not read. It is declared to
return `bool` and returns `NOT_SUPPORTED`: its caller sees that enumerator
converted to `bool`. -/
def enable_udp_decap (this : private_kernel_wfp_ipsec_t) :
    Bool × private_kernel_wfp_ipsec_t :=
  (decide (status_value status_t.NOT_SUPPORTED ≠ 0), this)

/-- Modelled from the spec: the engine status `FWP_E_ALREADY_EXISTS` (system
headers, not under src/). -/
abbrev FWP_E_ALREADY_EXISTS : Nat := 0x80320009

/-- The constructor `kernel_wfp_ipsec_create` for an outside world given by the
replies of the engine and the results of the random generator; `none` is NULL. -/
def kernel_wfp_ipsec_create (replies : Nat → wfp_reply) (rng : Nat → Option Nat) :
    Option private_kernel_wfp_ipsec_t :=
  let this : private_kernel_wfp_ipsec_t :=
    { nextspi := ntohl 0xc0000001, tsas := [], isas := [], osas := [],
      handle := { replies := replies, trace := [], rng := rng, rng_used := 0 },
      heap := fun _ => entry_zero, brk := 0, destroyed := [], scheduled := [],
      expired := [] }
  let r1 := wfp_call this.handle wfp_request.FwpmEngineOpen0
  if r1.1.res ≠ 0 then none
  else
    let r2 := wfp_call r1.2 wfp_request.FwpmProviderAdd0
    if r2.1.res ≠ 0 ∧ r2.1.res ≠ FWP_E_ALREADY_EXISTS then none
    else some { this with handle := r2.2 }

/-- Calls the backend can receive: the methods of the interface with the arguments
they read, and the firing of an expire job. The method `destroy` ends the life
of the backend and is not a call on a state. -/
inductive call_t
  | add_sa (src dst : host_t) (spi protocol reqid : Nat) (lifetime : lifetime_cfg_t)
      (enc_alg : Nat) (enc_key : chunk_t) (int_alg : Nat) (int_key : chunk_t)
      (mode : ipsec_mode_t) (encap inbound : Bool)
  | del_sa (dst : host_t) (spi : Nat)
  | add_policy (dst : host_t) (src_ts dst_ts : traffic_selector_t)
      (direction : policy_dir_t) (sa : ipsec_sa_cfg_t) (priority : policy_priority_t)
  | expire_job (data : expire_data_t)
  | get_features
  | get_spi
  | get_cpi
  | update_sa
  | query_sa
  | flush_sas
  | query_policy
  | del_policy
  | flush_policies
  | bypass_socket
  | enable_udp_decap
  deriving DecidableEq

/-- The state after one call. -/
def step (this : private_kernel_wfp_ipsec_t) : call_t → private_kernel_wfp_ipsec_t
  | call_t.add_sa src dst spi protocol reqid lifetime enc_alg enc_key int_alg int_key
      mode encap inbound =>
    (add_sa this src dst spi protocol reqid lifetime enc_alg enc_key int_alg int_key
      mode encap inbound).2
  | call_t.del_sa dst spi => (del_sa this dst spi).2
  | call_t.add_policy dst src_ts dst_ts direction sa priority =>
    (add_policy this dst src_ts dst_ts direction sa priority).2
  | call_t.expire_job data => expire_job this data
  | call_t.get_features => (get_features this).2
  | call_t.get_spi => (get_spi this).2.2
  | call_t.get_cpi => (get_cpi this).2
  | call_t.update_sa => (update_sa this).2
  | call_t.query_sa => (query_sa this).2
  | call_t.flush_sas => (flush_sas this).2
  | call_t.query_policy => (query_policy this).2
  | call_t.del_policy => (del_policy this).2
  | call_t.flush_policies => (flush_policies this).2
  | call_t.bypass_socket => (bypass_socket this).2
  | call_t.enable_udp_decap => (enable_udp_decap this).2

/-- The state after a sequence of calls. -/
def run (this : private_kernel_wfp_ipsec_t) (calls : List call_t) :
    private_kernel_wfp_ipsec_t :=
  calls.foldl step this

/-- States the backend reaches from its creation by a sequence of calls, for some
behaviour of the engine and of the random generator. -/
def Reachable (s : private_kernel_wfp_ipsec_t) : Prop :=
  ∃ (replies : Nat → wfp_reply) (rng : Nat → Option Nat) (s0 : private_kernel_wfp_ipsec_t)
    (calls : List call_t),
    kernel_wfp_ipsec_create replies rng = some s0 ∧ run s0 calls = s

/-! ## Sample data and the predicates of the statements -/

/-- An engine that accepts every request and stores the handle 7. -/
def wfp_accept : Nat → wfp_reply := fun _ => { res := 0, out := some 7 }

/-- A random generator that always delivers the GUID 42. -/
def rng_fixed : Nat → Option Nat := fun _ => some 42

/-- The address 10.0.0.1. -/
def host_a : host_t := { get_family := family_t.AF_INET, get_address := [10, 0, 0, 1] }

/-- The address 10.0.0.2. -/
def host_b : host_t := { get_family := family_t.AF_INET, get_address := [10, 0, 0, 2] }

/-- The address 10.0.0.3. -/
def host_c : host_t := { get_family := family_t.AF_INET, get_address := [10, 0, 0, 3] }

/-- The backend right after `kernel_wfp_ipsec_create` on an engine with the given
replies. -/
def backend_new (replies : Nat → wfp_reply) : private_kernel_wfp_ipsec_t :=
  { nextspi := ntohl 0xc0000001, tsas := [], isas := [], osas := [],
    handle := { replies := replies,
                trace := [wfp_request.FwpmEngineOpen0, wfp_request.FwpmProviderAdd0],
                rng := rng_fixed, rng_used := 0 },
    heap := fun _ => entry_zero, brk := 0, destroyed := [], scheduled := [], expired := [] }

/-- An `add_sa` call for an ESP SA with AES-CBC-128 and the given integrity
algorithm, transport mode, no lifetimes. -/
def sample_add_sa (inbound : Bool) (reqid spi : Nat) (src dst : host_t) (int_alg : Nat) :
    call_t :=
  call_t.add_sa src dst spi IPPROTO_ESP reqid { life := 0, rekey := 0 } ENCR_AES_CBC
    (List.replicate 16 1) int_alg (List.replicate 20 2) ipsec_mode_t.MODE_TRANSPORT false
    inbound

/-- The host-to-host selector of an IPv4 address, any protocol, any port. -/
def sample_ts (host : host_t) : traffic_selector_t :=
  { get_type := ts_type_t.TS_IPV4_ADDR_RANGE, get_from_address := host.get_address,
    get_to_address := host.get_address, get_from_port := 0, get_to_port := 65535,
    get_protocol := 0, is_host := true, to_subnet := true, to_subnet_net := host,
    to_subnet_mask := 32 }

/-- A backend holding one complete entry at address 0: inbound SA with SPI 1 towards
10.0.0.1, outbound SA with SPI 2 towards 10.0.0.2, HMAC-SHA1-96. -/
def backend_pair (replies : Nat → wfp_reply) : private_kernel_wfp_ipsec_t :=
  run (backend_new replies)
    [ sample_add_sa true 1 1 host_b host_a AUTH_HMAC_SHA1_96,
      sample_add_sa false 1 2 host_a host_b AUTH_HMAC_SHA1_96 ]

/-- The backend with the complete entry 0 and a second entry at address 1 whose
inbound SA has SPI 2 towards 10.0.0.2, the outbound key of entry 0. -/
def backend_crossed (replies : Nat → wfp_reply) : private_kernel_wfp_ipsec_t :=
  run (backend_pair replies) [ sample_add_sa true 2 2 host_c host_b AUTH_HMAC_SHA1_96 ]

/-- The engine honours the convention that a call which fails stores nothing
through its output pointer. -/
def no_write_on_failure (replies : Nat → wfp_reply) : Prop :=
  ∀ n, (replies n).res ≠ 0 → (replies n).out = none

/-- An entry without policy has no handle: the three handles are zero. -/
def handles_zero (e : entry_t) : Prop :=
  e.policy_in = 0 ∧ e.policy_out = 0 ∧ e.sa_id = 0

/-- An engine that accepts the first `n` requests, storing the handle 7, and
rejects every later one with status 5, storing nothing. -/
def wfp_accept_first (n : Nat) : Nat → wfp_reply :=
  fun k => if k < n then { res := 0, out := some 7 } else { res := 5, out := none }

/-- The integrity algorithm `install_sa` resolves for an SA: the one implied by the
AEAD cipher of an ESP SA, else the negotiated one. -/
def effective_integ (sa : sa_entry_t) : Nat :=
  if sa.protocol = IPPROTO_ESP ∧ encryption_algorithm_is_aead sa.encr.alg = true then
    encr2integ sa.encr.alg sa.encr.key.length
  else sa.integ.alg

/-- The SA is an ESP SA that `install_sa` gives the auth+cipher shape. -/
def esp_auth_and_cipher (sa : sa_entry_t) : Prop :=
  sa.protocol = IPPROTO_ESP ∧
  ¬ (sa.encr.alg = ENCR_NULL ∨ sa.encr.alg = ENCR_NULL_AUTH_AES_GMAC)

/-- An SA with an algorithm the tables do not hold: the effective integrity
algorithm is not in the table of `alg2auth`, or the SA has the auth+cipher shape
and its encryption algorithm and key length are not in the table of `alg2cipher`. -/
def unsupported_sa (sa : sa_entry_t) : Prop :=
  (alg2auth (effective_integ sa) info_zero.saAuthInformation).1 = false ∨
  (esp_auth_and_cipher sa ∧
    (alg2cipher sa.encr.alg sa.encr.key.length info_zero.saCipherInformation).1 = false)

/-- An SA with an algorithm that is set, that is non-zero, and that the tables do
not hold. -/
def unsupported_set_sa (sa : sa_entry_t) : Prop :=
  (effective_integ sa ≠ 0 ∧
    (alg2auth (effective_integ sa) info_zero.saAuthInformation).1 = false) ∨
  (esp_auth_and_cipher sa ∧ sa.encr.alg ≠ 0 ∧
    (alg2cipher sa.encr.alg sa.encr.key.length info_zero.saCipherInformation).1 = false)

/-- `install_sas` gets as far as installing the SA pair: the address family is
known and the engine accepts the creation of the SA context and the assignment
of the SPI. -/
def install_sas_reaches_sa (h : HANDLE) (e : entry_t) : Prop :=
  host2wfp e.local_ ≠ none ∧ (h.replies h.trace.length).res = 0 ∧
  (h.replies (h.trace.length + 1)).res = 0

/-- The installation pipeline reaches the installation of the SA pair: the mode is
transport or tunnel, the policy steps before `install_sas` succeed and
`install_sas` gets as far as the SA pair. -/
def install_reaches_sa (h : HANDLE) (e : entry_t) : Prop :=
  (e.mode = ipsec_mode_t.MODE_TRANSPORT ∧
    (install_transport_sp h e true).1 = true ∧
    (install_transport_sp (install_transport_sp h e true).2.1
      (install_transport_sp h e true).2.2 false).1 = true ∧
    install_sas_reaches_sa
      (install_transport_sp (install_transport_sp h e true).2.1
        (install_transport_sp h e true).2.2 false).2.1
      (install_transport_sp (install_transport_sp h e true).2.1
        (install_transport_sp h e true).2.2 false).2.2) ∨
  (e.mode = ipsec_mode_t.MODE_TUNNEL ∧
    (install_tunnel_sps h e).1 = true ∧
    install_sas_reaches_sa (install_tunnel_sps h e).2.1 (install_tunnel_sps h e).2.2)

/-- A backend holding one complete entry like `backend_pair`, with the given
integrity algorithm on both SAs. -/
def backend_pair_with (replies : Nat → wfp_reply) (int_alg : Nat) :
    private_kernel_wfp_ipsec_t :=
  run (backend_new replies)
    [ sample_add_sa true 1 1 host_b host_a int_alg,
      sample_add_sa false 1 2 host_a host_b int_alg ]

/-- The SA configuration of a policy that uses ESP with the SPI 2. -/
def sample_sa_cfg : ipsec_sa_cfg_t :=
  { esp_use := true, esp_spi := 2, ah_use := false, ah_spi := 0 }

/-- Modelled from the spec: what the plugin relies on of `is_host(ts, NULL)`
(selectors/traffic_selector.c is not under src/): the method returns TRUE for a
selector whose from address equals its to address. -/
def is_host_of_equal_bounds (ts : traffic_selector_t) : Prop :=
  ts.get_from_address = ts.get_to_address → ts.is_host = true

/-- A condition on a 16-bit range in the words of the spec: an equality condition
on the value when the bounds coincide, else a range condition from the low to the
high bound. -/
def range_condition (key : FWPM_CONDITION) (from_ to_ : Nat) : FWPM_FILTER_CONDITION0 :=
  if from_ = to_ then
    { fieldKey := key, matchType := FWP_MATCH_TYPE.FWP_MATCH_EQUAL,
      conditionValue := FWP_CONDITION_VALUE0.FWP_UINT16 from_ }
  else
    { fieldKey := key, matchType := FWP_MATCH_TYPE.FWP_MATCH_RANGE,
      conditionValue := FWP_CONDITION_VALUE0.FWP_RANGE_TYPE
        (FWP_VALUE0.FWP_UINT16 from_) (FWP_VALUE0.FWP_UINT16 to_) }

/-- The selector of the IPv4 subnet 10.1.0.0/20, protocol TCP, ports 80 to 443. -/
def sample_ts_subnet : traffic_selector_t :=
  { get_type := ts_type_t.TS_IPV4_ADDR_RANGE, get_from_address := [10, 1, 0, 0],
    get_to_address := [10, 1, 15, 255], get_from_port := 80, get_to_port := 443,
    get_protocol := 6, is_host := false, to_subnet := true,
    to_subnet_net := { get_family := family_t.AF_INET, get_address := [10, 1, 0, 0] },
    to_subnet_mask := 20 }

/-- The selector of the IPv4 range 10.0.0.1 to 10.0.0.5, any protocol, port 53. -/
def sample_ts_range : traffic_selector_t :=
  { get_type := ts_type_t.TS_IPV4_ADDR_RANGE, get_from_address := [10, 0, 0, 1],
    get_to_address := [10, 0, 0, 5], get_from_port := 53, get_to_port := 53,
    get_protocol := 0, is_host := false, to_subnet := false,
    to_subnet_net := { get_family := family_t.AF_INET, get_address := [10, 0, 0, 0] },
    to_subnet_mask := 29 }

/-- The host selector of 10.0.0.1 for ICMP with the types 8 to 8 and all codes:
from port 0x0800, to port 0x08FF. -/
def sample_ts_icmp : traffic_selector_t :=
  { get_type := ts_type_t.TS_IPV4_ADDR_RANGE, get_from_address := [10, 0, 0, 1],
    get_to_address := [10, 0, 0, 1], get_from_port := 2048, get_to_port := 2303,
    get_protocol := IPPROTO_ICMP, is_host := true, to_subnet := true,
    to_subnet_net := { get_family := family_t.AF_INET, get_address := [10, 0, 0, 1] },
    to_subnet_mask := 32 }

/-- An SA configuration that uses both ESP and AH. -/
def sample_sa_cfg_both : ipsec_sa_cfg_t :=
  { esp_use := true, esp_spi := 2, ah_use := true, ah_spi := 3 }

/-- The backend with the complete entry 0 after one
`add_policy(POLICY_OUT, default priority)` for it. -/
def backend_policy (replies : Nat → wfp_reply) : private_kernel_wfp_ipsec_t :=
  run (backend_pair replies)
    [ call_t.add_policy host_b (sample_ts host_a) (sample_ts host_b)
        policy_dir_t.POLICY_OUT sample_sa_cfg policy_priority_t.POLICY_PRIORITY_DEFAULT ]

/-- What the caller of one call gets back when that is a status; `none` for an
expire job, which returns nothing to the caller of the backend, and for the
methods that return a feature set or a `bool`. -/
def status_of (this : private_kernel_wfp_ipsec_t) : call_t → Option status_t
  | call_t.add_sa src dst spi protocol reqid lifetime enc_alg enc_key int_alg int_key
      mode encap inbound =>
    some (add_sa this src dst spi protocol reqid lifetime enc_alg enc_key int_alg int_key
      mode encap inbound).1
  | call_t.del_sa dst spi => some (del_sa this dst spi).1
  | call_t.add_policy dst src_ts dst_ts direction sa priority =>
    some (add_policy this dst src_ts dst_ts direction sa priority).1
  | call_t.expire_job _ => none
  | call_t.get_features => none
  | call_t.get_spi => some (get_spi this).1
  | call_t.get_cpi => some (get_cpi this).1
  | call_t.update_sa => some (update_sa this).1
  | call_t.query_sa => some (query_sa this).1
  | call_t.flush_sas => some (flush_sas this).1
  | call_t.query_policy => some (query_policy this).1
  | call_t.del_policy => some (del_policy this).1
  | call_t.flush_policies => some (flush_policies this).1
  | call_t.bypass_socket => none
  | call_t.enable_udp_decap => none

/-- The calls of a sequence, each with what it returned, in order. -/
def run_log (this : private_kernel_wfp_ipsec_t) : List call_t → List (call_t × Option status_t)
  | [] => []
  | c :: cs => (c, status_of this c) :: run_log (step this c) cs

/-- The entry is gone from the inbound index and still bound in the outbound index;
neither key is bound in the opposite index. -/
def teardown_pending (s : private_kernel_wfp_ipsec_t) (entry : Nat) (kin kout : sa_key_t) :
    Prop :=
  hashtable_get s.isas kin = none ∧ hashtable_get s.isas kout = none ∧
  hashtable_get s.osas kout = some entry ∧ hashtable_get s.osas kin = none

/-- Neither key is bound in either index. -/
def teardown_done (s : private_kernel_wfp_ipsec_t) (kin kout : sa_key_t) : Prop :=
  hashtable_get s.isas kin = none ∧ hashtable_get s.isas kout = none ∧
  hashtable_get s.osas kout = none ∧ hashtable_get s.osas kin = none

/-- The calls of a teardown of the entry with these keys: `del_sa` with the inbound
key, `del_sa` with the outbound key, the hard expire job of the inbound SA. -/
def teardown_call (kin kout : sa_key_t) (c : call_t) : Prop :=
  c = call_t.del_sa kin.dst kin.spi ∨ c = call_t.del_sa kout.dst kout.spi ∨
  c = call_t.expire_job { spi := kin.spi, dst := kin.dst, hard := true }

/-- The calls of the six methods that report a missing capability as a status. -/
def unsupported_call (c : call_t) : Prop :=
  c = call_t.query_sa ∨ c = call_t.query_policy ∨ c = call_t.update_sa ∨
  c = call_t.flush_sas ∨ c = call_t.flush_policies ∨ c = call_t.get_cpi

/-- The backend with the complete entry 0 after `del_sa` on its inbound key. -/
def backend_deleted_in (replies : Nat → wfp_reply) : private_kernel_wfp_ipsec_t :=
  run (backend_pair replies) [ call_t.del_sa host_a 1 ]

/-- An entry in BEET mode between 10.0.0.1 and 10.0.0.2 with one policy. -/
def sample_entry_beet : entry_t :=
  { entry_zero with
    reqid := 1, local_ := host_a, remote := host_b, mode := ipsec_mode_t.MODE_BEET,
    sps := [ { src := sample_ts host_a, dst := sample_ts host_b } ],
    policy_in := 3, policy_out := 4, sa_id := 5 }

/-- The value a call stores in `*spi`: one value for `get_spi`, none for the other
calls. -/
def spi_of (this : private_kernel_wfp_ipsec_t) : call_t → List Nat
  | call_t.get_spi => [ (get_spi this).2.1 ]
  | _ => []

/-- The values the `get_spi` calls of a sequence of calls store in `*spi`, in order. -/
def spi_log (this : private_kernel_wfp_ipsec_t) : List call_t → List Nat
  | [] => []
  | c :: cs => spi_of this c ++ spi_log (step this c) cs

/-- Modelled from the spec: the selectors of the library have the type IPv4 or
IPv6, and `to_subnet` returns a network of the family INET or INET6
(selectors/traffic_selector.c is not under src/); on such a selector no
`default:` branch of `ts2condition` is taken. -/
def ts_well_formed (ts : traffic_selector_t) : Prop :=
  ts.get_type ≠ ts_type_t.TS_OTHER ∧ ts.to_subnet_net.get_family ≠ family_t.AF_UNSPEC

/-- Two records agree on what the indexes are keyed by: the request identifier,
the inbound SA and the outbound SA. -/
def same_keys (e1 e2 : entry_t) : Prop :=
  e1.reqid = e2.reqid ∧ e1.isa = e2.isa ∧ e1.osa = e2.osa

/-- The bindings of the three indexes agree with the records they point to: every
bound address has been handed out; an entry bound in the index of request
identifiers is bound under its own identifier and has no outbound SA yet; an
entry bound in the inbound (outbound) index is bound under the SPI and the
destination of its inbound (outbound) SA. -/
def index_inv (s : private_kernel_wfp_ipsec_t) : Prop :=
  (∀ p ∈ s.tsas, p.2 < s.brk ∧ (s.heap p.2).reqid = p.1 ∧ (s.heap p.2).osa.dst = none) ∧
  (∀ p ∈ s.isas, p.2 < s.brk ∧ (s.heap p.2).isa.spi = p.1.spi ∧
    (s.heap p.2).isa.dst = some p.1.dst) ∧
  (∀ p ∈ s.osas, p.2 < s.brk ∧ (s.heap p.2).osa.spi = p.1.spi ∧
    (s.heap p.2).osa.dst = some p.1.dst)

/-- A backend after one inbound `add_sa` with the request identifier 0: entry 0
is bound under (1, 10.0.0.1) in the inbound index. -/
def backend_reqid_zero (replies : Nat → wfp_reply) : private_kernel_wfp_ipsec_t :=
  run (backend_new replies) [ sample_add_sa true 0 1 host_b host_a AUTH_HMAC_SHA1_96 ]

/-- Modelled from the spec: the objects the packet filter engine holds (the engine
is not under src/): the identifiers of its filters, the keys of its tunnel
policies and the identifiers of its SA contexts. -/
structure engine_t where
  filters : List Nat
  tunnels : List Nat
  contexts : List Nat
  deriving DecidableEq

/-- Modelled from the spec: what one request does to the objects the engine holds,
given its reply. A request that fails changes nothing; adding a filter or creating
an SA context stores the object under the identifier the reply returns; adding a
tunnel policy stores it under the key of the request; a delete request removes
the object it names; every other request leaves the objects as they are. -/
def engine_apply (g : engine_t) (req : wfp_request) (r : wfp_reply) : engine_t :=
  if r.res ≠ 0 then g
  else
    match req with
    | wfp_request.FwpmFilterAdd0 _ => { g with filters := g.filters ++ [r.out.getD 0] }
    | wfp_request.FwpmFilterDeleteById0 id =>
      { g with filters := g.filters.filter (fun x => x != id) }
    | wfp_request.FwpmIPsecTunnelAdd0 key _ _ => { g with tunnels := g.tunnels ++ [key] }
    | wfp_request.FwpmIPsecTunnelDeleteByKey0 key =>
      { g with tunnels := g.tunnels.filter (fun x => x != key) }
    | wfp_request.IPsecSaContextCreate0 _ =>
      { g with contexts := g.contexts ++ [r.out.getD 0] }
    | wfp_request.IPsecSaContextDeleteById0 id =>
      { g with contexts := g.contexts.filter (fun x => x != id) }
    | _ => g

/-- The objects the engine holds after the requests of a trace, the first of them
answered by reply `n`, the next by reply `n + 1`, and so on. -/
def engine_replay (replies : Nat → wfp_reply) : Nat → List wfp_request → engine_t → engine_t
  | _, [], g => g
  | n, req :: rest, g => engine_replay replies (n + 1) rest (engine_apply g req (replies n))

/-- The objects the engine holds at the end of the session so far. -/
def engine_of (h : HANDLE) : engine_t :=
  engine_replay h.replies 0 h.trace { filters := [], tunnels := [], contexts := [] }

/-- An engine that rejects the request number `n` with status 5, storing nothing,
and accepts every other request, storing the value `v`. -/
def wfp_fail_at (n v : Nat) : Nat → wfp_reply :=
  fun k => if k = n then { res := 5, out := none } else { res := 0, out := some v }

/-- An `add_sa` call for an ESP SA with AES-CBC-128 and HMAC-SHA1-96, tunnel mode,
no lifetimes. -/
def sample_add_sa_tunnel (inbound : Bool) (reqid spi : Nat) (src dst : host_t) : call_t :=
  call_t.add_sa src dst spi IPPROTO_ESP reqid { life := 0, rekey := 0 } ENCR_AES_CBC
    (List.replicate 16 1) AUTH_HMAC_SHA1_96 (List.replicate 20 2) ipsec_mode_t.MODE_TUNNEL
    false inbound

/-- A backend holding one complete tunnel mode entry at address 0: inbound SA with
SPI 1 towards 10.0.0.1, outbound SA with SPI 2 towards 10.0.0.2. -/
def backend_tunnel (replies : Nat → wfp_reply) : private_kernel_wfp_ipsec_t :=
  run (backend_new replies)
    [ sample_add_sa_tunnel true 1 1 host_b host_a,
      sample_add_sa_tunnel false 1 2 host_a host_b ]

/-- The entry 0 of `backend_tunnel` with the policy from 10.0.0.1 to 10.0.0.2, as
`add_policy` hands it to `install`. -/
def sample_entry_tunnel (replies : Nat → wfp_reply) : entry_t :=
  { (backend_tunnel replies).heap 0 with
    sps := [ { src := sample_ts host_a, dst := sample_ts host_b } ] }

/-- An inbound `add_sa` call with reqid 1 and SPI 1 towards 10.0.0.1 with a hard
lifetime of 10 seconds. -/
def sample_add_sa_life : call_t :=
  call_t.add_sa host_b host_a 1 IPPROTO_ESP 1 { life := 10, rekey := 0 } ENCR_AES_CBC
    (List.replicate 16 1) AUTH_HMAC_SHA1_96 (List.replicate 20 2)
    ipsec_mode_t.MODE_TRANSPORT false true

/-- The backend after the inbound `add_sa` with a hard lifetime and the firing of
the hard expire job it scheduled, before any outbound `add_sa`. -/
def backend_expired_pending (replies : Nat → wfp_reply) : private_kernel_wfp_ipsec_t :=
  run (backend_new replies)
    [ sample_add_sa_life, call_t.expire_job { spi := 1, dst := host_a, hard := true } ]

/-! ## Facts about the tables of bindings -/

theorem hashtable_erase_of_get_none {κ : Type} [DecidableEq κ] (t : hashtable_t κ) (key : κ)
    (h : hashtable_get t key = none) : hashtable_erase t key = t := by
  induction t with
  | nil => rfl
  | cons b t ih =>
    obtain ⟨k, v⟩ := b
    by_cases hk : k = key
    · simp [hashtable_get, hk] at h
    · simp only [hashtable_get, hk, if_false] at h
      simp [hashtable_erase, hk, ih h]

theorem hashtable_get_erase_self {κ : Type} [DecidableEq κ] (t : hashtable_t κ) (key : κ) :
    hashtable_get (hashtable_erase t key) key = none := by
  induction t with
  | nil => rfl
  | cons b t ih =>
    obtain ⟨k, v⟩ := b
    by_cases hk : k = key
    · simp [hashtable_erase, hk, ih]
    · simp [hashtable_erase, hashtable_get, hk, ih]

theorem hashtable_get_erase_ne {κ : Type} [DecidableEq κ] (t : hashtable_t κ) (key key2 : κ)
    (hne : key ≠ key2) :
    hashtable_get (hashtable_erase t key) key2 = hashtable_get t key2 := by
  induction t with
  | nil => rfl
  | cons b t ih =>
    obtain ⟨k, v⟩ := b
    by_cases hk : k = key
    · subst hk
      simp [hashtable_erase, hashtable_get, hne, ih]
    · by_cases hk2 : k = key2
      · subst hk2
        simp [hashtable_erase, hashtable_get, hk]
      · simp [hashtable_erase, hashtable_get, hk, hk2, ih]

theorem backend_new_created (replies : Nat → wfp_reply) (h0 : (replies 0).res = 0)
    (h1 : (replies 1).res = 0) :
    kernel_wfp_ipsec_create replies rng_fixed = some (backend_new replies) := by
  simp [kernel_wfp_ipsec_create, wfp_call, h0, h1, backend_new]

/-! ## C1: outbound `add_sa` without inbound -/

/-- C1: for every state and every request-id that is not bound in the temporary
index `tsas`, the outbound `add_sa` returns NOT_FOUND and leaves the backend as it
was, in particular the three indexes `tsas`, `isas` and `osas`. -/
theorem add_sa_outbound_unknown_reqid (this : private_kernel_wfp_ipsec_t) (src dst : host_t)
    (spi protocol reqid : Nat) (lifetime : lifetime_cfg_t) (enc_alg : Nat) (enc_key : chunk_t)
    (int_alg : Nat) (int_key : chunk_t) (mode : ipsec_mode_t) (encap : Bool)
    (h : hashtable_get this.tsas reqid = none) :
    (add_sa this src dst spi protocol reqid lifetime enc_alg enc_key int_alg int_key mode
      encap false).1 = status_t.NOT_FOUND ∧
    (add_sa this src dst spi protocol reqid lifetime enc_alg enc_key int_alg int_key mode
      encap false).2.tsas = this.tsas ∧
    (add_sa this src dst spi protocol reqid lifetime enc_alg enc_key int_alg int_key mode
      encap false).2.isas = this.isas ∧
    (add_sa this src dst spi protocol reqid lifetime enc_alg enc_key int_alg int_key mode
      encap false).2.osas = this.osas ∧
    (add_sa this src dst spi protocol reqid lifetime enc_alg enc_key int_alg int_key mode
      encap false).2 = this := by
  simp [add_sa, hashtable_remove, h, hashtable_erase_of_get_none]

/-- Witness of C1: on the backend holding one complete entry the request-id 1 has
been consumed, a second outbound `add_sa` for it reports NOT_FOUND. -/
theorem add_sa_outbound_unknown_reqid_witness :
    hashtable_get (backend_pair wfp_accept).tsas 1 = none ∧
    (add_sa (backend_pair wfp_accept) host_a host_b 9 IPPROTO_ESP 1 { life := 0, rekey := 0 }
      ENCR_AES_CBC [] AUTH_HMAC_SHA1_96 [] ipsec_mode_t.MODE_TRANSPORT false false).1 =
      status_t.NOT_FOUND :=
  ⟨by decide,
   (add_sa_outbound_unknown_reqid (backend_pair wfp_accept) host_a host_b 9 IPPROTO_ESP 1
      { life := 0, rekey := 0 } ENCR_AES_CBC [] AUTH_HMAC_SHA1_96 []
      ipsec_mode_t.MODE_TRANSPORT false (by decide)).1⟩

/-! ## Teardown: `del_sa` and the hard expire job (C2, C3, C4) -/

theorem entry_destroy_indexes (this : private_kernel_wfp_ipsec_t) (entry : Nat) :
    (entry_destroy this entry).tsas = this.tsas ∧ (entry_destroy this entry).isas = this.isas ∧
    (entry_destroy this entry).osas = this.osas ∧
    (entry_destroy this entry).destroyed = this.destroyed ++ [entry] := by
  simp [entry_destroy]

theorem del_sa_found_inbound (this : private_kernel_wfp_ipsec_t) (dst : host_t) (spi entry : Nat)
    (h : hashtable_get this.isas { spi := spi, dst := dst } = some entry) :
    del_sa this dst spi =
      (status_t.SUCCESS, { this with isas := hashtable_erase this.isas { spi := spi, dst := dst } }) := by
  simp [del_sa, hashtable_remove, h]

theorem del_sa_found_outbound (this : private_kernel_wfp_ipsec_t) (dst : host_t) (spi entry : Nat)
    (h1 : hashtable_get this.isas { spi := spi, dst := dst } = none)
    (h2 : hashtable_get this.osas { spi := spi, dst := dst } = some entry) :
    del_sa this dst spi =
      (status_t.SUCCESS, entry_destroy
        { this with osas := hashtable_erase this.osas { spi := spi, dst := dst } } entry) := by
  simp [del_sa, hashtable_remove, h1, h2, hashtable_erase_of_get_none]

theorem del_sa_not_found (this : private_kernel_wfp_ipsec_t) (dst : host_t) (spi : Nat)
    (h1 : hashtable_get this.isas { spi := spi, dst := dst } = none)
    (h2 : hashtable_get this.osas { spi := spi, dst := dst } = none) :
    del_sa this dst spi = (status_t.NOT_FOUND, this) := by
  simp [del_sa, hashtable_remove, h1, h2, hashtable_erase_of_get_none]

theorem expire_job_not_found (this : private_kernel_wfp_ipsec_t) (data : expire_data_t)
    (h : hashtable_get this.isas { spi := data.spi, dst := data.dst } = none) :
    expire_job this data = this := by
  cases hh : data.hard <;> simp [expire_job, hashtable_remove, h, hh, hashtable_erase_of_get_none]


theorem expire_job_hard_found (this : private_kernel_wfp_ipsec_t) (spi : Nat) (dst : host_t)
    (entry : Nat) (kout : sa_key_t)
    (h : hashtable_get this.isas { spi := spi, dst := dst } = some entry)
    (hosa : (this.heap entry).osa.spi = kout.spi ∧ (this.heap entry).osa.dst = some kout.dst) :
    (expire_job this { spi := spi, dst := dst, hard := true }).isas =
      hashtable_erase this.isas { spi := spi, dst := dst } ∧
    (expire_job this { spi := spi, dst := dst, hard := true }).osas =
      hashtable_erase this.osas kout ∧
    (expire_job this { spi := spi, dst := dst, hard := true }).destroyed =
      this.destroyed ++ [entry] := by
  obtain ⟨h1, h2⟩ := hosa
  simp only [expire_job, hashtable_remove, h, if_true, h1, h2]
  split_ifs <;> simp [entry_destroy]

theorem teardown_done_step (s : private_kernel_wfp_ipsec_t) (kin kout : sa_key_t) (c : call_t)
    (hd : teardown_done s kin kout) (hc : teardown_call kin kout c) :
    step s c = s ∧ status_of s c ≠ some status_t.SUCCESS := by
  obtain ⟨h1, h2, h3, h4⟩ := hd
  rcases hc with rfl | rfl | rfl
  · simp [step, status_of, del_sa_not_found s kin.dst kin.spi h1 h4]
  · simp [step, status_of, del_sa_not_found s kout.dst kout.spi h2 h3]
  · simp [step, status_of,
      expire_job_not_found s { spi := kin.spi, dst := kin.dst, hard := true } h1]

theorem teardown_done_run (kin kout : sa_key_t) (calls : List call_t) :
    ∀ s : private_kernel_wfp_ipsec_t, teardown_done s kin kout →
      (∀ c ∈ calls, teardown_call kin kout c) →
      run s calls = s ∧ ∀ p ∈ run_log s calls, p.2 ≠ some status_t.SUCCESS := by
  induction calls with
  | nil => intro s _ _; simp [run, run_log]
  | cons c cs ih =>
    intro s hd hc
    obtain ⟨hs, hst⟩ := teardown_done_step s kin kout c hd (hc c (List.mem_cons_self _ _))
    have hrest := ih s hd (fun c2 h2 => hc c2 (List.mem_cons_of_mem _ h2))
    refine ⟨?_, ?_⟩
    · simpa [run, List.foldl, hs] using hrest.1
    · intro p hp
      simp only [run_log, List.mem_cons, hs] at hp
      rcases hp with rfl | hp
      · exact hst
      · exact hrest.2 p hp

theorem count_eq_zero_of_no_success (c : call_t) (l : List (call_t × Option status_t))
    (h : ∀ p ∈ l, p.2 ≠ some status_t.SUCCESS) :
    l.count (c, some status_t.SUCCESS) = 0 := by
  rw [List.count_eq_zero]
  intro hmem
  exact h _ hmem rfl

theorem teardown_pending_run (entry : Nat) (kin kout : sa_key_t) (hne : kin ≠ kout)
    (calls : List call_t) :
    ∀ s : private_kernel_wfp_ipsec_t, teardown_pending s entry kin kout →
      (∀ c ∈ calls, teardown_call kin kout c) →
      ((run s calls).destroyed = s.destroyed ∨ (run s calls).destroyed = s.destroyed ++ [entry]) ∧
      (run_log s calls).count (call_t.del_sa kin.dst kin.spi, some status_t.SUCCESS) = 0 ∧
      (run_log s calls).count (call_t.del_sa kout.dst kout.spi, some status_t.SUCCESS) ≤ 1 := by
  induction calls with
  | nil => intro s _ _; simp [run, run_log]
  | cons c cs ih =>
    intro s hp hc
    obtain ⟨h1, h2, h3, h4⟩ := hp
    have hcs : ∀ c2 ∈ cs, teardown_call kin kout c2 :=
      fun c2 hc2 => hc c2 (List.mem_cons_of_mem _ hc2)
    have hkk : call_t.del_sa kin.dst kin.spi ≠ call_t.del_sa kout.dst kout.spi := by
      intro he
      injection he with hd hs
      apply hne
      cases kin; cases kout; simp_all
    rcases hc c (List.mem_cons_self _ _) with rfl | rfl | rfl
    · have hstep := del_sa_not_found s kin.dst kin.spi h1 h4
      have hrest := ih s ⟨h1, h2, h3, h4⟩ hcs
      simp only [run, List.foldl, step, run_log, status_of, hstep] at hrest ⊢
      refine ⟨hrest.1, ?_, ?_⟩
      · rw [List.count_cons_of_ne (by simp)]
        exact hrest.2.1
      · rw [List.count_cons_of_ne (by simp)]
        exact hrest.2.2
    · have hstep := del_sa_found_outbound s kout.dst kout.spi entry h2 h3
      have hd : teardown_done (entry_destroy
          { s with osas := hashtable_erase s.osas { spi := kout.spi, dst := kout.dst } } entry)
          kin kout := by
        refine ⟨?_, ?_, ?_, ?_⟩
        · simpa [entry_destroy] using h1
        · simpa [entry_destroy] using h2
        · simpa [entry_destroy] using hashtable_get_erase_self s.osas kout
        · simpa [entry_destroy, h4] using hashtable_get_erase_ne s.osas kout kin (Ne.symm hne)
      have hrest := teardown_done_run kin kout cs _ hd hcs
      simp only [run, List.foldl, step, run_log, status_of, hstep] at hrest ⊢
      refine ⟨?_, ?_, ?_⟩
      · right
        rw [hrest.1]
        simp [entry_destroy]
      · rw [List.count_cons_of_ne (by simpa using hkk)]
        exact count_eq_zero_of_no_success _ _ hrest.2
      · rw [List.count_cons_self, count_eq_zero_of_no_success _ _ hrest.2]
    · have hstep := expire_job_not_found s { spi := kin.spi, dst := kin.dst, hard := true } h1
      have hrest := ih s ⟨h1, h2, h3, h4⟩ hcs
      simp only [run, List.foldl, step, run_log, status_of, hstep] at hrest ⊢
      refine ⟨hrest.1, ?_, ?_⟩
      · rw [List.count_cons_of_ne (by simp)]
        exact hrest.2.1
      · rw [List.count_cons_of_ne (by simp)]
        exact hrest.2.2


/-- C2, amended: for every complete entry, bound in the inbound index under
(spi_in, local) and in the outbound index under a different key (spi_out, remote),
where in addition neither key is bound in the opposite index, and not yet
destroyed: `del_sa(local, spi_in)` returns SUCCESS and destroys nothing, the
following `del_sa(remote, spi_out)` returns SUCCESS and destroys the entry, the
entry is destroyed exactly once over the two calls, and a third `del_sa` with
either key returns NOT_FOUND. -/
theorem del_sa_inbound_then_outbound (this : private_kernel_wfp_ipsec_t) (entry : Nat)
    (local_ remote : host_t) (spi_in spi_out : Nat)
    (hin : hashtable_get this.isas { spi := spi_in, dst := local_ } = some entry)
    (hout : hashtable_get this.osas { spi := spi_out, dst := remote } = some entry)
    (hne : ({ spi := spi_in, dst := local_ } : sa_key_t) ≠ { spi := spi_out, dst := remote })
    (hx1 : hashtable_get this.isas { spi := spi_out, dst := remote } = none)
    (hx2 : hashtable_get this.osas { spi := spi_in, dst := local_ } = none)
    (hlive : entry ∉ this.destroyed) :
    (del_sa this local_ spi_in).1 = status_t.SUCCESS ∧
    (del_sa this local_ spi_in).2.destroyed = this.destroyed ∧
    (del_sa (del_sa this local_ spi_in).2 remote spi_out).1 = status_t.SUCCESS ∧
    (del_sa (del_sa this local_ spi_in).2 remote spi_out).2.destroyed =
      this.destroyed ++ [entry] ∧
    (del_sa (del_sa this local_ spi_in).2 remote spi_out).2.destroyed.count entry = 1 ∧
    (del_sa (del_sa (del_sa this local_ spi_in).2 remote spi_out).2 local_ spi_in).1 =
      status_t.NOT_FOUND ∧
    (del_sa (del_sa (del_sa this local_ spi_in).2 remote spi_out).2 remote spi_out).1 =
      status_t.NOT_FOUND := by
  have e1 := del_sa_found_inbound this local_ spi_in entry hin
  have g1 : hashtable_get (hashtable_erase this.isas { spi := spi_in, dst := local_ })
      { spi := spi_out, dst := remote } = none := by
    rw [hashtable_get_erase_ne _ _ _ hne]; exact hx1
  have g0 : hashtable_get (hashtable_erase this.isas { spi := spi_in, dst := local_ })
      { spi := spi_in, dst := local_ } = none := hashtable_get_erase_self _ _
  have e2 := del_sa_found_outbound
    { this with isas := hashtable_erase this.isas { spi := spi_in, dst := local_ } }
    remote spi_out entry g1 hout
  have g2 : hashtable_get (hashtable_erase this.osas { spi := spi_out, dst := remote })
      { spi := spi_in, dst := local_ } = none := by
    rw [hashtable_get_erase_ne _ _ _ (Ne.symm hne)]; exact hx2
  have g3 : hashtable_get (hashtable_erase this.osas { spi := spi_out, dst := remote })
      { spi := spi_out, dst := remote } = none := hashtable_get_erase_self _ _
  have e3 := del_sa_not_found
    (entry_destroy { this with
      isas := hashtable_erase this.isas { spi := spi_in, dst := local_ },
      osas := hashtable_erase this.osas { spi := spi_out, dst := remote } } entry)
    local_ spi_in (by simpa [entry_destroy] using g0) (by simpa [entry_destroy] using g2)
  have e4 := del_sa_not_found
    (entry_destroy { this with
      isas := hashtable_erase this.isas { spi := spi_in, dst := local_ },
      osas := hashtable_erase this.osas { spi := spi_out, dst := remote } } entry)
    remote spi_out (by simpa [entry_destroy] using g1) (by simpa [entry_destroy] using g3)
  rw [e1]
  simp only [e2, e3, e4]
  refine ⟨trivial, trivial, trivial, ?_, ?_, trivial, trivial⟩
  · simp [entry_destroy]
  · simp [entry_destroy, List.count_eq_zero.mpr hlive]

theorem del_sa_status (this : private_kernel_wfp_ipsec_t) (dst : host_t) (spi : Nat) :
    (del_sa this dst spi).1 = status_t.SUCCESS ∨ (del_sa this dst spi).1 = status_t.NOT_FOUND := by
  cases h1 : hashtable_get this.isas { spi := spi, dst := dst } with
  | some e => left; rw [del_sa_found_inbound this dst spi e h1]
  | none =>
    cases h2 : hashtable_get this.osas { spi := spi, dst := dst } with
    | some e => left; rw [del_sa_found_outbound this dst spi e h1 h2]
    | none => right; rw [del_sa_not_found this dst spi h1 h2]

theorem teardown_run_log_status (kin kout : sa_key_t) (calls : List call_t) :
    ∀ s : private_kernel_wfp_ipsec_t, (∀ c ∈ calls, teardown_call kin kout c) →
      ∀ p ∈ run_log s calls, p.2 = some status_t.SUCCESS ∨
        p.2 = some status_t.NOT_FOUND ∨ p.2 = none := by
  induction calls with
  | nil => intro s _ p hp; simp [run_log] at hp
  | cons c cs ih =>
    intro s hc p hp
    simp only [run_log, List.mem_cons] at hp
    rcases hp with rfl | hp
    · rcases hc c (List.mem_cons_self _ _) with rfl | rfl | rfl
      · rcases del_sa_status s kin.dst kin.spi with h | h
        · left; simp [status_of, h]
        · right; left; simp [status_of, h]
      · rcases del_sa_status s kout.dst kout.spi with h | h
        · left; simp [status_of, h]
        · right; left; simp [status_of, h]
      · right; right; rfl
    · exact ih (step s c) (fun c2 h2 => hc c2 (List.mem_cons_of_mem _ h2)) p hp

/-- C4, amended: for every complete entry whose two keys differ and are not bound in
the opposite index, and every sequence of `del_sa` calls with its inbound or
outbound key and of firings of its hard expire job that does not begin with a
`del_sa` on the outbound key: `entry_destroy` runs at most once, and on that entry
only; at most one `del_sa` with the inbound key returns SUCCESS and at most one
`del_sa` with the outbound key returns SUCCESS; every other `del_sa` returns
NOT_FOUND. -/
theorem teardown_destroys_at_most_once (this : private_kernel_wfp_ipsec_t) (entry : Nat)
    (kin kout : sa_key_t)
    (hin : hashtable_get this.isas kin = some entry)
    (hout : hashtable_get this.osas kout = some entry)
    (hosa : (this.heap entry).osa.spi = kout.spi ∧ (this.heap entry).osa.dst = some kout.dst)
    (hne : kin ≠ kout)
    (hx1 : hashtable_get this.isas kout = none)
    (hx2 : hashtable_get this.osas kin = none)
    (calls : List call_t)
    (hcalls : ∀ c ∈ calls, teardown_call kin kout c)
    (hfirst : calls.head? ≠ some (call_t.del_sa kout.dst kout.spi)) :
    ((run this calls).destroyed = this.destroyed ∨
      (run this calls).destroyed = this.destroyed ++ [entry]) ∧
    (run_log this calls).count (call_t.del_sa kin.dst kin.spi, some status_t.SUCCESS) ≤ 1 ∧
    (run_log this calls).count (call_t.del_sa kout.dst kout.spi, some status_t.SUCCESS) ≤ 1 ∧
    (∀ p ∈ run_log this calls, p.2 = some status_t.SUCCESS ∨
      p.2 = some status_t.NOT_FOUND ∨ p.2 = none) := by
  suffices main : ((run this calls).destroyed = this.destroyed ∨
      (run this calls).destroyed = this.destroyed ++ [entry]) ∧
      (run_log this calls).count (call_t.del_sa kin.dst kin.spi, some status_t.SUCCESS) ≤ 1 ∧
      (run_log this calls).count (call_t.del_sa kout.dst kout.spi, some status_t.SUCCESS) ≤ 1
    from ⟨main.1, main.2.1, main.2.2, teardown_run_log_status kin kout calls this hcalls⟩
  cases calls with
  | nil => simp [run, run_log]
  | cons c cs =>
    have hcs : ∀ c2 ∈ cs, teardown_call kin kout c2 :=
      fun c2 hc2 => hcalls c2 (List.mem_cons_of_mem _ hc2)
    have hkk : call_t.del_sa kin.dst kin.spi ≠ call_t.del_sa kout.dst kout.spi := by
      intro he
      injection he with hd hs
      apply hne
      cases kin; cases kout; simp_all
    rcases hcalls c (List.mem_cons_self _ _) with rfl | rfl | rfl
    · have hstep := del_sa_found_inbound this kin.dst kin.spi entry hin
      have hp : teardown_pending
          { this with isas := hashtable_erase this.isas { spi := kin.spi, dst := kin.dst } }
          entry kin kout := by
        refine ⟨hashtable_get_erase_self this.isas kin, ?_, hout, hx2⟩
        simpa [hx1] using hashtable_get_erase_ne this.isas kin kout hne
      have hrest := teardown_pending_run entry kin kout hne cs _ hp hcs
      simp only [run, List.foldl, step, run_log, status_of, hstep] at hrest ⊢
      refine ⟨hrest.1, ?_, ?_⟩
      · rw [List.count_cons_self, hrest.2.1]
      · rw [List.count_cons_of_ne (by simpa using hkk.symm)]
        exact hrest.2.2
    · exact absurd rfl hfirst
    · obtain ⟨x1, x2, x3⟩ := expire_job_hard_found this kin.spi kin.dst entry kout hin hosa
      have hd : teardown_done (expire_job this { spi := kin.spi, dst := kin.dst, hard := true })
          kin kout := by
        refine ⟨?_, ?_, ?_, ?_⟩
        · rw [x1]; exact hashtable_get_erase_self this.isas kin
        · rw [x1]; simpa [hx1] using hashtable_get_erase_ne this.isas kin kout hne
        · rw [x2]; exact hashtable_get_erase_self this.osas kout
        · rw [x2]; simpa [hx2] using hashtable_get_erase_ne this.osas kout kin (Ne.symm hne)
      have hrest := teardown_done_run kin kout cs _ hd hcs
      simp only [run, List.foldl, step, run_log, status_of] at hrest ⊢
      refine ⟨?_, ?_, ?_⟩
      · right
        rw [hrest.1, x3]
      · rw [List.count_cons_of_ne (by simp)]
        simp [count_eq_zero_of_no_success _ _ hrest.2]
      · rw [List.count_cons_of_ne (by simp)]
        simp [count_eq_zero_of_no_success _ _ hrest.2]

/-- Witness of C2 (amended): the backend holding the one complete entry 0. -/
theorem del_sa_inbound_then_outbound_witness :
    (del_sa (del_sa (backend_pair wfp_accept) host_a 1).2 host_b 2).2.destroyed = [0] ∧
    (del_sa (del_sa (del_sa (backend_pair wfp_accept) host_a 1).2 host_b 2).2 host_b 2).1 =
      status_t.NOT_FOUND :=
  ⟨(del_sa_inbound_then_outbound (backend_pair wfp_accept) 0 host_a host_b 1 2
      (by decide) (by decide) (by decide) (by decide) (by decide) (by decide)).2.2.2.1,
   (del_sa_inbound_then_outbound (backend_pair wfp_accept) 0 host_a host_b 1 2
      (by decide) (by decide) (by decide) (by decide) (by decide) (by decide)).2.2.2.2.2.2⟩

/-- Counterexample to C2 as stated: entry 0 is complete, inbound key (1, 10.0.0.1),
outbound key (2, 10.0.0.2), the keys differ, no expire job fires; a second entry
has been registered by an inbound `add_sa` under (2, 10.0.0.2). The two `del_sa`
calls both return SUCCESS, but the second one removes the other entry from the
inbound index and entry 0 is not destroyed. -/
theorem del_sa_outbound_key_bound_inbound :
    Reachable (backend_crossed wfp_accept) ∧
    hashtable_get (backend_crossed wfp_accept).isas { spi := 1, dst := host_a } = some 0 ∧
    hashtable_get (backend_crossed wfp_accept).osas { spi := 2, dst := host_b } = some 0 ∧
    ({ spi := 1, dst := host_a } : sa_key_t) ≠ { spi := 2, dst := host_b } ∧
    (del_sa (backend_crossed wfp_accept) host_a 1).1 = status_t.SUCCESS ∧
    (del_sa (del_sa (backend_crossed wfp_accept) host_a 1).2 host_b 2).1 =
      status_t.SUCCESS ∧
    (del_sa (del_sa (backend_crossed wfp_accept) host_a 1).2 host_b 2).2.destroyed = [] ∧
    hashtable_get (del_sa (del_sa (backend_crossed wfp_accept) host_a 1).2 host_b 2).2.osas
      { spi := 2, dst := host_b } = some 0 := by
  refine ⟨⟨wfp_accept, rng_fixed, backend_new wfp_accept,
    [ sample_add_sa true 1 1 host_b host_a AUTH_HMAC_SHA1_96,
      sample_add_sa false 1 2 host_a host_b AUTH_HMAC_SHA1_96,
      sample_add_sa true 2 2 host_c host_b AUTH_HMAC_SHA1_96 ],
    backend_new_created wfp_accept rfl rfl, rfl⟩, ?_, ?_, ?_, ?_, ?_, ?_, ?_⟩ <;> decide

/-- C3, the code at the failing input: after inbound `add_sa`, outbound `add_sa` and
`del_sa` with the outbound key, entry 0 has been destroyed and is still bound in
the inbound index under (1, 10.0.0.1). -/
theorem del_sa_outbound_first_leaves_inbound_binding :
    Reachable (run (backend_pair wfp_accept) [call_t.del_sa host_b 2]) ∧
    (del_sa (backend_pair wfp_accept) host_b 2).1 = status_t.SUCCESS ∧
    (run (backend_pair wfp_accept) [call_t.del_sa host_b 2]).destroyed = [0] ∧
    hashtable_get (run (backend_pair wfp_accept) [call_t.del_sa host_b 2]).isas
      { spi := 1, dst := host_a } = some 0 := by
  refine ⟨⟨wfp_accept, rng_fixed, backend_new wfp_accept,
    [ sample_add_sa true 1 1 host_b host_a AUTH_HMAC_SHA1_96,
      sample_add_sa false 1 2 host_a host_b AUTH_HMAC_SHA1_96,
      call_t.del_sa host_b 2 ],
    backend_new_created wfp_accept rfl rfl, rfl⟩, ?_, ?_, ?_⟩ <;> decide

/-- Witness of C4 (amended): on the backend holding the complete entry 0, the
sequence inbound `del_sa`, hard expire, outbound `del_sa`, outbound `del_sa`. -/
theorem teardown_destroys_at_most_once_witness :
    (run (backend_pair wfp_accept)
      [ call_t.del_sa host_a 1, call_t.expire_job { spi := 1, dst := host_a, hard := true },
        call_t.del_sa host_b 2, call_t.del_sa host_b 2 ]).destroyed = [] ∨
    (run (backend_pair wfp_accept)
      [ call_t.del_sa host_a 1, call_t.expire_job { spi := 1, dst := host_a, hard := true },
        call_t.del_sa host_b 2, call_t.del_sa host_b 2 ]).destroyed = [] ++ [0] :=
  (teardown_destroys_at_most_once (backend_pair wfp_accept) 0 { spi := 1, dst := host_a }
    { spi := 2, dst := host_b } (by decide) (by decide) (by decide) (by decide) (by decide)
    (by decide)
    [ call_t.del_sa host_a 1, call_t.expire_job { spi := 1, dst := host_a, hard := true },
      call_t.del_sa host_b 2, call_t.del_sa host_b 2 ]
    (by simp [teardown_call]) (by simp)).1

/-- Counterexample to C4 as stated: on the complete entry 0 the sequence inbound
`del_sa`, outbound `del_sa`, hard expire destroys the entry once, by the second
call; the first call does not destroy it and yet observes SUCCESS, not NOT_FOUND. -/
theorem teardown_two_calls_succeed :
    run_log (backend_pair wfp_accept)
      [ call_t.del_sa host_a 1, call_t.del_sa host_b 2,
        call_t.expire_job { spi := 1, dst := host_a, hard := true } ] =
      [ (call_t.del_sa host_a 1, some status_t.SUCCESS),
        (call_t.del_sa host_b 2, some status_t.SUCCESS),
        (call_t.expire_job { spi := 1, dst := host_a, hard := true }, none) ] ∧
    (del_sa (backend_pair wfp_accept) host_a 1).2.destroyed = [] ∧
    (run (backend_pair wfp_accept)
      [ call_t.del_sa host_a 1, call_t.del_sa host_b 2,
        call_t.expire_job { spi := 1, dst := host_a, hard := true } ]).destroyed = [0] := by
  refine ⟨?_, ?_, ?_⟩ <;> decide

/-! ## Installation failures (C5, C6) -/

theorem wfp_call_replies (h : HANDLE) (req : wfp_request) :
    (wfp_call h req).2.replies = h.replies := rfl

theorem cleanup_policy_replies (h : HANDLE) (transport : Bool) (policy : Nat) :
    (cleanup_policy h transport policy).replies = h.replies := by
  unfold cleanup_policy
  simp only []
  split_ifs <;> rfl

theorem cleanup_policies_entry (h : HANDLE) (e : entry_t) :
    (cleanup_policies h e).2 = { e with policy_in := 0, policy_out := 0 } := by
  obtain ⟨reqid, l, r, isa, osa, sps, mode, encap, pin, pout, sa⟩ := e
  by_cases h1 : pin = 0 <;> by_cases h2 : pout = 0 <;> simp_all [cleanup_policies]

theorem cleanup_policies_replies (h : HANDLE) (e : entry_t) :
    (cleanup_policies h e).1.replies = h.replies := by
  unfold cleanup_policies
  by_cases h1 : e.policy_in = 0 <;> by_cases h2 : e.policy_out = 0 <;>
    simp [h1, h2, cleanup_policy_replies]

theorem install_transport_sp_frame (h : HANDLE) (e : entry_t) (inbound : Bool) :
    (install_transport_sp h e inbound).2.2.sps = e.sps ∧
    (install_transport_sp h e inbound).2.2.sa_id = e.sa_id ∧
    (install_transport_sp h e inbound).2.2.mode = e.mode ∧
    (install_transport_sp h e inbound).2.1.replies = h.replies := by
  unfold install_transport_sp
  cases inbound <;> simp only [] <;> split_ifs <;> simp [wfp_call]

theorem install_sa_replies (h : HANDLE) (e : entry_t) (inbound : Bool) (sa : sa_entry_t)
    (v : FWP_IP_VERSION) : (install_sa h e inbound sa v).2.replies = h.replies := by
  unfold install_sa
  split
  · rfl
  · split
    · rfl
    · simp only []
      split_ifs <;> rfl

theorem install_sas_frame (h : HANDLE) (e : entry_t) (t : IPSEC_TRAFFIC_TYPE) :
    (install_sas h e t).2.2.sps = e.sps ∧
    (install_sas h e t).2.2.mode = e.mode ∧
    (install_sas h e t).2.2.policy_in = e.policy_in ∧
    (install_sas h e t).2.2.policy_out = e.policy_out ∧
    (install_sas h e t).2.1.replies = h.replies := by
  unfold install_sas
  split
  · simp
  · simp only []
    split_ifs <;> simp [wfp_call, install_sa_replies]

theorem install_sas_failed (h : HANDLE) (e : entry_t) (t : IPSEC_TRAFFIC_TYPE)
    (hw : no_write_on_failure h.replies) (h0 : e.sa_id = 0)
    (hf : (install_sas h e t).1 = false) : (install_sas h e t).2.2.sa_id = 0 := by
  unfold install_sas at hf ⊢
  cases hh : host2wfp e.local_ with
  | none => simpa [hh] using h0
  | some p =>
    obtain ⟨v, a⟩ := p
    simp only [hh] at hf ⊢
    split_ifs at hf ⊢ <;> first
      | rfl
      | (rename_i c
         have hn := hw _ c
         simp only [wfp_call] at hn ⊢
         simp [hn, h0])


theorem install_tunnel_sps_frame (h : HANDLE) (e : entry_t) :
    (install_tunnel_sps h e).2.2.sps = e.sps ∧
    (install_tunnel_sps h e).2.2.sa_id = e.sa_id ∧
    (install_tunnel_sps h e).2.2.mode = e.mode ∧
    (install_tunnel_sps h e).2.1.replies = h.replies := by
  unfold install_tunnel_sps
  cases hh : host2wfp e.local_ with
  | none => simp
  | some p =>
    obtain ⟨v, a⟩ := p
    simp only []
    cases hg : (generate_guid h).1 with
    | none => simp [generate_guid]
    | some g =>
      simp only []
      split_ifs <;> simp [wfp_call, generate_guid]

theorem install_transport_frame (h : HANDLE) (e : entry_t) :
    (install_transport h e).2.2.sps = e.sps ∧ (install_transport h e).2.2.mode = e.mode := by
  have f1 := install_transport_sp_frame h e true
  have f2 := install_transport_sp_frame (install_transport_sp h e true).2.1
    (install_transport_sp h e true).2.2 false
  have f3 := install_sas_frame (install_transport_sp (install_transport_sp h e true).2.1
    (install_transport_sp h e true).2.2 false).2.1
    (install_transport_sp (install_transport_sp h e true).2.1
    (install_transport_sp h e true).2.2 false).2.2 IPSEC_TRAFFIC_TYPE.IPSEC_TRAFFIC_TYPE_TRANSPORT
  unfold install_transport install_transport_steps
  simp only []
  split_ifs <;> simp_all [cleanup_policies_entry]

theorem install_transport_failed (h : HANDLE) (e : entry_t)
    (hw : no_write_on_failure h.replies) (h0 : e.sa_id = 0)
    (hf : (install_transport h e).1 = false) : handles_zero (install_transport h e).2.2 := by
  have f1 := install_transport_sp_frame h e true
  have f2 := install_transport_sp_frame (install_transport_sp h e true).2.1
    (install_transport_sp h e true).2.2 false
  have f3 := install_sas_failed (install_transport_sp (install_transport_sp h e true).2.1
    (install_transport_sp h e true).2.2 false).2.1
    (install_transport_sp (install_transport_sp h e true).2.1
    (install_transport_sp h e true).2.2 false).2.2 IPSEC_TRAFFIC_TYPE.IPSEC_TRAFFIC_TYPE_TRANSPORT
    (by rw [f2.2.2.2, f1.2.2.2]; exact hw) (by rw [f2.2.1, f1.2.1]; exact h0)
  unfold install_transport install_transport_steps at hf ⊢
  simp only [] at hf ⊢
  unfold handles_zero
  split_ifs at hf ⊢ <;> simp_all [cleanup_policies_entry]

theorem install_tunnel_frame (h : HANDLE) (e : entry_t) :
    (install_tunnel h e).2.2.sps = e.sps ∧ (install_tunnel h e).2.2.mode = e.mode := by
  have f1 := install_tunnel_sps_frame h e
  have f3 := install_sas_frame (install_tunnel_sps h e).2.1 (install_tunnel_sps h e).2.2
    IPSEC_TRAFFIC_TYPE.IPSEC_TRAFFIC_TYPE_TUNNEL
  unfold install_tunnel install_tunnel_steps
  simp only []
  split_ifs <;> simp_all [cleanup_policies_entry]

theorem install_tunnel_failed (h : HANDLE) (e : entry_t)
    (hw : no_write_on_failure h.replies) (h0 : e.sa_id = 0)
    (hf : (install_tunnel h e).1 = false) : handles_zero (install_tunnel h e).2.2 := by
  have f1 := install_tunnel_sps_frame h e
  have f3 := install_sas_failed (install_tunnel_sps h e).2.1 (install_tunnel_sps h e).2.2
    IPSEC_TRAFFIC_TYPE.IPSEC_TRAFFIC_TYPE_TUNNEL
    (by rw [f1.2.2.2]; exact hw) (by rw [f1.2.1]; exact h0)
  unfold install_tunnel install_tunnel_steps at hf ⊢
  simp only [] at hf ⊢
  unfold handles_zero
  split_ifs at hf ⊢ <;> simp_all [cleanup_policies_entry]

theorem install_frame (h : HANDLE) (e : entry_t) :
    (install h e).2.2.sps = e.sps ∧ (install h e).2.2.mode = e.mode := by
  unfold install
  cases hm : e.mode <;> simp only []
  · simpa [hm] using install_transport_frame h e
  · simpa [hm] using install_tunnel_frame h e
  · simp [hm]
  · simp [hm]
  · simp [hm]

theorem install_failed (h : HANDLE) (e : entry_t)
    (hw : no_write_on_failure h.replies) (h0 : handles_zero e)
    (hf : (install h e).1 = false) : handles_zero (install h e).2.2 := by
  unfold install at hf ⊢
  cases hm : e.mode <;> simp only [hm] at hf ⊢
  · exact install_transport_failed h e hw h0.2.2 hf
  · exact install_tunnel_failed h e hw h0.2.2 hf
  · exact h0
  · exact h0
  · exact h0


theorem entry_destroy_heap (this : private_kernel_wfp_ipsec_t) (entry : Nat) :
    (entry_destroy this entry).heap =
      Function.update this.heap entry
        { this.heap entry with policy_in := 0, policy_out := 0 } := by
  simp [entry_destroy, cleanup_policies_entry]

theorem heap_inv_update (heap : Nat → entry_t) (entry : Nat) (e : entry_t)
    (hinv : ∀ id, (heap id).sps = [] → handles_zero (heap id))
    (he : e.sps = [] → handles_zero e) :
    ∀ id, (Function.update heap entry e id).sps = [] →
      handles_zero (Function.update heap entry e id) := by
  intro id
  by_cases hid : id = entry
  · subst hid
    simpa using he
  · simpa [Function.update_noteq hid] using hinv id

theorem entry_destroy_heap_inv (this : private_kernel_wfp_ipsec_t) (entry : Nat)
    (hinv : ∀ id, (this.heap id).sps = [] → handles_zero (this.heap id)) :
    ∀ id, ((entry_destroy this entry).heap id).sps = [] →
      handles_zero ((entry_destroy this entry).heap id) := by
  rw [entry_destroy_heap]
  apply heap_inv_update _ _ _ hinv
  intro hs
  have := hinv entry hs
  simp_all [handles_zero]

theorem add_sa_heap_inv (this : private_kernel_wfp_ipsec_t) (src dst : host_t)
    (spi protocol reqid : Nat) (lifetime : lifetime_cfg_t) (enc_alg : Nat) (enc_key : chunk_t)
    (int_alg : Nat) (int_key : chunk_t) (mode : ipsec_mode_t) (encap inbound : Bool)
    (hinv : ∀ id, (this.heap id).sps = [] → handles_zero (this.heap id)) :
    ∀ id, (((add_sa this src dst spi protocol reqid lifetime enc_alg enc_key int_alg int_key
        mode encap inbound).2).heap id).sps = [] →
      handles_zero (((add_sa this src dst spi protocol reqid lifetime enc_alg enc_key int_alg
        int_key mode encap inbound).2).heap id) := by
  cases inbound
  · simp only [add_sa, Bool.false_eq_true, if_false, hashtable_remove]
    cases hg : hashtable_get this.tsas reqid with
    | none => simpa using hinv
    | some entry =>
      simp only []
      apply heap_inv_update _ _ _ hinv
      intro hs
      exact hinv entry hs
  · simp only [add_sa, if_true, schedule_expire]
    have key : ∀ (sch : List (expire_data_t × Nat)) (t1 : hashtable_t Nat)
        (t2 : hashtable_t sa_key_t) (e : entry_t), handles_zero e →
        ∀ id, (Function.update this.heap this.brk e id).sps = [] →
          handles_zero (Function.update this.heap this.brk e id) :=
      fun _ _ _ e he => heap_inv_update _ _ _ hinv (fun _ => he)
    split_ifs <;> exact key [] [] [] _ ⟨rfl, rfl, rfl⟩

theorem del_sa_heap_inv (this : private_kernel_wfp_ipsec_t) (dst : host_t) (spi : Nat)
    (hinv : ∀ id, (this.heap id).sps = [] → handles_zero (this.heap id)) :
    ∀ id, (((del_sa this dst spi).2).heap id).sps = [] →
      handles_zero (((del_sa this dst spi).2).heap id) := by
  simp only [del_sa, hashtable_remove]
  cases hashtable_get this.isas { spi := spi, dst := dst } with
  | some e => simpa using hinv
  | none =>
    simp only []
    cases hashtable_get this.osas { spi := spi, dst := dst } with
    | some e => exact entry_destroy_heap_inv _ e hinv
    | none => simpa using hinv

theorem expire_job_heap_inv (this : private_kernel_wfp_ipsec_t) (data : expire_data_t)
    (hinv : ∀ id, (this.heap id).sps = [] → handles_zero (this.heap id)) :
    ∀ id, ((expire_job this data).heap id).sps = [] →
      handles_zero ((expire_job this data).heap id) := by
  unfold expire_job
  cases data.hard
  · simp only [Bool.false_eq_true, if_false]
    cases hashtable_get this.isas { spi := data.spi, dst := data.dst } with
    | none => simpa using hinv
    | some e =>
      simp only []
      split_ifs <;> simpa using hinv
  · simp only [if_true, hashtable_remove]
    cases hashtable_get this.isas { spi := data.spi, dst := data.dst } with
    | none => simpa using hinv
    | some e =>
      simp only []
      cases (this.heap e).osa.dst with
      | none =>
        simp only []
        split_ifs
        · exact entry_destroy_heap_inv _ e hinv
        · exact entry_destroy_heap_inv _ e hinv
      | some d =>
        simp only []
        split_ifs
        · exact entry_destroy_heap_inv _ e hinv
        · exact entry_destroy_heap_inv _ e hinv

theorem add_policy_heap_inv (this : private_kernel_wfp_ipsec_t) (dst : host_t)
    (src_ts dst_ts : traffic_selector_t) (direction : policy_dir_t) (sa : ipsec_sa_cfg_t)
    (priority : policy_priority_t)
    (hinv : ∀ id, (this.heap id).sps = [] → handles_zero (this.heap id)) :
    ∀ id, (((add_policy this dst src_ts dst_ts direction sa priority).2).heap id).sps = [] →
      handles_zero (((add_policy this dst src_ts dst_ts direction sa priority).2).heap id) := by
  unfold add_policy
  simp only []
  generalize ({ spi := if sa.esp_use = true then sa.esp_spi else sa.ah_spi, dst := dst } :
    sa_key_t) = key
  by_cases hb : sa.esp_use = true ∧ sa.ah_use = true
  · simpa only [hb, and_self, if_true] using hinv
  · simp only [hb, if_false]
    cases direction <;> simp only []
    · exact hinv
    · cases priority <;> simp only []
      · cases hashtable_get this.osas key with
        | none => exact hinv
        | some e =>
          simp only []
          by_cases hl : (this.heap e).sps.length = 0
          · simp only [hl, if_true]
            apply heap_inv_update _ _ _ hinv
            intro hs
            rw [(install_frame _ _).1] at hs
            simp at hs
          · simpa only [hl, if_false] using hinv
      · exact hinv
      · exact hinv
    · exact hinv

theorem step_heap_inv (this : private_kernel_wfp_ipsec_t) (c : call_t)
    (hinv : ∀ id, (this.heap id).sps = [] → handles_zero (this.heap id)) :
    ∀ id, ((step this c).heap id).sps = [] → handles_zero ((step this c).heap id) := by
  cases c with
  | add_sa src dst spi protocol reqid lifetime enc_alg enc_key int_alg int_key mode encap
      inbound =>
    exact add_sa_heap_inv this src dst spi protocol reqid lifetime enc_alg enc_key int_alg
      int_key mode encap inbound hinv
  | del_sa dst spi => exact del_sa_heap_inv this dst spi hinv
  | add_policy dst src_ts dst_ts direction sa priority =>
    exact add_policy_heap_inv this dst src_ts dst_ts direction sa priority hinv
  | expire_job data => exact expire_job_heap_inv this data hinv
  | get_features => exact hinv
  | get_spi => exact hinv
  | get_cpi => exact hinv
  | update_sa => exact hinv
  | query_sa => exact hinv
  | flush_sas => exact hinv
  | query_policy => exact hinv
  | del_policy => exact hinv
  | flush_policies => exact hinv
  | bypass_socket => exact hinv
  | enable_udp_decap => exact hinv

theorem run_heap_inv (calls : List call_t) :
    ∀ this : private_kernel_wfp_ipsec_t,
      (∀ id, (this.heap id).sps = [] → handles_zero (this.heap id)) →
      ∀ id, ((run this calls).heap id).sps = [] → handles_zero ((run this calls).heap id) := by
  induction calls with
  | nil => intro this hinv; exact hinv
  | cons c cs ih =>
    intro this hinv
    exact ih (step this c) (step_heap_inv this c hinv)

theorem reachable_heap_inv (s : private_kernel_wfp_ipsec_t) (hr : Reachable s) :
    ∀ id, (s.heap id).sps = [] → handles_zero (s.heap id) := by
  obtain ⟨replies, rng, s0, calls, hc, rfl⟩ := hr
  apply run_heap_inv
  intro id _
  unfold kernel_wfp_ipsec_create at hc
  simp only [] at hc
  split_ifs at hc
  simp only [Option.some.injEq] at hc
  subst hc
  exact ⟨rfl, rfl, rfl⟩

theorem add_policy_out_default_found (this : private_kernel_wfp_ipsec_t) (dst : host_t)
    (src_ts dst_ts : traffic_selector_t) (sa : ipsec_sa_cfg_t) (entry : Nat)
    (hboth : ¬ (sa.esp_use = true ∧ sa.ah_use = true))
    (hfound : hashtable_get this.osas
      { spi := if sa.esp_use then sa.esp_spi else sa.ah_spi, dst := dst } = some entry)
    (hempty : (this.heap entry).sps = []) :
    add_policy this dst src_ts dst_ts policy_dir_t.POLICY_OUT sa
        policy_priority_t.POLICY_PRIORITY_DEFAULT =
      ( if (install this.handle
              { this.heap entry with sps := [ { src := src_ts, dst := dst_ts } ] }).1 = false
        then status_t.FAILED else status_t.SUCCESS,
        { this with
          handle := (install this.handle
              { this.heap entry with sps := [ { src := src_ts, dst := dst_ts } ] }).2.1,
          heap := Function.update this.heap entry
            (install this.handle
              { this.heap entry with sps := [ { src := src_ts, dst := dst_ts } ] }).2.2 } ) := by
  unfold add_policy
  simp only [hboth, if_false, hfound, hempty, List.length_nil, if_true, List.nil_append]

/-- C5: in every reachable state, on an engine whose failing calls store nothing
through their output pointer, when `add_policy(POLICY_OUT, default priority)` finds
an entry with an empty policy list and the installation pipeline fails, in
whatever mode and at whatever step: `add_policy` returns FAILED, the three indexes
are unchanged, the policy list of the entry holds exactly the appended policy and
the handles `policy_in`, `policy_out` and `sa_id` of the entry are zero. -/
theorem add_policy_install_failed (this : private_kernel_wfp_ipsec_t) (hr : Reachable this)
    (hw : no_write_on_failure this.handle.replies) (dst : host_t)
    (src_ts dst_ts : traffic_selector_t) (sa : ipsec_sa_cfg_t) (entry : Nat)
    (hboth : ¬ (sa.esp_use = true ∧ sa.ah_use = true))
    (hfound : hashtable_get this.osas
      { spi := if sa.esp_use then sa.esp_spi else sa.ah_spi, dst := dst } = some entry)
    (hempty : (this.heap entry).sps = [])
    (hfail : (install this.handle
      { this.heap entry with sps := [ { src := src_ts, dst := dst_ts } ] }).1 = false) :
    (add_policy this dst src_ts dst_ts policy_dir_t.POLICY_OUT sa
      policy_priority_t.POLICY_PRIORITY_DEFAULT).1 = status_t.FAILED ∧
    (add_policy this dst src_ts dst_ts policy_dir_t.POLICY_OUT sa
      policy_priority_t.POLICY_PRIORITY_DEFAULT).2.tsas = this.tsas ∧
    (add_policy this dst src_ts dst_ts policy_dir_t.POLICY_OUT sa
      policy_priority_t.POLICY_PRIORITY_DEFAULT).2.isas = this.isas ∧
    (add_policy this dst src_ts dst_ts policy_dir_t.POLICY_OUT sa
      policy_priority_t.POLICY_PRIORITY_DEFAULT).2.osas = this.osas ∧
    ((add_policy this dst src_ts dst_ts policy_dir_t.POLICY_OUT sa
      policy_priority_t.POLICY_PRIORITY_DEFAULT).2.heap entry).sps =
      [ { src := src_ts, dst := dst_ts } ] ∧
    ((add_policy this dst src_ts dst_ts policy_dir_t.POLICY_OUT sa
      policy_priority_t.POLICY_PRIORITY_DEFAULT).2.heap entry).policy_in = 0 ∧
    ((add_policy this dst src_ts dst_ts policy_dir_t.POLICY_OUT sa
      policy_priority_t.POLICY_PRIORITY_DEFAULT).2.heap entry).policy_out = 0 ∧
    ((add_policy this dst src_ts dst_ts policy_dir_t.POLICY_OUT sa
      policy_priority_t.POLICY_PRIORITY_DEFAULT).2.heap entry).sa_id = 0 := by
  have hz : handles_zero
      { this.heap entry with sps := [ { src := src_ts, dst := dst_ts } ] } :=
    reachable_heap_inv this hr entry hempty
  have hpost := install_failed this.handle
    { this.heap entry with sps := [ { src := src_ts, dst := dst_ts } ] } hw hz hfail
  have hsps := (install_frame this.handle
    { this.heap entry with sps := [ { src := src_ts, dst := dst_ts } ] }).1
  rw [add_policy_out_default_found this dst src_ts dst_ts sa entry hboth hfound hempty]
  simp only [hfail, if_true, Function.update_same]
  exact ⟨trivial, trivial, trivial, trivial, hsps, hpost.1, hpost.2.1, hpost.2.2⟩

theorem no_write_on_failure_accept_first (n : Nat) : no_write_on_failure (wfp_accept_first n) := by
  intro k hk
  unfold wfp_accept_first at hk ⊢
  split_ifs at hk ⊢ <;> simp_all


theorem alg2auth_scan_flag (a : Nat) (i1 i2 : IPSEC_SA_AUTH_INFORMATION0)
    (l : List (Nat × IPSEC_AUTH_TRANSFORM_ID0)) :
    (alg2auth_scan a i1 l).1 = (alg2auth_scan a i2 l).1 := by
  induction l with
  | nil => rfl
  | cons b l ih =>
    obtain ⟨x, t⟩ := b
    simp only [alg2auth_scan]
    split_ifs
    · rfl
    · exact ih

theorem alg2cipher_scan_flag (a : Nat) (k : Int) (i1 i2 : IPSEC_SA_CIPHER_INFORMATION0)
    (l : List (Nat × Int × IPSEC_CIPHER_TRANSFORM_ID0)) :
    (alg2cipher_scan a k i1 l).1 = (alg2cipher_scan a k i2 l).1 := by
  induction l with
  | nil => rfl
  | cons b l ih =>
    obtain ⟨x, y, t⟩ := b
    simp only [alg2cipher_scan]
    split_ifs
    · rfl
    · exact ih

theorem install_sa_select_slots (sa : sa_entry_t) (c : install_sa_choice)
    (hc : install_sa_select sa = some c) :
    c.integ.alg = effective_integ sa ∧
    (esp_auth_and_cipher sa → c.encr = { alg := sa.encr.alg, key := sa.encr.key }) := by
  unfold install_sa_select at hc
  unfold effective_integ esp_auth_and_cipher
  split_ifs at hc <;> simp only [Option.some.injEq] at hc <;> subst hc <;> simp_all

theorem install_sa_unsupported (h : HANDLE) (ent : entry_t) (inbound : Bool) (sa : sa_entry_t)
    (v : FWP_IP_VERSION) (hun : unsupported_set_sa sa) :
    install_sa h ent inbound sa v = (false, h) := by
  unfold install_sa
  cases hc : install_sa_select sa with
  | none => rfl
  | some c =>
    obtain ⟨hi, he⟩ := install_sa_select_slots sa c hc
    have hinfo : install_sa_info c = none := by
      unfold install_sa_info
      rcases hun with ⟨hnz, hf⟩ | ⟨hshape, hnz, hf⟩
      · have hf2 : (alg2auth c.integ.alg
            { info_zero.saAuthInformation with authKey := c.integ.key }).1 = false := by
          rw [hi, ← hf]
          exact alg2auth_scan_flag _ _ _ _
        simp only [] at hf2
        rw [hi] at hf2
        simp [hi, hnz, hf2]
      · have hf2 : (alg2cipher c.encr.alg c.encr.key.length
            { info_zero.saCipherInformation with cipherKey := c.encr.key }).1 = false := by
          rw [he hshape, ← hf]
          exact alg2cipher_scan_flag _ _ _ _ _
        have hnz2 : c.encr.alg ≠ 0 := by rw [he hshape]; exact hnz
        simp only []
        split_ifs <;> simp_all
    simp [hinfo]


theorem install_transport_sp_sas (h : HANDLE) (e : entry_t) (inbound : Bool) :
    (install_transport_sp h e inbound).2.2.isa = e.isa ∧
    (install_transport_sp h e inbound).2.2.osa = e.osa := by
  unfold install_transport_sp
  cases inbound <;> simp only [] <;> split_ifs <;> simp

theorem install_tunnel_sps_sas (h : HANDLE) (e : entry_t) :
    (install_tunnel_sps h e).2.2.isa = e.isa ∧ (install_tunnel_sps h e).2.2.osa = e.osa := by
  unfold install_tunnel_sps
  cases hh : host2wfp e.local_ with
  | none => simp
  | some p =>
    obtain ⟨v, a⟩ := p
    simp only []
    cases hg : (generate_guid h).1 with
    | none => simp
    | some g =>
      simp only []
      split_ifs <;> simp

theorem install_sas_unsupported (h : HANDLE) (e : entry_t) (t : IPSEC_TRAFFIC_TYPE)
    (hreach : install_sas_reaches_sa h e)
    (hun : unsupported_set_sa e.isa ∨ unsupported_set_sa e.osa) :
    (install_sas h e t).1 = false ∧ (install_sas h e t).2.2.sa_id = 0 := by
  obtain ⟨hfam, hr1, hr2⟩ := hreach
  unfold install_sas
  cases hh : host2wfp e.local_ with
  | none => exact absurd hh hfam
  | some p =>
    obtain ⟨v, a⟩ := p
    have q1 : ∀ req, (wfp_call h req).1.res = 0 := fun req => hr1
    have q2 : ∀ req req2, (wfp_call (wfp_call h req).2 req2).1.res = 0 := by
      intro req req2
      simpa [wfp_call] using hr2
    simp only [q1, q2, ne_eq, not_true_eq_false, if_false]
    rcases hun with hun | hun
    · simp only [install_sa_unsupported _ _ true e.isa v hun, if_true, and_self]
    · simp only [install_sa_unsupported _ _ false e.osa v hun, if_true]
      split_ifs <;> exact ⟨rfl, rfl⟩

theorem install_unsupported (h : HANDLE) (e : entry_t) (hreach : install_reaches_sa h e)
    (hun : unsupported_set_sa e.isa ∨ unsupported_set_sa e.osa) :
    (install h e).1 = false ∧ (install h e).2.2.sa_id = 0 := by
  unfold install_reaches_sa at hreach
  unfold install
  rcases hreach with ⟨hm, r1, r2, r3⟩ | ⟨hm, r1, r3⟩
  · simp only [hm]
    have s1 := install_transport_sp_sas h e true
    have s2 := install_transport_sp_sas (install_transport_sp h e true).2.1
      (install_transport_sp h e true).2.2 false
    have key := install_sas_unsupported _ _ IPSEC_TRAFFIC_TYPE.IPSEC_TRAFFIC_TYPE_TRANSPORT r3
      (by rw [s2.1, s2.2, s1.1, s1.2]; exact hun)
    unfold install_transport install_transport_steps
    simp only [r1, r2, key.1, Bool.true_eq_false, Bool.false_eq_true, if_false,
      cleanup_policies_entry, key.2, and_self]
  · simp only [hm]
    have s1 := install_tunnel_sps_sas h e
    have key := install_sas_unsupported _ _ IPSEC_TRAFFIC_TYPE.IPSEC_TRAFFIC_TYPE_TUNNEL r3
      (by rw [s1.1, s1.2]; exact hun)
    unfold install_tunnel install_tunnel_steps
    simp only [r1, key.1, Bool.true_eq_false, Bool.false_eq_true, if_false,
      cleanup_policies_entry, key.2, and_self]

/-- C6, amended: when `add_policy(POLICY_OUT, default priority)` finds an entry with
an empty policy list, the pipeline reaches the installation of the SA pair, and
the inbound or the outbound SA has an algorithm that is non-zero and not in the
tables (effective integrity algorithm not in the table of `alg2auth`, or
auth+cipher shape with encryption algorithm and key length not in the table of
`alg2cipher`): `install_sa` fails for that SA without any engine call,
`add_policy` returns FAILED and `sa_id` of the entry is zero afterwards. -/
theorem add_policy_unsupported_algorithm (this : private_kernel_wfp_ipsec_t) (dst : host_t)
    (src_ts dst_ts : traffic_selector_t) (sa : ipsec_sa_cfg_t) (entry : Nat)
    (hboth : ¬ (sa.esp_use = true ∧ sa.ah_use = true))
    (hfound : hashtable_get this.osas
      { spi := if sa.esp_use then sa.esp_spi else sa.ah_spi, dst := dst } = some entry)
    (hempty : (this.heap entry).sps = [])
    (hreach : install_reaches_sa this.handle
      { this.heap entry with sps := [ { src := src_ts, dst := dst_ts } ] })
    (hun : unsupported_set_sa (this.heap entry).isa ∨
      unsupported_set_sa (this.heap entry).osa) :
    (unsupported_set_sa (this.heap entry).isa → ∀ h ent v,
      install_sa h ent true (this.heap entry).isa v = (false, h)) ∧
    (unsupported_set_sa (this.heap entry).osa → ∀ h ent v,
      install_sa h ent false (this.heap entry).osa v = (false, h)) ∧
    (add_policy this dst src_ts dst_ts policy_dir_t.POLICY_OUT sa
      policy_priority_t.POLICY_PRIORITY_DEFAULT).1 = status_t.FAILED ∧
    ((add_policy this dst src_ts dst_ts policy_dir_t.POLICY_OUT sa
      policy_priority_t.POLICY_PRIORITY_DEFAULT).2.heap entry).sa_id = 0 := by
  have key := install_unsupported this.handle
    { this.heap entry with sps := [ { src := src_ts, dst := dst_ts } ] } hreach hun
  refine ⟨fun hu h ent v => install_sa_unsupported h ent true _ v hu,
    fun hu h ent v => install_sa_unsupported h ent false _ v hu, ?_, ?_⟩
  · rw [add_policy_out_default_found this dst src_ts dst_ts sa entry hboth hfound hempty]
    simp only [key.1, if_true]
  · rw [add_policy_out_default_found this dst src_ts dst_ts sa entry hboth hfound hempty]
    simp only [Function.update_same, key.2]


/-- Witness of C5: the complete entry 0 on an engine that accepts the two filters and
the SA context and then rejects the assignment of the SPI. -/
theorem add_policy_install_failed_witness :
    (add_policy (backend_pair (wfp_accept_first 5)) host_b (sample_ts host_a)
      (sample_ts host_b) policy_dir_t.POLICY_OUT sample_sa_cfg
      policy_priority_t.POLICY_PRIORITY_DEFAULT).1 = status_t.FAILED ∧
    ((add_policy (backend_pair (wfp_accept_first 5)) host_b (sample_ts host_a)
      (sample_ts host_b) policy_dir_t.POLICY_OUT sample_sa_cfg
      policy_priority_t.POLICY_PRIORITY_DEFAULT).2.heap 0).sa_id = 0 :=
  ⟨(add_policy_install_failed (backend_pair (wfp_accept_first 5))
      ⟨wfp_accept_first 5, rng_fixed, backend_new (wfp_accept_first 5), _,
        backend_new_created _ rfl rfl, rfl⟩
      (no_write_on_failure_accept_first 5) host_b (sample_ts host_a) (sample_ts host_b)
      sample_sa_cfg 0 (by decide) (by decide) (by decide) (by decide)).1,
   (add_policy_install_failed (backend_pair (wfp_accept_first 5))
      ⟨wfp_accept_first 5, rng_fixed, backend_new (wfp_accept_first 5), _,
        backend_new_created _ rfl rfl, rfl⟩
      (no_write_on_failure_accept_first 5) host_b (sample_ts host_a) (sample_ts host_b)
      sample_sa_cfg 0 (by decide) (by decide) (by decide) (by decide)).2.2.2.2.2.2.2⟩

/-- Witness of C6 (amended): the complete entry 0 with the integrity algorithm
AUTH_UNDEFINED (1024) on both SAs, on an engine that accepts every request. -/
theorem add_policy_unsupported_algorithm_witness :
    (add_policy (backend_pair_with wfp_accept AUTH_UNDEFINED) host_b (sample_ts host_a)
      (sample_ts host_b) policy_dir_t.POLICY_OUT sample_sa_cfg
      policy_priority_t.POLICY_PRIORITY_DEFAULT).1 = status_t.FAILED ∧
    ((add_policy (backend_pair_with wfp_accept AUTH_UNDEFINED) host_b (sample_ts host_a)
      (sample_ts host_b) policy_dir_t.POLICY_OUT sample_sa_cfg
      policy_priority_t.POLICY_PRIORITY_DEFAULT).2.heap 0).sa_id = 0 :=
  (add_policy_unsupported_algorithm (backend_pair_with wfp_accept AUTH_UNDEFINED) host_b
    (sample_ts host_a) (sample_ts host_b) sample_sa_cfg 0 (by decide) (by decide) (by decide)
    (by unfold install_reaches_sa install_sas_reaches_sa; decide)
    (by left; unfold unsupported_set_sa; left; decide)).2.2

/-- Counterexample to C6 as stated: the complete entry 0 with the integrity
algorithm 0 on both SAs, which `alg2auth` does not support. The pipeline reaches
the installation of the SA pair, `install_sa` adds the inbound SA to the engine
and succeeds, `add_policy` returns SUCCESS and `sa_id` is 7 afterwards. -/
theorem add_policy_zero_integrity_installs :
    hashtable_get (backend_pair_with wfp_accept 0).osas { spi := 2, dst := host_b } = some 0 ∧
    ((backend_pair_with wfp_accept 0).heap 0).sps = [] ∧
    effective_integ ((backend_pair_with wfp_accept 0).heap 0).isa = 0 ∧
    (alg2auth 0 info_zero.saAuthInformation).1 = false ∧
    unsupported_sa ((backend_pair_with wfp_accept 0).heap 0).isa ∧
    install_reaches_sa (backend_pair_with wfp_accept 0).handle
      { (backend_pair_with wfp_accept 0).heap 0 with
        sps := [ { src := sample_ts host_a, dst := sample_ts host_b } ] } ∧
    (install_sa (backend_pair_with wfp_accept 0).handle
      ((backend_pair_with wfp_accept 0).heap 0) true
      ((backend_pair_with wfp_accept 0).heap 0).isa FWP_IP_VERSION.FWP_IP_VERSION_V4).1 = true ∧
    (install_sa (backend_pair_with wfp_accept 0).handle
      ((backend_pair_with wfp_accept 0).heap 0) true
      ((backend_pair_with wfp_accept 0).heap 0).isa
      FWP_IP_VERSION.FWP_IP_VERSION_V4).2.trace.length =
      (backend_pair_with wfp_accept 0).handle.trace.length + 1 ∧
    (add_policy (backend_pair_with wfp_accept 0) host_b (sample_ts host_a) (sample_ts host_b)
      policy_dir_t.POLICY_OUT sample_sa_cfg policy_priority_t.POLICY_PRIORITY_DEFAULT).1 =
      status_t.SUCCESS ∧
    ((add_policy (backend_pair_with wfp_accept 0) host_b (sample_ts host_a) (sample_ts host_b)
      policy_dir_t.POLICY_OUT sample_sa_cfg
      policy_priority_t.POLICY_PRIORITY_DEFAULT).2.heap 0).sa_id = 7 := by
  refine ⟨?_, ?_, ?_, ?_, ?_, ?_, ?_, ?_, ?_, ?_⟩
  · decide
  · decide
  · decide
  · decide
  · unfold unsupported_sa; left; decide
  · unfold install_reaches_sa install_sas_reaches_sa; decide
  · decide
  · decide
  · decide
  · decide

/-! ## Transform selection of `install_sa` (C7, C8) -/

/-- C7: for every ESP SA with the encryption algorithm ENCR_AES_GCM_ICV16 and a
20-byte key, whatever the negotiated integrity algorithm and key: `install_sa`
selects the ESP auth+cipher shape, resolves the implied integrity algorithm
AUTH_AES_128_GMAC keyed with the encryption key, and hands the engine the auth
transform GCM_AES_128 and the cipher transform GCM_AES_128, both with the
encryption key. -/
theorem install_sa_aes_gcm_128 (h : HANDLE) (entry : entry_t) (inbound : Bool)
    (sa : sa_entry_t) (version : FWP_IP_VERSION)
    (hproto : sa.protocol = IPPROTO_ESP) (halg : sa.encr.alg = ENCR_AES_GCM_ICV16)
    (hlen : sa.encr.key.length = 20) :
    install_sa_select sa =
      some { saTransformType := IPSEC_TRANSFORM_TYPE.IPSEC_TRANSFORM_ESP_AUTH_AND_CIPHER,
             integ := { alg := AUTH_AES_128_GMAC, key := sa.encr.key },
             encr := { alg := ENCR_AES_GCM_ICV16, key := sa.encr.key } } ∧
    (install_sa h entry inbound sa version).2.trace = h.trace ++
      [ (if inbound then wfp_request.IPsecSaContextAddInbound0
         else wfp_request.IPsecSaContextAddOutbound0) entry.sa_id
          { lifetimeSeconds := if inbound then entry.isa.lifetime else entry.osa.lifetime,
            saList := [ { spi := ntohl sa.spi,
                          saTransformType :=
                            IPSEC_TRANSFORM_TYPE.IPSEC_TRANSFORM_ESP_AUTH_AND_CIPHER,
                          information := IPSEC_SA0_information.espAuthAndCipherInformation
                            { saCipherInformation :=
                                { cipherTransformId := IPSEC_CIPHER_TRANSFORM_ID0.IPSEC_CIPHER_TRANSFORM_ID_GCM_AES_128,
                                  cipherKey := sa.encr.key },
                              saAuthInformation :=
                                { authTransformId := IPSEC_AUTH_TRANSFORM_ID0.IPSEC_AUTH_TRANSFORM_ID_GCM_AES_128,
                                  authKey := sa.encr.key } } } ],
            ipVersion := version } ] := by
  have hsel : install_sa_select sa =
      some { saTransformType := IPSEC_TRANSFORM_TYPE.IPSEC_TRANSFORM_ESP_AUTH_AND_CIPHER,
             integ := { alg := AUTH_AES_128_GMAC, key := sa.encr.key },
             encr := { alg := ENCR_AES_GCM_ICV16, key := sa.encr.key } } := by
    simp [install_sa_select, hproto, halg, hlen, encryption_algorithm_is_aead, encr2integ,
      encr2integ_map, encr2integ_scan]
  refine ⟨hsel, ?_⟩
  have hinfo : install_sa_info
      { saTransformType := IPSEC_TRANSFORM_TYPE.IPSEC_TRANSFORM_ESP_AUTH_AND_CIPHER,
        integ := { alg := AUTH_AES_128_GMAC, key := sa.encr.key },
        encr := { alg := ENCR_AES_GCM_ICV16, key := sa.encr.key } } =
      some { saCipherInformation :=
                { cipherTransformId := IPSEC_CIPHER_TRANSFORM_ID0.IPSEC_CIPHER_TRANSFORM_ID_GCM_AES_128,
                  cipherKey := sa.encr.key },
             saAuthInformation :=
                { authTransformId := IPSEC_AUTH_TRANSFORM_ID0.IPSEC_AUTH_TRANSFORM_ID_GCM_AES_128,
                  authKey := sa.encr.key } } := by
    simp [install_sa_info, alg2auth, alg2auth_map, alg2auth_scan, alg2cipher, alg2cipher_map,
      alg2cipher_scan, info_zero, hlen]
  cases inbound <;> simp [install_sa, hsel, hinfo, install_sa_bundle, wfp_call] <;>
    split_ifs <;> rfl

/-- Witness of C7: an outbound AES-GCM-128 SA that also carries a negotiated
HMAC-SHA1-96 with its own key. -/
theorem install_sa_aes_gcm_128_witness :
    install_sa_select
      { spi := 2, protocol := IPPROTO_ESP, lifetime := 0, dst := some host_b,
        integ := { alg := AUTH_HMAC_SHA1_96, key := List.replicate 20 2 },
        encr := { alg := ENCR_AES_GCM_ICV16, key := List.replicate 20 1 } } =
      some { saTransformType := IPSEC_TRANSFORM_TYPE.IPSEC_TRANSFORM_ESP_AUTH_AND_CIPHER,
             integ := { alg := AUTH_AES_128_GMAC, key := List.replicate 20 1 },
             encr := { alg := ENCR_AES_GCM_ICV16, key := List.replicate 20 1 } } :=
  (install_sa_aes_gcm_128 (backend_new wfp_accept).handle entry_zero false
    { spi := 2, protocol := IPPROTO_ESP, lifetime := 0, dst := some host_b,
      integ := { alg := AUTH_HMAC_SHA1_96, key := List.replicate 20 2 },
      encr := { alg := ENCR_AES_GCM_ICV16, key := List.replicate 20 1 } }
    FWP_IP_VERSION.FWP_IP_VERSION_V4 rfl rfl rfl).1

/-- C8: for every SA, `install_sa` settles the transform shape as follows. AH: the
AH shape with the negotiated integrity algorithm and key, no cipher slot. ESP with
ENCR_NULL or ENCR_NULL_AUTH_AES_GMAC: the ESP auth-only shape, no cipher slot. Any
other ESP SA: the ESP auth+cipher shape with the encryption algorithm and key of
the SA. Any other protocol: failure without an engine call. Whenever a shape is
settled, `install_sa` either fails without an engine call or sends exactly one
request, which carries that shape and, for the two auth-only shapes, the
authentication block alone; the cipher block stays zeroed when there is no
cipher slot. -/
theorem install_sa_transform_shape (sa : sa_entry_t) :
    (sa.protocol = IPPROTO_AH →
      install_sa_select sa =
        some { saTransformType := IPSEC_TRANSFORM_TYPE.IPSEC_TRANSFORM_AH,
               integ := { alg := sa.integ.alg, key := sa.integ.key },
               encr := { alg := 0, key := [] } }) ∧
    (sa.protocol = IPPROTO_ESP →
      (sa.encr.alg = ENCR_NULL ∨ sa.encr.alg = ENCR_NULL_AUTH_AES_GMAC) →
      install_sa_select sa =
        some { saTransformType := IPSEC_TRANSFORM_TYPE.IPSEC_TRANSFORM_ESP_AUTH,
               integ :=
                 if encryption_algorithm_is_aead sa.encr.alg then
                   { alg := encr2integ sa.encr.alg sa.encr.key.length, key := sa.encr.key }
                 else { alg := sa.integ.alg, key := sa.integ.key },
               encr := { alg := 0, key := [] } }) ∧
    (sa.protocol = IPPROTO_ESP →
      ¬ (sa.encr.alg = ENCR_NULL ∨ sa.encr.alg = ENCR_NULL_AUTH_AES_GMAC) →
      install_sa_select sa =
        some { saTransformType := IPSEC_TRANSFORM_TYPE.IPSEC_TRANSFORM_ESP_AUTH_AND_CIPHER,
               integ :=
                 if encryption_algorithm_is_aead sa.encr.alg then
                   { alg := encr2integ sa.encr.alg sa.encr.key.length, key := sa.encr.key }
                 else { alg := sa.integ.alg, key := sa.integ.key },
               encr := { alg := sa.encr.alg, key := sa.encr.key } }) ∧
    (sa.protocol ≠ IPPROTO_AH → sa.protocol ≠ IPPROTO_ESP →
      ∀ h entry inbound version, install_sa h entry inbound sa version = (false, h)) ∧
    (∀ c, install_sa_select sa = some c → ∀ h entry inbound version,
      install_sa h entry inbound sa version = (false, h) ∨
      ∃ info, install_sa_info c = some info ∧
        (c.encr.alg = 0 → info.saCipherInformation = info_zero.saCipherInformation) ∧
        (install_sa h entry inbound sa version).2.trace = h.trace ++
          [ (if inbound then wfp_request.IPsecSaContextAddInbound0
             else wfp_request.IPsecSaContextAddOutbound0) entry.sa_id
              { lifetimeSeconds :=
                  if inbound then entry.isa.lifetime else entry.osa.lifetime,
                saList :=
                  [ { spi := ntohl sa.spi, saTransformType := c.saTransformType,
                      information :=
                        match c.saTransformType with
                        | IPSEC_TRANSFORM_TYPE.IPSEC_TRANSFORM_AH =>
                          IPSEC_SA0_information.ahInformation info.saAuthInformation
                        | IPSEC_TRANSFORM_TYPE.IPSEC_TRANSFORM_ESP_AUTH =>
                          IPSEC_SA0_information.espAuthInformation info.saAuthInformation
                        | IPSEC_TRANSFORM_TYPE.IPSEC_TRANSFORM_ESP_AUTH_AND_CIPHER =>
                          IPSEC_SA0_information.espAuthAndCipherInformation info } ],
                ipVersion := version } ]) := by
  refine ⟨?_, ?_, ?_, ?_, ?_⟩
  · intro hp
    simp [install_sa_select, hp]
  · intro hp he
    have hne : ¬ (IPPROTO_ESP = IPPROTO_AH) := by decide
    simp only [install_sa_select, hne, hp, he, if_true, if_false]
  · intro hp he
    have hne : ¬ (IPPROTO_ESP = IPPROTO_AH) := by decide
    simp only [install_sa_select, hne, hp, he, if_true, if_false]
  · intro h1 h2 h entry inbound version
    simp [install_sa, install_sa_select, h1, h2]
  · intro c hc h entry inbound version
    unfold install_sa
    simp only [hc]
    cases hi : install_sa_info c with
    | none => left; rfl
    | some info =>
      right
      simp only []
      refine ⟨info, rfl, ?_, ?_⟩
      · intro h0
        unfold install_sa_info at hi
        simp only [h0, ne_eq, not_true_eq_false, if_false] at hi
        split_ifs at hi <;> simp only [Option.some.injEq] at hi <;> rw [← hi]
      · cases inbound <;> simp only [install_sa_bundle, wfp_call] <;> split_ifs <;> rfl

/-! ## Algorithm translation tables (C9, C10) -/

/-- C9: for every encryption algorithm and key length in bytes, `alg2cipher`
succeeds exactly on the eight pairs of its table and then stores the transform of
the row; on every other pair it returns FALSE and leaves `*info` as it was. -/
theorem alg2cipher_table (a : Nat) (k : Int) (info : IPSEC_SA_CIPHER_INFORMATION0) :
    ((alg2cipher a k info).1 = true ↔
      ((a = ENCR_DES ∧ k = 8) ∨ (a = ENCR_3DES ∧ k = 24) ∨ (a = ENCR_AES_CBC ∧ k = 16) ∨
       (a = ENCR_AES_CBC ∧ k = 24) ∨ (a = ENCR_AES_CBC ∧ k = 32) ∨
       (a = ENCR_AES_GCM_ICV16 ∧ k = 20) ∨ (a = ENCR_AES_GCM_ICV16 ∧ k = 28) ∨
       (a = ENCR_AES_GCM_ICV16 ∧ k = 36))) ∧
    alg2cipher ENCR_DES 8 info = (true, { info with cipherTransformId :=
      IPSEC_CIPHER_TRANSFORM_ID0.IPSEC_CIPHER_TRANSFORM_ID_CBC_DES }) ∧
    alg2cipher ENCR_3DES 24 info = (true, { info with cipherTransformId :=
      IPSEC_CIPHER_TRANSFORM_ID0.IPSEC_CIPHER_TRANSFORM_ID_CBC_3DES }) ∧
    alg2cipher ENCR_AES_CBC 16 info = (true, { info with cipherTransformId :=
      IPSEC_CIPHER_TRANSFORM_ID0.IPSEC_CIPHER_TRANSFORM_ID_AES_128 }) ∧
    alg2cipher ENCR_AES_CBC 24 info = (true, { info with cipherTransformId :=
      IPSEC_CIPHER_TRANSFORM_ID0.IPSEC_CIPHER_TRANSFORM_ID_AES_192 }) ∧
    alg2cipher ENCR_AES_CBC 32 info = (true, { info with cipherTransformId :=
      IPSEC_CIPHER_TRANSFORM_ID0.IPSEC_CIPHER_TRANSFORM_ID_AES_256 }) ∧
    alg2cipher ENCR_AES_GCM_ICV16 20 info = (true, { info with cipherTransformId :=
      IPSEC_CIPHER_TRANSFORM_ID0.IPSEC_CIPHER_TRANSFORM_ID_GCM_AES_128 }) ∧
    alg2cipher ENCR_AES_GCM_ICV16 28 info = (true, { info with cipherTransformId :=
      IPSEC_CIPHER_TRANSFORM_ID0.IPSEC_CIPHER_TRANSFORM_ID_GCM_AES_192 }) ∧
    alg2cipher ENCR_AES_GCM_ICV16 36 info = (true, { info with cipherTransformId :=
      IPSEC_CIPHER_TRANSFORM_ID0.IPSEC_CIPHER_TRANSFORM_ID_GCM_AES_256 }) ∧
    ((alg2cipher a k info).1 = false → alg2cipher a k info = (false, info)) := by
  refine ⟨?_, rfl, rfl, rfl, rfl, rfl, rfl, rfl, rfl, ?_⟩
  · simp only [alg2cipher, alg2cipher_map, alg2cipher_scan]
    split_ifs <;> simp_all
    all_goals omega
  · simp only [alg2cipher, alg2cipher_map, alg2cipher_scan]
    split_ifs <;> simp_all

/-- C10: for every integrity algorithm, `alg2auth` succeeds exactly on the six
algorithms of its table and then stores the transform of the row; on every other
algorithm it returns FALSE and leaves `*info`, the transform id included, as it
was. -/
theorem alg2auth_table (a : Nat) (info : IPSEC_SA_AUTH_INFORMATION0) :
    ((alg2auth a info).1 = true ↔
      (a = AUTH_HMAC_MD5_96 ∨ a = AUTH_HMAC_SHA1_96 ∨ a = AUTH_HMAC_SHA2_256_128 ∨
       a = AUTH_AES_128_GMAC ∨ a = AUTH_AES_192_GMAC ∨ a = AUTH_AES_256_GMAC)) ∧
    alg2auth AUTH_HMAC_MD5_96 info = (true, { info with authTransformId :=
      IPSEC_AUTH_TRANSFORM_ID0.IPSEC_AUTH_TRANSFORM_ID_HMAC_MD5_96 }) ∧
    alg2auth AUTH_HMAC_SHA1_96 info = (true, { info with authTransformId :=
      IPSEC_AUTH_TRANSFORM_ID0.IPSEC_AUTH_TRANSFORM_ID_HMAC_SHA_1_96 }) ∧
    alg2auth AUTH_HMAC_SHA2_256_128 info = (true, { info with authTransformId :=
      IPSEC_AUTH_TRANSFORM_ID0.IPSEC_AUTH_TRANSFORM_ID_HMAC_SHA_256_128 }) ∧
    alg2auth AUTH_AES_128_GMAC info = (true, { info with authTransformId :=
      IPSEC_AUTH_TRANSFORM_ID0.IPSEC_AUTH_TRANSFORM_ID_GCM_AES_128 }) ∧
    alg2auth AUTH_AES_192_GMAC info = (true, { info with authTransformId :=
      IPSEC_AUTH_TRANSFORM_ID0.IPSEC_AUTH_TRANSFORM_ID_GCM_AES_192 }) ∧
    alg2auth AUTH_AES_256_GMAC info = (true, { info with authTransformId :=
      IPSEC_AUTH_TRANSFORM_ID0.IPSEC_AUTH_TRANSFORM_ID_GCM_AES_256 }) ∧
    ((alg2auth a info).1 = false →
      alg2auth a info = (false, info) ∧
      (alg2auth a info).2.authTransformId = info.authTransformId) := by
  refine ⟨?_, rfl, rfl, rfl, rfl, rfl, rfl, ?_⟩
  · simp only [alg2auth, alg2auth_map, alg2auth_scan]
    split_ifs <;> simp_all
    all_goals omega
  · simp only [alg2auth, alg2auth_map, alg2auth_scan]
    split_ifs <;> simp_all

/-! ## Traffic selectors to filter conditions (C11 to C17) -/

theorem range2cond_eq (cond : FWPM_FILTER_CONDITION0) (from_ to_ : Nat) :
    range2cond cond from_ to_ = range_condition cond.fieldKey from_ to_ := by
  unfold range2cond range_condition
  split_ifs <;> rfl

theorem range_condition_fieldKey (key : FWPM_CONDITION) (from_ to_ : Nat) :
    (range_condition key from_ to_).fieldKey = key := by
  unfold range_condition
  split_ifs <;> rfl

theorem ts2condition_ok (ts : traffic_selector_t) (local_ : Bool)
    (conds : List FWPM_FILTER_CONDITION0) (h : (ts2condition ts local_ conds).1 = true) :
    (ts2condition_address ts local_).1 = true ∧
    (ts2condition ts local_ conds).2 =
      conds ++ (ts2condition_address ts local_).2 ::
        (ts2condition_protocol ts local_ ++ ts2condition_ports ts local_) := by
  unfold ts2condition at h ⊢
  rcases hh : ts2condition_address ts local_ with ⟨b, c⟩
  cases b
  · simp [hh] at h
  · simp

theorem ts2condition_of_address (ts : traffic_selector_t) (local_ : Bool)
    (conds : List FWPM_FILTER_CONDITION0) (c : FWPM_FILTER_CONDITION0)
    (h : ts2condition_address ts local_ = (true, c)) :
    ts2condition ts local_ conds =
      (true, conds ++ c :: (ts2condition_protocol ts local_ ++ ts2condition_ports ts local_)) := by
  unfold ts2condition
  simp [h]

theorem ts2condition_address_field (ts : traffic_selector_t) (local_ : Bool) :
    (ts2condition_address ts local_).2.fieldKey =
      if local_ then FWPM_CONDITION.FWPM_CONDITION_IP_LOCAL_ADDRESS
      else FWPM_CONDITION.FWPM_CONDITION_IP_REMOTE_ADDRESS := by
  unfold ts2condition_address
  simp only [condition_zero]
  split_ifs <;> split <;> rfl

theorem ts2condition_protocol_field (ts : traffic_selector_t) (local_ : Bool) :
    ∀ c ∈ ts2condition_protocol ts local_,
      c.fieldKey = FWPM_CONDITION.FWPM_CONDITION_IP_PROTOCOL := by
  intro c hc
  unfold ts2condition_protocol at hc
  split_ifs at hc
  · simp only [List.mem_singleton] at hc
    rw [hc]
  · simp at hc

theorem ts2condition_ports_field (ts : traffic_selector_t) (local_ : Bool) :
    ∀ c ∈ ts2condition_ports ts local_,
      c.fieldKey = FWPM_CONDITION.FWPM_CONDITION_ICMP_TYPE ∨
      c.fieldKey = FWPM_CONDITION.FWPM_CONDITION_ICMP_CODE ∨
      c.fieldKey = FWPM_CONDITION.FWPM_CONDITION_IP_LOCAL_PORT ∨
      c.fieldKey = FWPM_CONDITION.FWPM_CONDITION_IP_REMOTE_PORT := by
  intro c hc
  unfold ts2condition_ports at hc
  simp only [range2cond_eq, condition_zero] at hc
  split_ifs at hc <;>
    simp only [List.mem_append, List.mem_singleton, List.not_mem_nil, or_false, false_or,
      or_self] at hc
  all_goals first
    | exact absurd hc id
    | (rcases hc with rfl | rfl <;> simp [range_condition_fieldKey])


theorem ts2condition_tail_no_address (ts : traffic_selector_t) (local_ : Bool) :
    ∀ c ∈ ts2condition_protocol ts local_ ++ ts2condition_ports ts local_,
      c.fieldKey ≠ FWPM_CONDITION.FWPM_CONDITION_IP_LOCAL_ADDRESS ∧
      c.fieldKey ≠ FWPM_CONDITION.FWPM_CONDITION_IP_REMOTE_ADDRESS := by
  intro c hc
  rcases List.mem_append.mp hc with h | h
  · rw [ts2condition_protocol_field ts local_ c h]
    exact ⟨by decide, by decide⟩
  · rcases ts2condition_ports_field ts local_ c h with h | h | h | h <;> rw [h] <;>
      exact ⟨by decide, by decide⟩

/-- C11: for every encryption algorithm and key length in bytes, `encr2integ`
returns AUTH_AES_128_GMAC, AUTH_AES_192_GMAC or AUTH_AES_256_GMAC when the
algorithm is ENCR_NULL_AUTH_AES_GMAC or ENCR_AES_GCM_ICV16 and the key length is
20, 28 or 36 respectively, and AUTH_UNDEFINED for every other pair. -/
theorem encr2integ_table (e : Nat) (k : Int) :
    ((e = ENCR_NULL_AUTH_AES_GMAC ∨ e = ENCR_AES_GCM_ICV16) → k = 20 →
      encr2integ e k = AUTH_AES_128_GMAC) ∧
    ((e = ENCR_NULL_AUTH_AES_GMAC ∨ e = ENCR_AES_GCM_ICV16) → k = 28 →
      encr2integ e k = AUTH_AES_192_GMAC) ∧
    ((e = ENCR_NULL_AUTH_AES_GMAC ∨ e = ENCR_AES_GCM_ICV16) → k = 36 →
      encr2integ e k = AUTH_AES_256_GMAC) ∧
    (¬ ((e = ENCR_NULL_AUTH_AES_GMAC ∨ e = ENCR_AES_GCM_ICV16) ∧
        (k = 20 ∨ k = 28 ∨ k = 36)) →
      encr2integ e k = AUTH_UNDEFINED) := by
  refine ⟨?_, ?_, ?_, ?_⟩
  · rintro (rfl | rfl) rfl <;> rfl
  · rintro (rfl | rfl) rfl <;> rfl
  · rintro (rfl | rfl) rfl <;> rfl
  · intro h
    simp only [encr2integ, encr2integ_map, encr2integ_scan]
    split_ifs <;> simp_all

/-- C12: for every IPv4 or IPv6 selector whose from address equals its to address
(a single host, for which `is_host(ts, NULL)` returns TRUE) and for both roles,
`ts2condition` succeeds and appends exactly one address condition: on the local
address field for the local role and on the remote address field otherwise, with
match type equality and the from address as value (IPv4: the 32-bit value of the
four bytes in network order, IPv6: the 16 bytes), neither address+mask nor range;
no condition after it is on an address field. -/
theorem ts2condition_single_host (ts : traffic_selector_t) (local_ : Bool)
    (conds : List FWPM_FILTER_CONDITION0)
    (hcontract : is_host_of_equal_bounds ts)
    (hft : ts.get_from_address = ts.get_to_address) :
    (ts.get_type = ts_type_t.TS_IPV4_ADDR_RANGE →
      (ts2condition ts local_ conds).1 = true ∧
      ∃ rest, (ts2condition ts local_ conds).2 = conds ++
          { fieldKey := if local_ then FWPM_CONDITION.FWPM_CONDITION_IP_LOCAL_ADDRESS
                        else FWPM_CONDITION.FWPM_CONDITION_IP_REMOTE_ADDRESS,
            matchType := FWP_MATCH_TYPE.FWP_MATCH_EQUAL,
            conditionValue :=
              FWP_CONDITION_VALUE0.FWP_UINT32 (untoh32 ts.get_from_address) } :: rest ∧
        ∀ c ∈ rest, c.fieldKey ≠ FWPM_CONDITION.FWPM_CONDITION_IP_LOCAL_ADDRESS ∧
          c.fieldKey ≠ FWPM_CONDITION.FWPM_CONDITION_IP_REMOTE_ADDRESS) ∧
    (ts.get_type = ts_type_t.TS_IPV6_ADDR_RANGE →
      (ts2condition ts local_ conds).1 = true ∧
      ∃ rest, (ts2condition ts local_ conds).2 = conds ++
          { fieldKey := if local_ then FWPM_CONDITION.FWPM_CONDITION_IP_LOCAL_ADDRESS
                        else FWPM_CONDITION.FWPM_CONDITION_IP_REMOTE_ADDRESS,
            matchType := FWP_MATCH_TYPE.FWP_MATCH_EQUAL,
            conditionValue := FWP_CONDITION_VALUE0.FWP_BYTE_ARRAY16_TYPE
              (ts.get_from_address.take 16) } :: rest ∧
        ∀ c ∈ rest, c.fieldKey ≠ FWPM_CONDITION.FWPM_CONDITION_IP_LOCAL_ADDRESS ∧
          c.fieldKey ≠ FWPM_CONDITION.FWPM_CONDITION_IP_REMOTE_ADDRESS) := by
  have hhost : ts.is_host = true := hcontract hft
  refine ⟨?_, ?_⟩
  · intro ht
    have ha : ts2condition_address ts local_ = (true,
        { fieldKey := if local_ then FWPM_CONDITION.FWPM_CONDITION_IP_LOCAL_ADDRESS
                      else FWPM_CONDITION.FWPM_CONDITION_IP_REMOTE_ADDRESS,
          matchType := FWP_MATCH_TYPE.FWP_MATCH_EQUAL,
          conditionValue :=
            FWP_CONDITION_VALUE0.FWP_UINT32 (untoh32 ts.get_from_address) }) := by
      simp [ts2condition_address, hhost, ht, condition_zero]
    rw [ts2condition_of_address ts local_ conds _ ha]
    exact ⟨rfl, _, rfl, ts2condition_tail_no_address ts local_⟩
  · intro ht
    have ha : ts2condition_address ts local_ = (true,
        { fieldKey := if local_ then FWPM_CONDITION.FWPM_CONDITION_IP_LOCAL_ADDRESS
                      else FWPM_CONDITION.FWPM_CONDITION_IP_REMOTE_ADDRESS,
          matchType := FWP_MATCH_TYPE.FWP_MATCH_EQUAL,
          conditionValue := FWP_CONDITION_VALUE0.FWP_BYTE_ARRAY16_TYPE
            (ts.get_from_address.take 16) }) := by
      simp [ts2condition_address, hhost, ht, condition_zero]
    rw [ts2condition_of_address ts local_ conds _ ha]
    exact ⟨rfl, _, rfl, ts2condition_tail_no_address ts local_⟩

theorem prefix2mask_value (p : Nat) (hp : p ≤ 32) : prefix2mask p = 2 ^ 32 - 2 ^ (32 - p) := by
  interval_cases p <;> rfl


/-- C13: for every selector that is not a single host and for which `to_subnet`
reports one subnet with prefix length p, `ts2condition` succeeds and appends
exactly one address condition, an address+mask condition, not a range: for IPv4
(p at most 32) address = the value of the from address in network order and
mask = 2^32 - 2^(32-p), which is what `prefix2mask` computes; for IPv6 address =
the 16 from address bytes and prefix length p. -/
theorem ts2condition_subnet (ts : traffic_selector_t) (local_ : Bool)
    (conds : List FWPM_FILTER_CONDITION0) (p : Nat)
    (hnot : ts.is_host = false) (hsub : ts.to_subnet = true) (hp : ts.to_subnet_mask = p) :
    (ts.to_subnet_net.get_family = family_t.AF_INET → p ≤ 32 →
      prefix2mask p = 2 ^ 32 - 2 ^ (32 - p) ∧
      (ts2condition ts local_ conds).1 = true ∧
      ∃ rest, (ts2condition ts local_ conds).2 = conds ++
          { fieldKey := if local_ then FWPM_CONDITION.FWPM_CONDITION_IP_LOCAL_ADDRESS
                        else FWPM_CONDITION.FWPM_CONDITION_IP_REMOTE_ADDRESS,
            matchType := FWP_MATCH_TYPE.FWP_MATCH_EQUAL,
            conditionValue := FWP_CONDITION_VALUE0.FWP_V4_ADDR_MASK
              (untoh32 ts.get_from_address) (2 ^ 32 - 2 ^ (32 - p)) } :: rest ∧
        ∀ c ∈ rest, c.fieldKey ≠ FWPM_CONDITION.FWPM_CONDITION_IP_LOCAL_ADDRESS ∧
          c.fieldKey ≠ FWPM_CONDITION.FWPM_CONDITION_IP_REMOTE_ADDRESS) ∧
    (ts.to_subnet_net.get_family = family_t.AF_INET6 →
      (ts2condition ts local_ conds).1 = true ∧
      ∃ rest, (ts2condition ts local_ conds).2 = conds ++
          { fieldKey := if local_ then FWPM_CONDITION.FWPM_CONDITION_IP_LOCAL_ADDRESS
                        else FWPM_CONDITION.FWPM_CONDITION_IP_REMOTE_ADDRESS,
            matchType := FWP_MATCH_TYPE.FWP_MATCH_EQUAL,
            conditionValue := FWP_CONDITION_VALUE0.FWP_V6_ADDR_MASK
              (ts.get_from_address.take 16) p } :: rest ∧
        ∀ c ∈ rest, c.fieldKey ≠ FWPM_CONDITION.FWPM_CONDITION_IP_LOCAL_ADDRESS ∧
          c.fieldKey ≠ FWPM_CONDITION.FWPM_CONDITION_IP_REMOTE_ADDRESS) := by
  refine ⟨?_, ?_⟩
  · intro hf hle
    have hm := prefix2mask_value p hle
    have ha : ts2condition_address ts local_ = (true,
        { fieldKey := if local_ then FWPM_CONDITION.FWPM_CONDITION_IP_LOCAL_ADDRESS
                      else FWPM_CONDITION.FWPM_CONDITION_IP_REMOTE_ADDRESS,
          matchType := FWP_MATCH_TYPE.FWP_MATCH_EQUAL,
          conditionValue := FWP_CONDITION_VALUE0.FWP_V4_ADDR_MASK
            (untoh32 ts.get_from_address) (2 ^ 32 - 2 ^ (32 - p)) }) := by
      rw [← hm]
      simp [ts2condition_address, hnot, hsub, hf, hp, condition_zero]
    rw [ts2condition_of_address ts local_ conds _ ha]
    exact ⟨hm, rfl, _, rfl, ts2condition_tail_no_address ts local_⟩
  · intro hf
    have ha : ts2condition_address ts local_ = (true,
        { fieldKey := if local_ then FWPM_CONDITION.FWPM_CONDITION_IP_LOCAL_ADDRESS
                      else FWPM_CONDITION.FWPM_CONDITION_IP_REMOTE_ADDRESS,
          matchType := FWP_MATCH_TYPE.FWP_MATCH_EQUAL,
          conditionValue := FWP_CONDITION_VALUE0.FWP_V6_ADDR_MASK
            (ts.get_from_address.take 16) p }) := by
      simp [ts2condition_address, hnot, hsub, hf, hp, condition_zero]
    rw [ts2condition_of_address ts local_ conds _ ha]
    exact ⟨rfl, _, rfl, ts2condition_tail_no_address ts local_⟩

/-- C14: for every IPv4 or IPv6 selector that is neither a single host nor one
subnet, `ts2condition` succeeds and appends exactly one address condition, a range
condition whose low bound is the from address and whose high bound is the to
address (IPv4: 32-bit values in network order, IPv6: 16-byte arrays). -/
theorem ts2condition_range (ts : traffic_selector_t) (local_ : Bool)
    (conds : List FWPM_FILTER_CONDITION0)
    (hnot : ts.is_host = false) (hsub : ts.to_subnet = false) :
    (ts.get_type = ts_type_t.TS_IPV4_ADDR_RANGE →
      (ts2condition ts local_ conds).1 = true ∧
      ∃ rest, (ts2condition ts local_ conds).2 = conds ++
          { fieldKey := if local_ then FWPM_CONDITION.FWPM_CONDITION_IP_LOCAL_ADDRESS
                        else FWPM_CONDITION.FWPM_CONDITION_IP_REMOTE_ADDRESS,
            matchType := FWP_MATCH_TYPE.FWP_MATCH_RANGE,
            conditionValue := FWP_CONDITION_VALUE0.FWP_RANGE_TYPE
              (FWP_VALUE0.FWP_UINT32 (untoh32 ts.get_from_address))
              (FWP_VALUE0.FWP_UINT32 (untoh32 ts.get_to_address)) } :: rest ∧
        ∀ c ∈ rest, c.fieldKey ≠ FWPM_CONDITION.FWPM_CONDITION_IP_LOCAL_ADDRESS ∧
          c.fieldKey ≠ FWPM_CONDITION.FWPM_CONDITION_IP_REMOTE_ADDRESS) ∧
    (ts.get_type = ts_type_t.TS_IPV6_ADDR_RANGE →
      (ts2condition ts local_ conds).1 = true ∧
      ∃ rest, (ts2condition ts local_ conds).2 = conds ++
          { fieldKey := if local_ then FWPM_CONDITION.FWPM_CONDITION_IP_LOCAL_ADDRESS
                        else FWPM_CONDITION.FWPM_CONDITION_IP_REMOTE_ADDRESS,
            matchType := FWP_MATCH_TYPE.FWP_MATCH_RANGE,
            conditionValue := FWP_CONDITION_VALUE0.FWP_RANGE_TYPE
              (FWP_VALUE0.FWP_BYTE_ARRAY16_TYPE (ts.get_from_address.take 16))
              (FWP_VALUE0.FWP_BYTE_ARRAY16_TYPE (ts.get_to_address.take 16)) } :: rest ∧
        ∀ c ∈ rest, c.fieldKey ≠ FWPM_CONDITION.FWPM_CONDITION_IP_LOCAL_ADDRESS ∧
          c.fieldKey ≠ FWPM_CONDITION.FWPM_CONDITION_IP_REMOTE_ADDRESS) := by
  refine ⟨?_, ?_⟩
  · intro ht
    have ha : ts2condition_address ts local_ = (true,
        { fieldKey := if local_ then FWPM_CONDITION.FWPM_CONDITION_IP_LOCAL_ADDRESS
                      else FWPM_CONDITION.FWPM_CONDITION_IP_REMOTE_ADDRESS,
          matchType := FWP_MATCH_TYPE.FWP_MATCH_RANGE,
          conditionValue := FWP_CONDITION_VALUE0.FWP_RANGE_TYPE
            (FWP_VALUE0.FWP_UINT32 (untoh32 ts.get_from_address))
            (FWP_VALUE0.FWP_UINT32 (untoh32 ts.get_to_address)) }) := by
      simp [ts2condition_address, hnot, hsub, ht, condition_zero]
    rw [ts2condition_of_address ts local_ conds _ ha]
    exact ⟨rfl, _, rfl, ts2condition_tail_no_address ts local_⟩
  · intro ht
    have ha : ts2condition_address ts local_ = (true,
        { fieldKey := if local_ then FWPM_CONDITION.FWPM_CONDITION_IP_LOCAL_ADDRESS
                      else FWPM_CONDITION.FWPM_CONDITION_IP_REMOTE_ADDRESS,
          matchType := FWP_MATCH_TYPE.FWP_MATCH_RANGE,
          conditionValue := FWP_CONDITION_VALUE0.FWP_RANGE_TYPE
            (FWP_VALUE0.FWP_BYTE_ARRAY16_TYPE (ts.get_from_address.take 16))
            (FWP_VALUE0.FWP_BYTE_ARRAY16_TYPE (ts.get_to_address.take 16)) }) := by
      simp [ts2condition_address, hnot, hsub, ht, condition_zero]
    rw [ts2condition_of_address ts local_ conds _ ha]
    exact ⟨rfl, _, rfl, ts2condition_tail_no_address ts local_⟩

theorem ts2condition_ports_no_protocol (ts : traffic_selector_t) (local_ : Bool) :
    ∀ c ∈ ts2condition_ports ts local_,
      c.fieldKey ≠ FWPM_CONDITION.FWPM_CONDITION_IP_PROTOCOL := by
  intro c hc
  rcases ts2condition_ports_field ts local_ c hc with h | h | h | h <;> rw [h] <;> decide

/-- C15: whenever `ts2condition` succeeds, what it appends is the address condition,
directly followed by one protocol condition (equality on the 8-bit protocol
number) if and only if the role is local and the protocol of the selector is
non-zero, followed by conditions none of which is on the protocol field; so for
the remote role there is no protocol condition. -/
theorem ts2condition_protocol_condition (ts : traffic_selector_t) (local_ : Bool)
    (conds : List FWPM_FILTER_CONDITION0) (hok : (ts2condition ts local_ conds).1 = true) :
    ∃ addr rest,
      (addr.fieldKey = FWPM_CONDITION.FWPM_CONDITION_IP_LOCAL_ADDRESS ∨
        addr.fieldKey = FWPM_CONDITION.FWPM_CONDITION_IP_REMOTE_ADDRESS) ∧
      (ts2condition ts local_ conds).2 = conds ++ addr ::
        ((if local_ = true ∧ ts.get_protocol ≠ 0 then
            [ { fieldKey := FWPM_CONDITION.FWPM_CONDITION_IP_PROTOCOL,
                matchType := FWP_MATCH_TYPE.FWP_MATCH_EQUAL,
                conditionValue := FWP_CONDITION_VALUE0.FWP_UINT8 ts.get_protocol } ]
          else []) ++ rest) ∧
      ∀ c ∈ rest, c.fieldKey ≠ FWPM_CONDITION.FWPM_CONDITION_IP_PROTOCOL := by
  obtain ⟨_, h2⟩ := ts2condition_ok ts local_ conds hok
  refine ⟨(ts2condition_address ts local_).2, ts2condition_ports ts local_, ?_, ?_,
    ts2condition_ports_no_protocol ts local_⟩
  · rw [ts2condition_address_field]
    cases local_ <;> simp
  · rw [h2]
    unfold ts2condition_protocol
    by_cases h : local_ = true ∧ ts.get_protocol ≠ 0
    · simp [h.1, h.2]
    · have h3 : ¬ (ts.get_protocol ≠ 0 ∧ local_ = true) := fun hx => h ⟨hx.2, hx.1⟩
      simp only [h, h3, if_false]


/-- C16: for every selector whose protocol is ICMP, with type = high byte and code =
low byte of the from and to port: for the local role a successful `ts2condition`
appends, after the address and the protocol condition, an ICMP type condition over
from_type..to_type if and only if (from_type, to_type) is not (0, 255), then an
ICMP code condition over from_code..to_code if and only if (from_code, to_code)
is not (0, 255), each independently of the other; for the remote role it appends
the address condition and nothing else. -/
theorem ts2condition_icmp (ts : traffic_selector_t) (conds : List FWPM_FILTER_CONDITION0)
    (hproto : ts.get_protocol = IPPROTO_ICMP) :
    ((ts2condition ts true conds).1 = true →
      ∃ addr, addr.fieldKey = FWPM_CONDITION.FWPM_CONDITION_IP_LOCAL_ADDRESS ∧
        (ts2condition ts true conds).2 = conds ++
          [ addr,
            { fieldKey := FWPM_CONDITION.FWPM_CONDITION_IP_PROTOCOL,
              matchType := FWP_MATCH_TYPE.FWP_MATCH_EQUAL,
              conditionValue := FWP_CONDITION_VALUE0.FWP_UINT8 IPPROTO_ICMP } ] ++
          (if ¬ (ts.get_from_port / 256 % 256 = 0 ∧ ts.get_to_port / 256 % 256 = 255) then
            [ range_condition FWPM_CONDITION.FWPM_CONDITION_ICMP_TYPE
                (ts.get_from_port / 256 % 256) (ts.get_to_port / 256 % 256) ]
           else []) ++
          (if ¬ (ts.get_from_port % 256 = 0 ∧ ts.get_to_port % 256 = 255) then
            [ range_condition FWPM_CONDITION.FWPM_CONDITION_ICMP_CODE
                (ts.get_from_port % 256) (ts.get_to_port % 256) ]
           else [])) ∧
    ((ts2condition ts false conds).1 = true →
      ∃ addr, addr.fieldKey = FWPM_CONDITION.FWPM_CONDITION_IP_REMOTE_ADDRESS ∧
        (ts2condition ts false conds).2 = conds ++ [addr]) := by
  refine ⟨?_, ?_⟩
  · intro hok
    obtain ⟨_, h2⟩ := ts2condition_ok ts true conds hok
    refine ⟨(ts2condition_address ts true).2, ?_, ?_⟩
    · rw [ts2condition_address_field]; rfl
    · rw [h2]
      have hp : ts2condition_protocol ts true =
          [ { fieldKey := FWPM_CONDITION.FWPM_CONDITION_IP_PROTOCOL,
              matchType := FWP_MATCH_TYPE.FWP_MATCH_EQUAL,
              conditionValue := FWP_CONDITION_VALUE0.FWP_UINT8 IPPROTO_ICMP } ] := by
        simp [ts2condition_protocol, hproto]
      have hq : ts2condition_ports ts true =
          (if ¬ (ts.get_from_port / 256 % 256 = 0 ∧ ts.get_to_port / 256 % 256 = 255) then
            [ range_condition FWPM_CONDITION.FWPM_CONDITION_ICMP_TYPE
                (ts.get_from_port / 256 % 256) (ts.get_to_port / 256 % 256) ]
           else []) ++
          (if ¬ (ts.get_from_port % 256 = 0 ∧ ts.get_to_port % 256 = 255) then
            [ range_condition FWPM_CONDITION.FWPM_CONDITION_ICMP_CODE
                (ts.get_from_port % 256) (ts.get_to_port % 256) ]
           else []) := by
        simp only [ts2condition_ports, hproto, if_true, range2cond_eq, condition_zero,
          traffic_selector_icmp_type, traffic_selector_icmp_code, not_and_or, ne_eq]
      rw [hp, hq]
      simp
  · intro hok
    obtain ⟨_, h2⟩ := ts2condition_ok ts false conds hok
    refine ⟨(ts2condition_address ts false).2, ?_, ?_⟩
    · rw [ts2condition_address_field]; rfl
    · rw [h2]
      simp [ts2condition_protocol, ts2condition_ports, hproto]

/-- C17: for every selector whose protocol is not ICMP and for both roles, a
successful `ts2condition` appends, after the address condition and the protocol
conditions, exactly one port condition (local port field for the local role,
remote port field for the remote role) if and only if (from_port, to_port) is not
(0, 65535), and none otherwise; and `range2cond` builds an equality condition on
the value when from = to and otherwise a range condition with low = from and
high = to. -/
theorem ts2condition_port (ts : traffic_selector_t) (local_ : Bool)
    (conds : List FWPM_FILTER_CONDITION0) (hproto : ts.get_protocol ≠ IPPROTO_ICMP)
    (hok : (ts2condition ts local_ conds).1 = true) :
    (∃ addr pre,
      (addr.fieldKey = FWPM_CONDITION.FWPM_CONDITION_IP_LOCAL_ADDRESS ∨
        addr.fieldKey = FWPM_CONDITION.FWPM_CONDITION_IP_REMOTE_ADDRESS) ∧
      (∀ c ∈ pre, c.fieldKey = FWPM_CONDITION.FWPM_CONDITION_IP_PROTOCOL) ∧
      (ts2condition ts local_ conds).2 = conds ++ addr :: pre ++
        (if ¬ (ts.get_from_port = 0 ∧ ts.get_to_port = 65535) then
          [ range_condition
              (if local_ then FWPM_CONDITION.FWPM_CONDITION_IP_LOCAL_PORT
               else FWPM_CONDITION.FWPM_CONDITION_IP_REMOTE_PORT)
              ts.get_from_port ts.get_to_port ]
         else [])) ∧
    (∀ (cond : FWPM_FILTER_CONDITION0) (from_ to_ : Nat),
      (from_ = to_ → range2cond cond from_ to_ =
        { cond with matchType := FWP_MATCH_TYPE.FWP_MATCH_EQUAL,
                    conditionValue := FWP_CONDITION_VALUE0.FWP_UINT16 from_ }) ∧
      (from_ ≠ to_ → range2cond cond from_ to_ =
        { cond with matchType := FWP_MATCH_TYPE.FWP_MATCH_RANGE,
                    conditionValue := FWP_CONDITION_VALUE0.FWP_RANGE_TYPE
                      (FWP_VALUE0.FWP_UINT16 from_) (FWP_VALUE0.FWP_UINT16 to_) })) := by
  refine ⟨?_, ?_⟩
  · obtain ⟨_, h2⟩ := ts2condition_ok ts local_ conds hok
    refine ⟨(ts2condition_address ts local_).2, ts2condition_protocol ts local_, ?_,
      ts2condition_protocol_field ts local_, ?_⟩
    · rw [ts2condition_address_field]
      cases local_ <;> simp
    · rw [h2]
      have hq : ts2condition_ports ts local_ =
          (if ¬ (ts.get_from_port = 0 ∧ ts.get_to_port = 65535) then
            [ range_condition
                (if local_ then FWPM_CONDITION.FWPM_CONDITION_IP_LOCAL_PORT
                 else FWPM_CONDITION.FWPM_CONDITION_IP_REMOTE_PORT)
                ts.get_from_port ts.get_to_port ]
           else []) := by
        simp only [ts2condition_ports, hproto, if_false, range2cond_eq, condition_zero,
          not_and_or, ne_eq]
      rw [hq]
      simp
  · intro cond from_ to_
    refine ⟨?_, ?_⟩
    · intro h
      simp [range2cond, h]
    · intro h
      simp [range2cond, h]


/-- Witness of C12: the IPv4 host selector of 10.0.0.1 in the local role. -/
theorem ts2condition_single_host_witness :
    is_host_of_equal_bounds (sample_ts host_a) ∧
    (ts2condition (sample_ts host_a) true []).1 = true :=
  ⟨fun _ => rfl,
   ((ts2condition_single_host (sample_ts host_a) true [] (fun _ => rfl) rfl).1 rfl).1⟩

/-- Witness of C13: the IPv4 selector 10.1.0.0/20; its mask is 255.255.240.0. -/
theorem ts2condition_subnet_witness :
    prefix2mask 20 = 2 ^ 32 - 2 ^ (32 - 20) ∧
    (ts2condition sample_ts_subnet true []).1 = true :=
  ⟨((ts2condition_subnet sample_ts_subnet true [] 20 rfl rfl rfl).1 rfl (by decide)).1,
   ((ts2condition_subnet sample_ts_subnet true [] 20 rfl rfl rfl).1 rfl (by decide)).2.1⟩

/-- Witness of C14: the IPv4 selector 10.0.0.1 to 10.0.0.5 in the remote role. -/
theorem ts2condition_range_witness :
    (ts2condition sample_ts_range false []).1 = true :=
  ((ts2condition_range sample_ts_range false [] rfl rfl).1 rfl).1

/-- Witness of C15: the selector 10.1.0.0/20 with protocol 6 in the local role. -/
theorem ts2condition_protocol_condition_witness :
    ∃ addr rest,
      (addr.fieldKey = FWPM_CONDITION.FWPM_CONDITION_IP_LOCAL_ADDRESS ∨
        addr.fieldKey = FWPM_CONDITION.FWPM_CONDITION_IP_REMOTE_ADDRESS) ∧
      (ts2condition sample_ts_subnet true []).2 = [] ++ addr ::
        ((if true = true ∧ sample_ts_subnet.get_protocol ≠ 0 then
            [ { fieldKey := FWPM_CONDITION.FWPM_CONDITION_IP_PROTOCOL,
                matchType := FWP_MATCH_TYPE.FWP_MATCH_EQUAL,
                conditionValue :=
                  FWP_CONDITION_VALUE0.FWP_UINT8 sample_ts_subnet.get_protocol } ]
          else []) ++ rest) ∧
      ∀ c ∈ rest, c.fieldKey ≠ FWPM_CONDITION.FWPM_CONDITION_IP_PROTOCOL :=
  ts2condition_protocol_condition sample_ts_subnet true [] rfl

/-- Witness of C16: an ICMP selector in the remote role. -/
theorem ts2condition_icmp_witness :
    ∃ addr, addr.fieldKey = FWPM_CONDITION.FWPM_CONDITION_IP_REMOTE_ADDRESS ∧
      (ts2condition sample_ts_icmp false []).2 = [] ++ [addr] :=
  (ts2condition_icmp sample_ts_icmp [] rfl).2 rfl

/-- Witness of C17: the selector 10.1.0.0/20 with protocol 6 and ports 80 to 443. -/
theorem ts2condition_port_witness :
    range2cond condition_zero 80 443 =
      { condition_zero with
          matchType := FWP_MATCH_TYPE.FWP_MATCH_RANGE,
          conditionValue := FWP_CONDITION_VALUE0.FWP_RANGE_TYPE
            (FWP_VALUE0.FWP_UINT16 80) (FWP_VALUE0.FWP_UINT16 443) } :=
  ((ts2condition_port sample_ts_subnet true [] (by decide) rfl).2 condition_zero 80 443).2
    (by decide)

/-! ## Policies of an entry (C18, C19, C20) -/

theorem heap_forall_update (P : entry_t → Prop) (heap : Nat → entry_t) (entry : Nat)
    (e : entry_t) (hall : ∀ id, P (heap id)) (he : P e) :
    ∀ id, P (Function.update heap entry e id) := by
  intro id
  by_cases hid : id = entry
  · subst hid
    simpa using he
  · simpa [Function.update_noteq hid] using hall id

theorem entry_destroy_heap_forall (P : entry_t → Prop)
    (hclean : ∀ e, P e → P { e with policy_in := 0, policy_out := 0 })
    (this : private_kernel_wfp_ipsec_t) (entry : Nat) (hall : ∀ id, P (this.heap id)) :
    ∀ id, P ((entry_destroy this entry).heap id) := by
  rw [entry_destroy_heap]
  exact heap_forall_update P _ _ _ hall (hclean _ (hall entry))

theorem step_heap_forall (P : entry_t → Prop)
    (hnew : ∀ (reqid : Nat) (isa : sa_entry_t) (lo re : host_t) (mode : ipsec_mode_t)
      (encap : Bool),
      P { entry_zero with
          reqid := reqid, isa := isa, sps := [], local_ := lo, remote := re, mode := mode,
          encap := encap })
    (hosa : ∀ e osa, P e → P { e with osa := osa })
    (hclean : ∀ e, P e → P { e with policy_in := 0, policy_out := 0 })
    (hinst : ∀ h e sp, P e → e.sps.length = 0 →
      P (install h { e with sps := e.sps ++ [sp] }).2.2)
    (this : private_kernel_wfp_ipsec_t) (c : call_t) (hall : ∀ id, P (this.heap id)) :
    ∀ id, P ((step this c).heap id) := by
  cases c with
  | add_sa src dst spi protocol reqid lifetime enc_alg enc_key int_alg int_key mode encap
      inbound =>
    cases inbound
    · simp only [step, add_sa, Bool.false_eq_true, if_false, hashtable_remove]
      cases hashtable_get this.tsas reqid with
      | none => simpa using hall
      | some entry =>
        simp only []
        exact heap_forall_update P _ _ _ hall (hosa _ _ (hall entry))
    · simp only [step, add_sa, if_true, schedule_expire]
      have key : ∀ (e : entry_t), P e →
          ∀ id, P (Function.update this.heap this.brk e id) :=
        fun e he => heap_forall_update P _ _ _ hall he
      split_ifs <;> exact key _ (hnew _ _ _ _ _ _)
  | del_sa dst spi =>
    simp only [step, del_sa, hashtable_remove]
    cases hashtable_get this.isas { spi := spi, dst := dst } with
    | some e => simpa using hall
    | none =>
      simp only []
      cases hashtable_get this.osas { spi := spi, dst := dst } with
      | some e => exact entry_destroy_heap_forall P hclean _ e hall
      | none => simpa using hall
  | add_policy dst src_ts dst_ts direction sa priority =>
    simp only [step]
    unfold add_policy
    simp only []
    generalize ({ spi := if sa.esp_use = true then sa.esp_spi else sa.ah_spi, dst := dst } :
      sa_key_t) = key
    by_cases hb : sa.esp_use = true ∧ sa.ah_use = true
    · simpa only [hb, and_self, if_true] using hall
    · simp only [hb, if_false]
      cases direction <;> simp only []
      · exact hall
      · cases priority <;> simp only []
        · cases hashtable_get this.osas key with
          | none => exact hall
          | some e =>
            simp only []
            by_cases hl : (this.heap e).sps.length = 0
            · simp only [hl, if_true]
              exact heap_forall_update P _ _ _ hall (hinst _ _ _ (hall e) hl)
            · simpa only [hl, if_false] using hall
        · exact hall
        · exact hall
      · exact hall
  | expire_job data =>
    simp only [step]
    unfold expire_job
    cases data.hard
    · simp only [Bool.false_eq_true, if_false]
      cases hashtable_get this.isas { spi := data.spi, dst := data.dst } with
      | none => simpa using hall
      | some e =>
        simp only []
        split_ifs <;> simpa using hall
    · simp only [if_true, hashtable_remove]
      cases hashtable_get this.isas { spi := data.spi, dst := data.dst } with
      | none => simpa using hall
      | some e =>
        simp only []
        cases (this.heap e).osa.dst with
        | none =>
          simp only []
          split_ifs
          · exact entry_destroy_heap_forall P hclean _ e hall
          · exact entry_destroy_heap_forall P hclean _ e hall
        | some d =>
          simp only []
          split_ifs
          · exact entry_destroy_heap_forall P hclean _ e hall
          · exact entry_destroy_heap_forall P hclean _ e hall
  | get_features => exact hall
  | get_spi => exact hall
  | get_cpi => exact hall
  | update_sa => exact hall
  | query_sa => exact hall
  | flush_sas => exact hall
  | query_policy => exact hall
  | del_policy => exact hall
  | flush_policies => exact hall
  | bypass_socket => exact hall
  | enable_udp_decap => exact hall

theorem reachable_heap_forall (P : entry_t → Prop)
    (hnew : ∀ (reqid : Nat) (isa : sa_entry_t) (lo re : host_t) (mode : ipsec_mode_t)
      (encap : Bool),
      P { entry_zero with
          reqid := reqid, isa := isa, sps := [], local_ := lo, remote := re, mode := mode,
          encap := encap })
    (hosa : ∀ e osa, P e → P { e with osa := osa })
    (hclean : ∀ e, P e → P { e with policy_in := 0, policy_out := 0 })
    (hinst : ∀ h e sp, P e → e.sps.length = 0 →
      P (install h { e with sps := e.sps ++ [sp] }).2.2)
    (hzero : P entry_zero)
    (s : private_kernel_wfp_ipsec_t) (hr : Reachable s) : ∀ id, P (s.heap id) := by
  obtain ⟨replies, rng, s0, calls, hc, rfl⟩ := hr
  have h0 : ∀ id, P (s0.heap id) := by
    intro id
    unfold kernel_wfp_ipsec_create at hc
    simp only [] at hc
    split_ifs at hc
    simp only [Option.some.injEq] at hc
    subst hc
    exact hzero
  clear hc
  induction calls generalizing s0 with
  | nil => exact h0
  | cons c cs ih =>
    exact ih (step s0 c) (step_heap_forall P hnew hosa hclean hinst s0 c h0)

theorem reachable_sps_length (s : private_kernel_wfp_ipsec_t) (hr : Reachable s) :
    ∀ id, (s.heap id).sps.length ≤ 1 := by
  apply reachable_heap_forall (fun e => e.sps.length ≤ 1) _ _ _ _ _ s hr
  · intro _ _ _ _ _ _; simp
  · intro e osa h; exact h
  · intro e h; exact h
  · intro h e sp _ hl
    show (install h { e with sps := e.sps ++ [sp] }).2.2.sps.length ≤ 1
    rw [(install_frame _ _).1]
    simp [hl]
  · simp [entry_zero]


/-- C18, amended: for every `add_policy` call with direction POLICY_OUT and default
priority, with an SA configuration that does not use both ESP and AH, whose key
(SPI of the SA configuration, dst) is not bound in the outbound index `osas`:
`add_policy` returns FAILED, makes no engine call and leaves the backend as it
was. -/
theorem add_policy_no_entry (this : private_kernel_wfp_ipsec_t) (dst : host_t)
    (src_ts dst_ts : traffic_selector_t) (sa : ipsec_sa_cfg_t)
    (hboth : ¬ (sa.esp_use = true ∧ sa.ah_use = true))
    (hnone : hashtable_get this.osas
      { spi := if sa.esp_use then sa.esp_spi else sa.ah_spi, dst := dst } = none) :
    (add_policy this dst src_ts dst_ts policy_dir_t.POLICY_OUT sa
      policy_priority_t.POLICY_PRIORITY_DEFAULT).1 = status_t.FAILED ∧
    (add_policy this dst src_ts dst_ts policy_dir_t.POLICY_OUT sa
      policy_priority_t.POLICY_PRIORITY_DEFAULT).2.handle.trace = this.handle.trace ∧
    (add_policy this dst src_ts dst_ts policy_dir_t.POLICY_OUT sa
      policy_priority_t.POLICY_PRIORITY_DEFAULT).2 = this := by
  unfold add_policy
  simp only [hboth, if_false, hnone, and_self]

/-- Witness of C18 (amended): a backend that holds no entry. -/
theorem add_policy_no_entry_witness :
    (add_policy (backend_new wfp_accept) host_b (sample_ts host_a) (sample_ts host_b)
      policy_dir_t.POLICY_OUT sample_sa_cfg policy_priority_t.POLICY_PRIORITY_DEFAULT).1 =
      status_t.FAILED :=
  (add_policy_no_entry (backend_new wfp_accept) host_b (sample_ts host_a) (sample_ts host_b)
    sample_sa_cfg (by decide) (by decide)).1

/-- Counterexample to C18 as stated: on a backend that holds no entry,
`add_policy(POLICY_OUT, default priority)` for the key (2, 10.0.0.2) returns FAILED,
not NOT_FOUND; with an SA configuration that uses both ESP and AH it returns
NOT_SUPPORTED. -/
theorem add_policy_no_entry_not_found :
    hashtable_get (backend_new wfp_accept).osas { spi := 2, dst := host_b } = none ∧
    (add_policy (backend_new wfp_accept) host_b (sample_ts host_a) (sample_ts host_b)
      policy_dir_t.POLICY_OUT sample_sa_cfg policy_priority_t.POLICY_PRIORITY_DEFAULT).1 =
      status_t.FAILED ∧
    (add_policy (backend_new wfp_accept) host_b (sample_ts host_a) (sample_ts host_b)
      policy_dir_t.POLICY_OUT sample_sa_cfg policy_priority_t.POLICY_PRIORITY_DEFAULT).1 ≠
      status_t.NOT_FOUND ∧
    (add_policy (backend_new wfp_accept) host_b (sample_ts host_a) (sample_ts host_b)
      policy_dir_t.POLICY_OUT sample_sa_cfg_both
      policy_priority_t.POLICY_PRIORITY_DEFAULT).1 = status_t.NOT_SUPPORTED := by
  refine ⟨?_, ?_, ?_, ?_⟩ <;> decide

/-- C19: in every state reachable by a sequence of calls of the interface and of
expire jobs, the policy list of every entry holds at most one policy; and
`add_policy(POLICY_OUT, default priority)` that finds an entry holding one policy,
whatever its handles, returns NOT_SUPPORTED, makes no engine call and leaves the
backend, the policy list and the handles included, as it was. -/
theorem policy_list_at_most_one (s : private_kernel_wfp_ipsec_t) (hr : Reachable s) :
    (∀ entry, (s.heap entry).sps.length ≤ 1) ∧
    (∀ (dst : host_t) (src_ts dst_ts : traffic_selector_t) (sa : ipsec_sa_cfg_t)
      (entry : Nat),
      hashtable_get s.osas
        { spi := if sa.esp_use then sa.esp_spi else sa.ah_spi, dst := dst } = some entry →
      (s.heap entry).sps.length = 1 →
      (add_policy s dst src_ts dst_ts policy_dir_t.POLICY_OUT sa
        policy_priority_t.POLICY_PRIORITY_DEFAULT).1 = status_t.NOT_SUPPORTED ∧
      (add_policy s dst src_ts dst_ts policy_dir_t.POLICY_OUT sa
        policy_priority_t.POLICY_PRIORITY_DEFAULT).2.handle.trace = s.handle.trace ∧
      (add_policy s dst src_ts dst_ts policy_dir_t.POLICY_OUT sa
        policy_priority_t.POLICY_PRIORITY_DEFAULT).2 = s) := by
  refine ⟨reachable_sps_length s hr, ?_⟩
  intro dst src_ts dst_ts sa entry hfound hone
  unfold add_policy
  by_cases hb : sa.esp_use = true ∧ sa.ah_use = true
  · simp only [hb, and_self, if_true]
  · simp only [hb, if_false, hfound, hone, one_ne_zero, and_self]

/-- Witness of C19: the complete entry 0 after an `add_policy` whose installation
failed at the assignment of the SPI; a second `add_policy` is rejected. -/
theorem policy_list_at_most_one_witness :
    ((backend_policy (wfp_accept_first 5)).heap 0).sps.length ≤ 1 ∧
    (add_policy (backend_policy (wfp_accept_first 5)) host_b (sample_ts host_c)
      (sample_ts host_b) policy_dir_t.POLICY_OUT sample_sa_cfg
      policy_priority_t.POLICY_PRIORITY_DEFAULT).1 = status_t.NOT_SUPPORTED :=
  ⟨(policy_list_at_most_one (backend_policy (wfp_accept_first 5))
      ⟨wfp_accept_first 5, rng_fixed, backend_new (wfp_accept_first 5),
        [ sample_add_sa true 1 1 host_b host_a AUTH_HMAC_SHA1_96,
          sample_add_sa false 1 2 host_a host_b AUTH_HMAC_SHA1_96,
          call_t.add_policy host_b (sample_ts host_a) (sample_ts host_b)
            policy_dir_t.POLICY_OUT sample_sa_cfg policy_priority_t.POLICY_PRIORITY_DEFAULT ],
        backend_new_created _ rfl rfl, rfl⟩).1 0,
   ((policy_list_at_most_one (backend_policy (wfp_accept_first 5))
      ⟨wfp_accept_first 5, rng_fixed, backend_new (wfp_accept_first 5),
        [ sample_add_sa true 1 1 host_b host_a AUTH_HMAC_SHA1_96,
          sample_add_sa false 1 2 host_a host_b AUTH_HMAC_SHA1_96,
          call_t.add_policy host_b (sample_ts host_a) (sample_ts host_b)
            policy_dir_t.POLICY_OUT sample_sa_cfg policy_priority_t.POLICY_PRIORITY_DEFAULT ],
        backend_new_created _ rfl rfl, rfl⟩).2 host_b (sample_ts host_c) (sample_ts host_b)
      sample_sa_cfg 0 (by decide) (by decide)).1⟩

/-- C20, amended: for every `add_policy` call whose direction is POLICY_IN or
POLICY_FWD, whatever the selectors and the priority: it makes no engine call and
leaves the backend as it was; it returns SUCCESS when the SA configuration does
not use both ESP and AH, and NOT_SUPPORTED when it does. -/
theorem add_policy_in_fwd (this : private_kernel_wfp_ipsec_t) (dst : host_t)
    (src_ts dst_ts : traffic_selector_t) (direction : policy_dir_t) (sa : ipsec_sa_cfg_t)
    (priority : policy_priority_t)
    (hdir : direction = policy_dir_t.POLICY_IN ∨ direction = policy_dir_t.POLICY_FWD) :
    (¬ (sa.esp_use = true ∧ sa.ah_use = true) →
      (add_policy this dst src_ts dst_ts direction sa priority).1 = status_t.SUCCESS) ∧
    (sa.esp_use = true ∧ sa.ah_use = true →
      (add_policy this dst src_ts dst_ts direction sa priority).1 =
        status_t.NOT_SUPPORTED) ∧
    (add_policy this dst src_ts dst_ts direction sa priority).2.handle.trace =
      this.handle.trace ∧
    (add_policy this dst src_ts dst_ts direction sa priority).2 = this := by
  unfold add_policy
  by_cases hb : sa.esp_use = true ∧ sa.ah_use = true
  · simp only [hb, and_self, if_true, not_true_eq_false, false_implies, true_implies]
  · rcases hdir with rfl | rfl <;>
      simp only [hb, if_false, not_false_eq_true, true_implies, false_implies, and_self]

/-- Witness of C20 (amended): a POLICY_IN call with an ESP-only configuration. -/
theorem add_policy_in_fwd_witness :
    (add_policy (backend_pair wfp_accept) host_a (sample_ts host_b) (sample_ts host_a)
      policy_dir_t.POLICY_IN sample_sa_cfg policy_priority_t.POLICY_PRIORITY_DEFAULT).1 =
      status_t.SUCCESS :=
  (add_policy_in_fwd (backend_pair wfp_accept) host_a (sample_ts host_b) (sample_ts host_a)
    policy_dir_t.POLICY_IN sample_sa_cfg policy_priority_t.POLICY_PRIORITY_DEFAULT
    (Or.inl rfl)).1 (by decide)

/-- Counterexample to C20 as stated: with an SA configuration that uses both ESP and
AH, `add_policy` returns NOT_SUPPORTED for POLICY_IN and for POLICY_FWD. -/
theorem add_policy_in_esp_and_ah :
    (add_policy (backend_pair wfp_accept) host_a (sample_ts host_b) (sample_ts host_a)
      policy_dir_t.POLICY_IN sample_sa_cfg_both
      policy_priority_t.POLICY_PRIORITY_DEFAULT).1 = status_t.NOT_SUPPORTED ∧
    (add_policy (backend_pair wfp_accept) host_a (sample_ts host_b) (sample_ts host_a)
      policy_dir_t.POLICY_FWD sample_sa_cfg_both
      policy_priority_t.POLICY_PRIORITY_FALLBACK).1 = status_t.NOT_SUPPORTED := by
  refine ⟨?_, ?_⟩ <;> decide

/-! ## Methods without an engine primitive (C21, C22) -/

theorem unsupported_call_step (this : private_kernel_wfp_ipsec_t) (c : call_t)
    (hc : unsupported_call c) :
    step this c = this ∧ status_of this c = some status_t.NOT_SUPPORTED := by
  rcases hc with h | h | h | h | h | h <;> subst h <;> exact ⟨rfl, rfl⟩

/-- C21: for every state of the backend, `query_sa`, `query_policy`, `update_sa`,
`flush_sas`, `flush_policies` and `get_cpi` return NOT_SUPPORTED and return the
state, database and engine session included, as it was; so does every sequence
of such calls, each of which returns NOT_SUPPORTED. -/
theorem unsupported_methods (this : private_kernel_wfp_ipsec_t) :
    query_sa this = (status_t.NOT_SUPPORTED, this) ∧
    query_policy this = (status_t.NOT_SUPPORTED, this) ∧
    update_sa this = (status_t.NOT_SUPPORTED, this) ∧
    flush_sas this = (status_t.NOT_SUPPORTED, this) ∧
    flush_policies this = (status_t.NOT_SUPPORTED, this) ∧
    get_cpi this = (status_t.NOT_SUPPORTED, this) ∧
    ∀ calls : List call_t, (∀ c ∈ calls, unsupported_call c) →
      run this calls = this ∧
      ∀ p ∈ run_log this calls, p.2 = some status_t.NOT_SUPPORTED := by
  refine ⟨rfl, rfl, rfl, rfl, rfl, rfl, ?_⟩
  intro calls
  induction calls with
  | nil => intro _; exact ⟨rfl, by simp [run_log]⟩
  | cons c cs ih =>
    intro hall
    have hc := unsupported_call_step this c (hall c (List.mem_cons_self _ _))
    have hcs := ih (fun d hd => hall d (List.mem_cons_of_mem _ hd))
    refine ⟨?_, ?_⟩
    · show run (step this c) cs = this
      rw [hc.1]; exact hcs.1
    · intro p hp
      simp only [run_log, List.mem_cons] at hp
      rcases hp with hp | hp
      · rw [hp]; exact hc.2
      · rw [hc.1] at hp; exact hcs.2 p hp

/-- C22: what the caller of `bypass_socket` and of `enable_udp_decap` observes, in
every state: the methods return the enumerator NOT_SUPPORTED, whose value 4 is
not zero, through the result type `bool`, so the caller sees TRUE, the success
value; the state is as it was. -/
theorem bypass_socket_observed (this : private_kernel_wfp_ipsec_t) :
    status_value status_t.NOT_SUPPORTED = 4 ∧
    (bypass_socket this).1 = true ∧ (bypass_socket this).2 = this ∧
    (enable_udp_decap this).1 = true ∧ (enable_udp_decap this).2 = this := by
  refine ⟨rfl, ?_, rfl, ?_, rfl⟩ <;> simp [bypass_socket, enable_udp_decap, status_value]

/-! ## Outbound SA, lifetimes and expiration (C23, C25, C26) -/

/-- C26: for every state and every expire job, hard or soft, whose key (spi, dst) is
not bound in the inbound index, the job returns the state as it was: the three
indexes, the log of destroyed entries, the requests sent to the engine and the
notifications delivered are unchanged. -/
theorem expire_job_absent (this : private_kernel_wfp_ipsec_t) (data : expire_data_t)
    (h : hashtable_get this.isas { spi := data.spi, dst := data.dst } = none) :
    expire_job this data = this ∧
    (expire_job this data).tsas = this.tsas ∧
    (expire_job this data).isas = this.isas ∧
    (expire_job this data).osas = this.osas ∧
    (expire_job this data).destroyed = this.destroyed ∧
    (expire_job this data).handle.trace = this.handle.trace ∧
    (expire_job this data).expired = this.expired := by
  rw [expire_job_not_found this data h]
  exact ⟨rfl, rfl, rfl, rfl, rfl, rfl, rfl⟩

/-- Witness of C26: the hard expire job of an inbound SA that `del_sa` has already
removed from the inbound index. -/
theorem expire_job_absent_witness :
    expire_job (backend_deleted_in wfp_accept) { spi := 1, dst := host_a, hard := true } =
      backend_deleted_in wfp_accept :=
  (expire_job_absent (backend_deleted_in wfp_accept) { spi := 1, dst := host_a, hard := true }
    (by decide)).1

/-! ## Policies that install nothing, modes that cannot be installed (C29, C30) -/

/-- C29: for every state and every `add_policy` call with direction POLICY_OUT whose
SA configuration does not use both ESP and AH: with routed priority it returns
NOT_SUPPORTED, with fallback priority it returns SUCCESS; in both cases the state
is returned as it was, so no entry is modified and no request is sent to the
engine. -/
theorem add_policy_out_priority (this : private_kernel_wfp_ipsec_t) (dst : host_t)
    (src_ts dst_ts : traffic_selector_t) (sa : ipsec_sa_cfg_t)
    (hboth : ¬ (sa.esp_use = true ∧ sa.ah_use = true)) :
    add_policy this dst src_ts dst_ts policy_dir_t.POLICY_OUT sa
      policy_priority_t.POLICY_PRIORITY_ROUTED = (status_t.NOT_SUPPORTED, this) ∧
    add_policy this dst src_ts dst_ts policy_dir_t.POLICY_OUT sa
      policy_priority_t.POLICY_PRIORITY_FALLBACK = (status_t.SUCCESS, this) := by
  constructor <;> simp only [add_policy, hboth, if_false]

/-- Witness of C29: a routed policy for the complete entry 0. -/
theorem add_policy_out_priority_witness :
    add_policy (backend_pair wfp_accept) host_b (sample_ts host_a) (sample_ts host_b)
      policy_dir_t.POLICY_OUT sample_sa_cfg policy_priority_t.POLICY_PRIORITY_ROUTED =
      (status_t.NOT_SUPPORTED, backend_pair wfp_accept) :=
  (add_policy_out_priority (backend_pair wfp_accept) host_b (sample_ts host_a)
    (sample_ts host_b) sample_sa_cfg (by decide)).1

/-- C30: for every entry whose mode is neither transport nor tunnel (BEET, or any
other value), `install` returns FALSE at once: no request is sent to the engine and
the entry, its three handles included, is as it was. -/
theorem install_other_mode (h : HANDLE) (e : entry_t)
    (hmode : e.mode ≠ ipsec_mode_t.MODE_TRANSPORT ∧ e.mode ≠ ipsec_mode_t.MODE_TUNNEL) :
    (install h e).1 = false ∧ (install h e).2.1.trace = h.trace ∧
    (install h e).2.2.policy_in = e.policy_in ∧
    (install h e).2.2.policy_out = e.policy_out ∧
    (install h e).2.2.sa_id = e.sa_id ∧ install h e = (false, h, e) := by
  have hi : install h e = (false, h, e) := by
    unfold install
    cases hm : e.mode
    · exact absurd hm hmode.1
    · exact absurd hm hmode.2
    all_goals rfl
  rw [hi]
  exact ⟨rfl, rfl, rfl, rfl, rfl, rfl⟩

/-- Witness of C30: an entry in BEET mode that holds the handles 3, 4 and 5. -/
theorem install_other_mode_witness :
    install (backend_new wfp_accept).handle sample_entry_beet =
      (false, (backend_new wfp_accept).handle, sample_entry_beet) :=
  (install_other_mode (backend_new wfp_accept).handle sample_entry_beet
    ⟨by decide, by decide⟩).2.2.2.2.2

/-! ## Allocation of SPIs (C24) -/

theorem entry_destroy_nextspi (this : private_kernel_wfp_ipsec_t) (entry : Nat) :
    (entry_destroy this entry).nextspi = this.nextspi := rfl

theorem step_nextspi (this : private_kernel_wfp_ipsec_t) (c : call_t)
    (hc : c ≠ call_t.get_spi) : (step this c).nextspi = this.nextspi := by
  cases c with
  | add_sa src dst spi protocol reqid lifetime enc_alg enc_key int_alg int_key mode encap
      inbound =>
    cases inbound
    · simp only [step, add_sa, Bool.false_eq_true, if_false, hashtable_remove]
      cases hashtable_get this.tsas reqid <;> rfl
    · simp only [step, add_sa, if_true, schedule_expire]
      split_ifs <;> rfl
  | del_sa dst spi =>
    simp only [step, del_sa, hashtable_remove]
    cases hashtable_get this.isas { spi := spi, dst := dst } with
    | some e => rfl
    | none =>
      simp only []
      cases hashtable_get this.osas { spi := spi, dst := dst } <;> rfl
  | add_policy dst src_ts dst_ts direction sa priority =>
    simp only [step]
    unfold add_policy
    simp only []
    generalize ({ spi := if sa.esp_use = true then sa.esp_spi else sa.ah_spi, dst := dst } :
      sa_key_t) = key
    by_cases hb : sa.esp_use = true ∧ sa.ah_use = true
    · simp only [hb, and_self, if_true]
    · simp only [hb, if_false]
      cases direction <;> simp only []
      cases priority <;> simp only []
      cases hashtable_get this.osas key with
      | none => rfl
      | some e =>
        simp only []
        split_ifs <;> rfl
  | expire_job data =>
    simp only [step]
    unfold expire_job
    cases data.hard
    · simp only [Bool.false_eq_true, if_false]
      cases hashtable_get this.isas { spi := data.spi, dst := data.dst } with
      | none => rfl
      | some e =>
        simp only []
        split_ifs <;> rfl
    · simp only [if_true, hashtable_remove]
      cases hashtable_get this.isas { spi := data.spi, dst := data.dst } with
      | none => rfl
      | some e =>
        simp only []
        cases (this.heap e).osa.dst <;> simp only [] <;> split_ifs <;> rfl
  | get_spi => exact absurd rfl hc
  | get_features => rfl
  | get_cpi => rfl
  | update_sa => rfl
  | query_sa => rfl
  | flush_sas => rfl
  | query_policy => rfl
  | del_policy => rfl
  | flush_policies => rfl
  | bypass_socket => rfl
  | enable_udp_decap => rfl

theorem spi_of_other (this : private_kernel_wfp_ipsec_t) (c : call_t)
    (hc : c ≠ call_t.get_spi) : spi_of this c = [] := by
  cases c <;> first | rfl | exact absurd rfl hc

theorem spi_log_eq (calls : List call_t) :
    ∀ s : private_kernel_wfp_ipsec_t,
      spi_log s calls =
        (List.range (calls.count call_t.get_spi)).map
          (fun n => (s.nextspi + (n + 1)) % 2 ^ 32) := by
  induction calls with
  | nil => intro s; rfl
  | cons c cs ih =>
    intro s
    by_cases hc : c = call_t.get_spi
    · subst hc
      have hn : (step s call_t.get_spi).nextspi = (s.nextspi + 1) % 2 ^ 32 := rfl
      simp only [spi_log, spi_of, get_spi, ih, hn, List.count_cons_self,
        List.range_succ_eq_map, List.map_cons, List.map_map, List.singleton_append]
      refine congrArg₂ _ (by simp) (List.map_congr_left ?_)
      intro n _
      simp only [Function.comp, Nat.succ_eq_add_one]
      omega
    · rw [spi_log, spi_of_other s c hc, ih, step_nextspi s c hc, List.count_cons_of_ne (Ne.symm hc)]
      rfl

/-- C24: every `get_spi` call returns SUCCESS; on a backend right after its creation,
whose counter is `htonl(0xc0000001)` (the byte swap of the little-endian hosts,
0x010000c0), the values the `get_spi` calls of any sequence of calls return are,
in order, (c0 + 1) mod 2^32, (c0 + 2) mod 2^32, ...; as long as the counter has not
wrapped, each returned value is above 255 and greater than every value returned
before. -/
theorem get_spi_consecutive (replies : Nat → wfp_reply) (rng : Nat → Option Nat)
    (s0 : private_kernel_wfp_ipsec_t)
    (hc : kernel_wfp_ipsec_create replies rng = some s0) (calls : List call_t) :
    (∀ s : private_kernel_wfp_ipsec_t, (get_spi s).1 = status_t.SUCCESS) ∧
    ntohl 0xc0000001 = 0x010000c0 ∧
    s0.nextspi = ntohl 0xc0000001 ∧
    spi_log s0 calls =
      (List.range (calls.count call_t.get_spi)).map
        (fun n => (ntohl 0xc0000001 + (n + 1)) % 2 ^ 32) ∧
    ∀ j, j < calls.count call_t.get_spi → ntohl 0xc0000001 + (j + 1) < 2 ^ 32 →
      255 < (spi_log s0 calls).getD j 0 ∧
      ∀ i, i < j → (spi_log s0 calls).getD i 0 < (spi_log s0 calls).getD j 0 := by
  have hn : s0.nextspi = ntohl 0xc0000001 := by
    unfold kernel_wfp_ipsec_create at hc
    simp only [] at hc
    split_ifs at hc
    simp only [Option.some.injEq] at hc
    subst hc
    rfl
  have hv : ntohl 0xc0000001 = 0x010000c0 := by decide
  have hl := spi_log_eq calls s0
  rw [hn] at hl
  refine ⟨fun _ => rfl, hv, hn, hl, ?_⟩
  intro j hj hw
  have hget : ∀ i, i < calls.count call_t.get_spi →
      (spi_log s0 calls).getD i 0 = (ntohl 0xc0000001 + (i + 1)) % 2 ^ 32 := by
    intro i hi
    rw [hl]
    simp [List.getD_eq_getElem?_getD, hi]
  rw [hget j hj, Nat.mod_eq_of_lt hw]
  refine ⟨by omega, ?_⟩
  intro i hi
  rw [hget i (by omega), Nat.mod_eq_of_lt (by omega)]
  omega

/-- Witness of C24: two `get_spi` calls with an `add_sa` in between return 0x010000c1
and 0x010000c2. -/
theorem get_spi_consecutive_witness :
    spi_log (backend_new wfp_accept)
      [ call_t.get_spi, sample_add_sa true 1 1 host_b host_a AUTH_HMAC_SHA1_96,
        call_t.get_spi ] = [ 0x010000c1, 0x010000c2 ] :=
  (get_spi_consecutive wfp_accept rng_fixed (backend_new wfp_accept)
    (backend_new_created wfp_accept rfl rfl)
    [ call_t.get_spi, sample_add_sa true 1 1 host_b host_a AUTH_HMAC_SHA1_96,
      call_t.get_spi ]).2.2.2.1

/-! ## Installation of a transport mode entry (C28) -/

theorem ts2condition_well_formed (ts : traffic_selector_t) (local_ : Bool)
    (conds : List FWPM_FILTER_CONDITION0) (hts : ts_well_formed ts) :
    (ts2condition ts local_ conds).1 = true := by
  obtain ⟨ht, hf⟩ := hts
  have ha : (ts2condition_address ts local_).1 = true := by
    unfold ts2condition_address
    cases h1 : ts.is_host <;> cases h2 : ts.to_subnet <;> cases h3 : ts.get_type <;>
      cases h4 : ts.to_subnet_net.get_family <;> simp_all
  unfold ts2condition
  rcases hh : ts2condition_address ts local_ with ⟨b, c⟩
  rw [hh] at ha
  simp only at ha
  subst ha
  rfl

theorem install_transport_sp_ok (h : HANDLE) (e : entry_t) (inbound : Bool) (id : Nat)
    (hc : (install_transport_sp_conds inbound e.sps []).1 = true)
    (hres : (h.replies h.trace.length).res = 0)
    (hout : (h.replies h.trace.length).out = some id) :
    install_transport_sp h e inbound =
      ( true,
        { h with trace := h.trace ++
            [ wfp_request.FwpmFilterAdd0
                { inbound := inbound,
                  filterCondition := (install_transport_sp_conds inbound e.sps []).2 } ] },
        if inbound then { e with policy_in := id } else { e with policy_out := id } ) := by
  unfold install_transport_sp
  simp only [hc, wfp_call, hres, hout]
  simp

theorem install_sa_ok (h : HANDLE) (e : entry_t) (inbound : Bool) (sa : sa_entry_t)
    (v : FWP_IP_VERSION) (c : install_sa_choice) (info : IPSEC_SA_AUTH_AND_CIPHER_INFORMATION0)
    (hc : install_sa_select sa = some c) (hi : install_sa_info c = some info)
    (hres : (h.replies h.trace.length).res = 0) :
    install_sa h e inbound sa v =
      ( true,
        { h with trace := h.trace ++
            [ if inbound then
                wfp_request.IPsecSaContextAddInbound0 e.sa_id
                  (install_sa_bundle e inbound sa v c info)
              else
                wfp_request.IPsecSaContextAddOutbound0 e.sa_id
                  (install_sa_bundle e inbound sa v c info) ] } ) := by
  unfold install_sa
  simp only [hc, hi, wfp_call, hres]
  simp

theorem install_sas_ok (h : HANDLE) (e : entry_t) (type : IPSEC_TRAFFIC_TYPE)
    (ci co : install_sa_choice) (ii io : IPSEC_SA_AUTH_AND_CIPHER_INFORMATION0) (id : Nat)
    (hfam : e.local_.get_family = family_t.AF_INET)
    (hci : install_sa_select e.isa = some ci) (hii : install_sa_info ci = some ii)
    (hco : install_sa_select e.osa = some co) (hio : install_sa_info co = some io)
    (hres : ∀ k, k < 4 → (h.replies (h.trace.length + k)).res = 0)
    (hout : (h.replies h.trace.length).out = some id) :
    install_sas h e type =
      ( true,
        { h with trace := h.trace ++
            [ wfp_request.IPsecSaContextCreate0
                { ipVersion := FWP_IP_VERSION.FWP_IP_VERSION_V4,
                  localAddress := wfp_address.v4 (untoh32 e.local_.get_address),
                  remoteAddress := wfp_address.v4 (untoh32 e.remote.get_address),
                  trafficType := type,
                  filterId := if type = IPSEC_TRAFFIC_TYPE.IPSEC_TRAFFIC_TYPE_TRANSPORT
                              then e.policy_out else e.policy_in },
              wfp_request.IPsecSaContextSetSpi0 id
                { inboundIpsecTraffic :=
                    { ipVersion := FWP_IP_VERSION.FWP_IP_VERSION_V4,
                      localAddress := wfp_address.v4 (untoh32 e.local_.get_address),
                      remoteAddress := wfp_address.v4 (untoh32 e.remote.get_address),
                      trafficType := type, filterId := e.policy_in },
                  ipVersion := FWP_IP_VERSION.FWP_IP_VERSION_V4 }
                (ntohl e.isa.spi),
              wfp_request.IPsecSaContextAddInbound0 id
                (install_sa_bundle e true e.isa FWP_IP_VERSION.FWP_IP_VERSION_V4 ci ii),
              wfp_request.IPsecSaContextAddOutbound0 id
                (install_sa_bundle e false e.osa FWP_IP_VERSION.FWP_IP_VERSION_V4 co io) ] },
        { e with sa_id := id } ) := by
  have h0 := hres 0 (by omega)
  have h1 := hres 1 (by omega)
  have h2 := hres 2 (by omega)
  have h3 := hres 3 (by omega)
  simp only [Nat.add_zero] at h0
  unfold install_sas
  simp only [host2wfp, hfam, remote2wfp, wfp_call, h0, hout, Option.getD_some, ne_eq,
    not_true_eq_false, if_false, List.length_append, List.length_singleton, h1]
  rw [install_sa_ok _ _ true _ _ ci ii hci hii (by simpa [Nat.add_assoc] using h2)]
  simp only [if_true]
  rw [install_sa_ok _ _ false _ _ co io hco hio (by simpa [Nat.add_assoc] using h3)]
  simp [install_sa_bundle]

theorem install_transport_ok (h : HANDLE) (e : entry_t) (src_ts dst_ts : traffic_selector_t)
    (ci co : install_sa_choice) (ii io : IPSEC_SA_AUTH_AND_CIPHER_INFORMATION0)
    (id_in id_out id_sa : Nat)
    (hsps : e.sps = [ { src := src_ts, dst := dst_ts } ])
    (hfam : e.local_.get_family = family_t.AF_INET)
    (hsrc : ts_well_formed src_ts) (hdst : ts_well_formed dst_ts)
    (hci : install_sa_select e.isa = some ci) (hii : install_sa_info ci = some ii)
    (hco : install_sa_select e.osa = some co) (hio : install_sa_info co = some io)
    (hres : ∀ k, k < 6 → (h.replies (h.trace.length + k)).res = 0)
    (hin : (h.replies h.trace.length).out = some id_in)
    (hout : (h.replies (h.trace.length + 1)).out = some id_out)
    (hsa : (h.replies (h.trace.length + 2)).out = some id_sa) :
    install_transport h e =
      ( true,
        { h with trace := h.trace ++
            [ wfp_request.FwpmFilterAdd0
                { inbound := true,
                  filterCondition :=
                    (ts2condition src_ts false (ts2condition dst_ts true []).2).2 },
              wfp_request.FwpmFilterAdd0
                { inbound := false,
                  filterCondition :=
                    (ts2condition dst_ts false (ts2condition src_ts true []).2).2 },
              wfp_request.IPsecSaContextCreate0
                { ipVersion := FWP_IP_VERSION.FWP_IP_VERSION_V4,
                  localAddress := wfp_address.v4 (untoh32 e.local_.get_address),
                  remoteAddress := wfp_address.v4 (untoh32 e.remote.get_address),
                  trafficType := IPSEC_TRAFFIC_TYPE.IPSEC_TRAFFIC_TYPE_TRANSPORT,
                  filterId := id_out },
              wfp_request.IPsecSaContextSetSpi0 id_sa
                { inboundIpsecTraffic :=
                    { ipVersion := FWP_IP_VERSION.FWP_IP_VERSION_V4,
                      localAddress := wfp_address.v4 (untoh32 e.local_.get_address),
                      remoteAddress := wfp_address.v4 (untoh32 e.remote.get_address),
                      trafficType := IPSEC_TRAFFIC_TYPE.IPSEC_TRAFFIC_TYPE_TRANSPORT,
                      filterId := id_in },
                  ipVersion := FWP_IP_VERSION.FWP_IP_VERSION_V4 }
                (ntohl e.isa.spi),
              wfp_request.IPsecSaContextAddInbound0 id_sa
                (install_sa_bundle e true e.isa FWP_IP_VERSION.FWP_IP_VERSION_V4 ci ii),
              wfp_request.IPsecSaContextAddOutbound0 id_sa
                (install_sa_bundle e false e.osa FWP_IP_VERSION.FWP_IP_VERSION_V4 co io) ] },
        { e with policy_in := id_in, policy_out := id_out, sa_id := id_sa } ) := by
  have hcin : install_transport_sp_conds true e.sps [] =
      (true, (ts2condition src_ts false (ts2condition dst_ts true []).2).2) := by
    simp [hsps, install_transport_sp_conds, ts2condition_well_formed, hsrc, hdst]
  have hcout : install_transport_sp_conds false e.sps [] =
      (true, (ts2condition dst_ts false (ts2condition src_ts true []).2).2) := by
    simp [hsps, install_transport_sp_conds, ts2condition_well_formed, hsrc, hdst]
  have h0 := hres 0 (by omega)
  have h1 := hres 1 (by omega)
  simp only [Nat.add_zero] at h0
  have s1 := install_transport_sp_ok h e true id_in (by rw [hcin]) h0 hin
  rw [hcin] at s1
  simp only [if_true] at s1
  have s2 := install_transport_sp_ok
    { h with trace := h.trace ++
        [ wfp_request.FwpmFilterAdd0
            { inbound := true,
              filterCondition :=
                (ts2condition src_ts false (ts2condition dst_ts true []).2).2 } ] }
    { e with policy_in := id_in } false id_out (by rw [hcout])
    (by simpa using h1) (by simpa using hout)
  rw [show ({ e with policy_in := id_in } : entry_t).sps = e.sps from rfl, hcout] at s2
  simp only [Bool.false_eq_true, if_false] at s2
  have s3 := install_sas_ok
    { h with trace := h.trace ++
        [ wfp_request.FwpmFilterAdd0
            { inbound := true,
              filterCondition :=
                (ts2condition src_ts false (ts2condition dst_ts true []).2).2 } ] ++
        [ wfp_request.FwpmFilterAdd0
            { inbound := false,
              filterCondition :=
                (ts2condition dst_ts false (ts2condition src_ts true []).2).2 } ] }
    { e with policy_in := id_in, policy_out := id_out }
    IPSEC_TRAFFIC_TYPE.IPSEC_TRAFFIC_TYPE_TRANSPORT ci co ii io id_sa hfam hci hii hco hio
    (by
      intro k hk
      have := hres (k + 2) (by omega)
      simpa [Nat.add_assoc, Nat.add_comm 2 k] using this)
    (by simpa using hsa)
  unfold install_transport install_transport_steps
  simp only [s1, s2, s3]
  simp [install_sa_bundle]

/-- C28: for every entry found by `add_policy(POLICY_OUT, default priority)` that is
complete, in transport mode, with an IPv4 local address, whose two SAs have a
transform shape (as every ESP SA has) and algorithms the tables hold, without
policy so far: when the engine accepts the next six requests and returns the
handles `id_in`, `id_out` and `id_sa`, the call returns SUCCESS after sending
exactly these six requests: add the inbound filter (conditions of local = dst
selector, then remote = src selector), add the outbound filter (local = src
selector, remote = dst selector), create the SA context, set its SPI to the
inbound SPI, add the inbound SA, add the outbound SA; afterwards the entry holds
the one policy and `policy_in`, `policy_out`, `sa_id` are the returned handles. -/
theorem add_policy_transport_installs (this : private_kernel_wfp_ipsec_t) (dst : host_t)
    (src_ts dst_ts : traffic_selector_t) (sa : ipsec_sa_cfg_t) (entry : Nat)
    (ci co : install_sa_choice) (ii io : IPSEC_SA_AUTH_AND_CIPHER_INFORMATION0)
    (id_in id_out id_sa : Nat)
    (hboth : ¬ (sa.esp_use = true ∧ sa.ah_use = true))
    (hfound : hashtable_get this.osas
      { spi := if sa.esp_use then sa.esp_spi else sa.ah_spi, dst := dst } = some entry)
    (hempty : (this.heap entry).sps = [])
    (hmode : (this.heap entry).mode = ipsec_mode_t.MODE_TRANSPORT)
    (hfam : (this.heap entry).local_.get_family = family_t.AF_INET)
    (hsrc : ts_well_formed src_ts) (hdst : ts_well_formed dst_ts)
    (hci : install_sa_select (this.heap entry).isa = some ci)
    (hii : install_sa_info ci = some ii)
    (hco : install_sa_select (this.heap entry).osa = some co)
    (hio : install_sa_info co = some io)
    (hres : ∀ k, k < 6 →
      (this.handle.replies (this.handle.trace.length + k)).res = 0)
    (hin : (this.handle.replies this.handle.trace.length).out = some id_in)
    (hout : (this.handle.replies (this.handle.trace.length + 1)).out = some id_out)
    (hsa : (this.handle.replies (this.handle.trace.length + 2)).out = some id_sa) :
    (add_policy this dst src_ts dst_ts policy_dir_t.POLICY_OUT sa
      policy_priority_t.POLICY_PRIORITY_DEFAULT).1 = status_t.SUCCESS ∧
    (add_policy this dst src_ts dst_ts policy_dir_t.POLICY_OUT sa
      policy_priority_t.POLICY_PRIORITY_DEFAULT).2.handle.trace =
      this.handle.trace ++
        [ wfp_request.FwpmFilterAdd0
            { inbound := true,
              filterCondition :=
                (ts2condition src_ts false (ts2condition dst_ts true []).2).2 },
          wfp_request.FwpmFilterAdd0
            { inbound := false,
              filterCondition :=
                (ts2condition dst_ts false (ts2condition src_ts true []).2).2 },
          wfp_request.IPsecSaContextCreate0
            { ipVersion := FWP_IP_VERSION.FWP_IP_VERSION_V4,
              localAddress := wfp_address.v4 (untoh32 (this.heap entry).local_.get_address),
              remoteAddress := wfp_address.v4 (untoh32 (this.heap entry).remote.get_address),
              trafficType := IPSEC_TRAFFIC_TYPE.IPSEC_TRAFFIC_TYPE_TRANSPORT,
              filterId := id_out },
          wfp_request.IPsecSaContextSetSpi0 id_sa
            { inboundIpsecTraffic :=
                { ipVersion := FWP_IP_VERSION.FWP_IP_VERSION_V4,
                  localAddress :=
                    wfp_address.v4 (untoh32 (this.heap entry).local_.get_address),
                  remoteAddress :=
                    wfp_address.v4 (untoh32 (this.heap entry).remote.get_address),
                  trafficType := IPSEC_TRAFFIC_TYPE.IPSEC_TRAFFIC_TYPE_TRANSPORT,
                  filterId := id_in },
              ipVersion := FWP_IP_VERSION.FWP_IP_VERSION_V4 }
            (ntohl (this.heap entry).isa.spi),
          wfp_request.IPsecSaContextAddInbound0 id_sa
            (install_sa_bundle (this.heap entry) true (this.heap entry).isa
              FWP_IP_VERSION.FWP_IP_VERSION_V4 ci ii),
          wfp_request.IPsecSaContextAddOutbound0 id_sa
            (install_sa_bundle (this.heap entry) false (this.heap entry).osa
              FWP_IP_VERSION.FWP_IP_VERSION_V4 co io) ] ∧
    (add_policy this dst src_ts dst_ts policy_dir_t.POLICY_OUT sa
      policy_priority_t.POLICY_PRIORITY_DEFAULT).2.heap entry =
      { this.heap entry with
        sps := [ { src := src_ts, dst := dst_ts } ],
        policy_in := id_in, policy_out := id_out, sa_id := id_sa } := by
  rw [add_policy_out_default_found this dst src_ts dst_ts sa entry hboth hfound hempty]
  have hi : install this.handle
      { this.heap entry with sps := [ { src := src_ts, dst := dst_ts } ] } =
      install_transport this.handle
      { this.heap entry with sps := [ { src := src_ts, dst := dst_ts } ] } := by
    unfold install
    simp only [hmode]
  rw [hi, install_transport_ok this.handle
    { this.heap entry with sps := [ { src := src_ts, dst := dst_ts } ] } src_ts dst_ts
    ci co ii io id_in id_out id_sa rfl hfam hsrc hdst hci hii hco hio hres hin hout hsa]
  refine ⟨by simp, rfl, by simp⟩

/-- Witness of C28: the complete entry 0 (ESP, AES-CBC with a 16-byte key,
HMAC-SHA1-96, between 10.0.0.1 and 10.0.0.2) on an engine that accepts every
request and returns the handle 7. -/
theorem add_policy_transport_installs_witness :
    (add_policy (backend_pair wfp_accept) host_b (sample_ts host_a) (sample_ts host_b)
      policy_dir_t.POLICY_OUT sample_sa_cfg policy_priority_t.POLICY_PRIORITY_DEFAULT).1 =
      status_t.SUCCESS :=
  (add_policy_transport_installs (backend_pair wfp_accept) host_b (sample_ts host_a)
    (sample_ts host_b) sample_sa_cfg 0
    { saTransformType := IPSEC_TRANSFORM_TYPE.IPSEC_TRANSFORM_ESP_AUTH_AND_CIPHER,
      integ := { alg := AUTH_HMAC_SHA1_96, key := List.replicate 20 2 },
      encr := { alg := ENCR_AES_CBC, key := List.replicate 16 1 } }
    { saTransformType := IPSEC_TRANSFORM_TYPE.IPSEC_TRANSFORM_ESP_AUTH_AND_CIPHER,
      integ := { alg := AUTH_HMAC_SHA1_96, key := List.replicate 20 2 },
      encr := { alg := ENCR_AES_CBC, key := List.replicate 16 1 } }
    { saCipherInformation :=
        { cipherTransformId := IPSEC_CIPHER_TRANSFORM_ID0.IPSEC_CIPHER_TRANSFORM_ID_AES_128,
          cipherKey := List.replicate 16 1 },
      saAuthInformation :=
        { authTransformId := IPSEC_AUTH_TRANSFORM_ID0.IPSEC_AUTH_TRANSFORM_ID_HMAC_SHA_1_96,
          authKey := List.replicate 20 2 } }
    { saCipherInformation :=
        { cipherTransformId := IPSEC_CIPHER_TRANSFORM_ID0.IPSEC_CIPHER_TRANSFORM_ID_AES_128,
          cipherKey := List.replicate 16 1 },
      saAuthInformation :=
        { authTransformId := IPSEC_AUTH_TRANSFORM_ID0.IPSEC_AUTH_TRANSFORM_ID_HMAC_SHA_1_96,
          authKey := List.replicate 20 2 } }
    7 7 7 (by decide) (by decide) (by decide) (by decide) (by decide)
    ⟨by decide, by decide⟩ ⟨by decide, by decide⟩ (by decide) (by decide) (by decide)
    (by decide) (fun _ _ => rfl) rfl rfl rfl).1

/-! ## Expiration of an entry that is present (C27) -/

theorem hashtable_mem_erase {κ : Type} [DecidableEq κ] (t : hashtable_t κ) (key : κ)
    (p : κ × Nat) (h : p ∈ hashtable_erase t key) : p ∈ t ∧ p.1 ≠ key := by
  induction t with
  | nil => simp [hashtable_erase] at h
  | cons a t ih =>
    obtain ⟨k, v⟩ := a
    simp only [hashtable_erase] at h
    split_ifs at h with hk
    · exact ⟨List.mem_cons_of_mem _ (ih h).1, (ih h).2⟩
    · rcases List.mem_cons.1 h with h | h
      · subst h
        exact ⟨List.mem_cons_self _ _, hk⟩
      · exact ⟨List.mem_cons_of_mem _ (ih h).1, (ih h).2⟩

theorem hashtable_get_mem {κ : Type} [DecidableEq κ] (t : hashtable_t κ) (key : κ) (v : Nat)
    (h : hashtable_get t key = some v) : (key, v) ∈ t := by
  induction t with
  | nil => simp [hashtable_get] at h
  | cons a t ih =>
    obtain ⟨k, w⟩ := a
    simp only [hashtable_get] at h
    split_ifs at h with hk
    · simp only [Option.some.injEq] at h
      subst hk
      subst h
      exact List.mem_cons_self _ _
    · exact List.mem_cons_of_mem _ (ih h)

theorem hashtable_mem_put {κ : Type} [DecidableEq κ] (t : hashtable_t κ) (key : κ) (v : Nat)
    (p : κ × Nat) (h : p ∈ hashtable_put t key v) :
    p = (key, v) ∨ (p ∈ t ∧ p.1 ≠ key) := by
  rcases List.mem_cons.1 h with h | h
  · exact Or.inl h
  · exact Or.inr (hashtable_mem_erase t key p h)

theorem same_keys_refl (e : entry_t) : same_keys e e := ⟨rfl, rfl, rfl⟩

theorem same_keys_trans (e1 e2 e3 : entry_t) (h12 : same_keys e1 e2) (h23 : same_keys e2 e3) :
    same_keys e1 e3 :=
  ⟨h12.1.trans h23.1, h12.2.1.trans h23.2.1, h12.2.2.trans h23.2.2⟩

theorem index_inv_shrink (s t : private_kernel_wfp_ipsec_t) (hinv : index_inv s)
    (ht : ∀ p ∈ t.tsas, p ∈ s.tsas) (hi : ∀ p ∈ t.isas, p ∈ s.isas)
    (ho : ∀ p ∈ t.osas, p ∈ s.osas) (hb : s.brk ≤ t.brk)
    (hk : ∀ id, same_keys (t.heap id) (s.heap id)) : index_inv t := by
  obtain ⟨h1, h2, h3⟩ := hinv
  refine ⟨?_, ?_, ?_⟩
  · intro p hp
    obtain ⟨a, b, c⟩ := h1 p (ht p hp)
    obtain ⟨k1, _, k3⟩ := hk p.2
    exact ⟨by omega, by rw [k1]; exact b, by rw [k3]; exact c⟩
  · intro p hp
    obtain ⟨a, b, c⟩ := h2 p (hi p hp)
    obtain ⟨_, k2, _⟩ := hk p.2
    exact ⟨by omega, by rw [k2]; exact b, by rw [k2]; exact c⟩
  · intro p hp
    obtain ⟨a, b, c⟩ := h3 p (ho p hp)
    obtain ⟨_, _, k3⟩ := hk p.2
    exact ⟨by omega, by rw [k3]; exact b, by rw [k3]; exact c⟩

theorem same_keys_update (heap : Nat → entry_t) (entry : Nat) (e : entry_t)
    (he : same_keys e (heap entry)) :
    ∀ id, same_keys (Function.update heap entry e id) (heap id) := by
  intro id
  by_cases hid : id = entry
  · subst hid
    simpa using he
  · rw [Function.update_noteq hid]
    exact same_keys_refl _

theorem entry_destroy_index_inv (s : private_kernel_wfp_ipsec_t) (entry : Nat)
    (hinv : index_inv s) : index_inv (entry_destroy s entry) := by
  refine index_inv_shrink s _ hinv (fun p hp => hp) (fun p hp => hp) (fun p hp => hp)
    (le_refl _) ?_
  rw [entry_destroy_heap]
  exact same_keys_update _ _ _ ⟨rfl, rfl, rfl⟩

theorem install_sas_keys (h : HANDLE) (e : entry_t) (t : IPSEC_TRAFFIC_TYPE) :
    same_keys (install_sas h e t).2.2 e := by
  unfold install_sas same_keys
  split
  · simp
  · simp only []
    split_ifs <;> simp

theorem install_transport_sp_keys (h : HANDLE) (e : entry_t) (inbound : Bool) :
    same_keys (install_transport_sp h e inbound).2.2 e := by
  unfold install_transport_sp same_keys
  cases inbound <;> simp only [] <;> split_ifs <;> simp

theorem install_tunnel_sps_keys (h : HANDLE) (e : entry_t) :
    same_keys (install_tunnel_sps h e).2.2 e := by
  unfold install_tunnel_sps same_keys
  cases hh : host2wfp e.local_ with
  | none => simp
  | some p =>
    obtain ⟨v, a⟩ := p
    simp only []
    cases hg : (generate_guid h).1 with
    | none => simp
    | some g =>
      simp only []
      split_ifs <;> simp

theorem install_keys (h : HANDLE) (e : entry_t) : same_keys (install h e).2.2 e := by
  have f1 := install_transport_sp_keys h e true
  have f2 := install_transport_sp_keys (install_transport_sp h e true).2.1
    (install_transport_sp h e true).2.2 false
  have f3 := install_sas_keys (install_transport_sp (install_transport_sp h e true).2.1
    (install_transport_sp h e true).2.2 false).2.1
    (install_transport_sp (install_transport_sp h e true).2.1
    (install_transport_sp h e true).2.2 false).2.2 IPSEC_TRAFFIC_TYPE.IPSEC_TRAFFIC_TYPE_TRANSPORT
  have g1 := install_tunnel_sps_keys h e
  have g3 := install_sas_keys (install_tunnel_sps h e).2.1 (install_tunnel_sps h e).2.2
    IPSEC_TRAFFIC_TYPE.IPSEC_TRAFFIC_TYPE_TUNNEL
  unfold same_keys at *
  unfold install
  cases e.mode
  · show _ ∧ _ ∧ _
    unfold install_transport install_transport_steps
    simp only []
    split_ifs <;> simp_all [cleanup_policies_entry]
  · show _ ∧ _ ∧ _
    unfold install_tunnel install_tunnel_steps
    simp only []
    split_ifs <;> simp_all [cleanup_policies_entry]
  all_goals exact ⟨rfl, rfl, rfl⟩

theorem add_sa_index_inv (s : private_kernel_wfp_ipsec_t) (src dst : host_t)
    (spi protocol reqid : Nat) (lifetime : lifetime_cfg_t) (enc_alg : Nat) (enc_key : chunk_t)
    (int_alg : Nat) (int_key : chunk_t) (mode : ipsec_mode_t) (encap inbound : Bool)
    (hinv : index_inv s) :
    index_inv (add_sa s src dst spi protocol reqid lifetime enc_alg enc_key int_alg int_key
      mode encap inbound).2 := by
  obtain ⟨h1, h2, h3⟩ := hinv
  cases inbound
  · simp only [add_sa, Bool.false_eq_true, if_false, hashtable_remove]
    cases hg : hashtable_get s.tsas reqid with
    | none =>
      simp only []
      rw [hashtable_erase_of_get_none _ _ hg]
      exact ⟨h1, h2, h3⟩
    | some entry =>
      simp only []
      obtain ⟨eb, er, eo⟩ := h1 _ (hashtable_get_mem _ _ _ hg)
      simp only at eb er eo
      refine ⟨?_, ?_, ?_⟩
      · intro p hp
        obtain ⟨hm, hne⟩ := hashtable_mem_erase _ _ _ hp
        obtain ⟨a, b, c⟩ := h1 p hm
        have hpe : p.2 ≠ entry := by
          intro hpe
          rw [hpe, er] at b
          exact hne b.symm
        simp only [Function.update_noteq hpe]
        exact ⟨a, b, c⟩
      · intro p hp
        obtain ⟨a, b, c⟩ := h2 p hp
        by_cases hpe : p.2 = entry
        · rw [hpe] at b c ⊢
          simp only [Function.update_same]
          exact ⟨eb, b, c⟩
        · simp only [Function.update_noteq hpe]
          exact ⟨a, b, c⟩
      · intro p hp
        rcases hashtable_mem_put _ _ _ _ hp with hp | ⟨hm, _⟩
        · subst hp
          simp only [Function.update_same]
          exact ⟨eb, by trivial, by trivial⟩
        · obtain ⟨a, b, c⟩ := h3 p hm
          have hpe : p.2 ≠ entry := by
            intro hpe
            rw [hpe, eo] at c
            exact Option.noConfusion c
          simp only [Function.update_noteq hpe]
          exact ⟨a, b, c⟩
  · have key : ∀ sched : List (expire_data_t × Nat),
        index_inv
          { s with
            heap := Function.update s.heap s.brk
              { entry_zero with
                reqid := reqid,
                isa := { spi := spi, dst := some dst, protocol := protocol,
                         lifetime := lifetime.life % 2 ^ 32,
                         encr := { alg := enc_alg, key := enc_key },
                         integ := { alg := int_alg, key := int_key } },
                sps := [], local_ := dst, remote := src, mode := mode, encap := encap },
            brk := s.brk + 1, scheduled := sched,
            tsas := hashtable_put s.tsas reqid s.brk,
            isas := hashtable_put s.isas { spi := spi, dst := dst } s.brk } := by
      intro sched
      refine ⟨?_, ?_, ?_⟩
      · intro p hp
        rcases hashtable_mem_put _ _ _ _ hp with hp | ⟨hm, _⟩
        · subst hp
          simp only [Function.update_same]
          exact ⟨Nat.lt_succ_self _, by trivial, by trivial⟩
        · obtain ⟨a, b, c⟩ := h1 p hm
          have hpe : p.2 ≠ s.brk := Nat.ne_of_lt a
          simp only [Function.update_noteq hpe]
          exact ⟨Nat.lt_succ_of_lt a, b, c⟩
      · intro p hp
        rcases hashtable_mem_put _ _ _ _ hp with hp | ⟨hm, _⟩
        · subst hp
          simp only [Function.update_same]
          exact ⟨Nat.lt_succ_self _, by trivial, by trivial⟩
        · obtain ⟨a, b, c⟩ := h2 p hm
          have hpe : p.2 ≠ s.brk := Nat.ne_of_lt a
          simp only [Function.update_noteq hpe]
          exact ⟨Nat.lt_succ_of_lt a, b, c⟩
      · intro p hp
        obtain ⟨a, b, c⟩ := h3 p hp
        have hpe : p.2 ≠ s.brk := Nat.ne_of_lt a
        simp only [Function.update_noteq hpe]
        exact ⟨Nat.lt_succ_of_lt a, b, c⟩
    simp only [add_sa, if_true, schedule_expire]
    split_ifs <;> exact key _

theorem del_sa_index_inv (s : private_kernel_wfp_ipsec_t) (dst : host_t) (spi : Nat)
    (hinv : index_inv s) : index_inv (del_sa s dst spi).2 := by
  simp only [del_sa, hashtable_remove]
  have hi : index_inv { s with isas := hashtable_erase s.isas { spi := spi, dst := dst } } :=
    index_inv_shrink s _ hinv (fun p hp => hp)
      (fun p hp => (hashtable_mem_erase _ _ _ hp).1) (fun p hp => hp) (le_refl _)
      (fun _ => same_keys_refl _)
  cases hashtable_get s.isas { spi := spi, dst := dst } with
  | some e => exact hi
  | none =>
    simp only []
    have ho : index_inv
        { s with isas := hashtable_erase s.isas { spi := spi, dst := dst },
                 osas := hashtable_erase s.osas { spi := spi, dst := dst } } :=
      index_inv_shrink _ _ hi (fun p hp => hp) (fun p hp => hp)
        (fun p hp => (hashtable_mem_erase _ _ _ hp).1) (le_refl _)
        (fun _ => same_keys_refl _)
    cases hashtable_get s.osas { spi := spi, dst := dst } with
    | some e => exact entry_destroy_index_inv _ e ho
    | none => exact ho

theorem expire_job_index_inv (s : private_kernel_wfp_ipsec_t) (data : expire_data_t)
    (hinv : index_inv s) : index_inv (expire_job s data) := by
  unfold expire_job
  have hexp : ∀ (t : private_kernel_wfp_ipsec_t) (l : List expire_event_t),
      index_inv t → index_inv { t with expired := l } :=
    fun t l ht => index_inv_shrink t _ ht (fun p hp => hp) (fun p hp => hp)
      (fun p hp => hp) (le_refl _) (fun _ => same_keys_refl _)
  cases data.hard
  · simp only [Bool.false_eq_true, if_false]
    cases hashtable_get s.isas { spi := data.spi, dst := data.dst } with
    | none => exact hinv
    | some e =>
      simp only []
      split_ifs
      · exact hexp _ _ hinv
      · exact hinv
  · simp only [if_true, hashtable_remove]
    have hi : index_inv
        { s with isas := hashtable_erase s.isas { spi := data.spi, dst := data.dst } } :=
      index_inv_shrink s _ hinv (fun p hp => hp)
        (fun p hp => (hashtable_mem_erase _ _ _ hp).1) (fun p hp => hp) (le_refl _)
        (fun _ => same_keys_refl _)
    cases hashtable_get s.isas { spi := data.spi, dst := data.dst } with
    | none => exact hi
    | some e =>
      simp only []
      cases (s.heap e).osa.dst with
      | none =>
        simp only []
        split_ifs
        · exact hexp _ _ (entry_destroy_index_inv _ e hi)
        · exact entry_destroy_index_inv _ e hi
      | some d =>
        simp only []
        have ho : index_inv
            { s with isas := hashtable_erase s.isas { spi := data.spi, dst := data.dst },
                     osas := hashtable_erase s.osas { spi := (s.heap e).osa.spi, dst := d } } :=
          index_inv_shrink _ _ hi (fun p hp => hp) (fun p hp => hp)
            (fun p hp => (hashtable_mem_erase _ _ _ hp).1) (le_refl _)
            (fun _ => same_keys_refl _)
        split_ifs
        · exact hexp _ _ (entry_destroy_index_inv _ e ho)
        · exact entry_destroy_index_inv _ e ho

theorem add_policy_index_inv (s : private_kernel_wfp_ipsec_t) (dst : host_t)
    (src_ts dst_ts : traffic_selector_t) (direction : policy_dir_t) (sa : ipsec_sa_cfg_t)
    (priority : policy_priority_t) (hinv : index_inv s) :
    index_inv (add_policy s dst src_ts dst_ts direction sa priority).2 := by
  unfold add_policy
  simp only []
  generalize ({ spi := if sa.esp_use = true then sa.esp_spi else sa.ah_spi, dst := dst } :
    sa_key_t) = key
  by_cases hb : sa.esp_use = true ∧ sa.ah_use = true
  · simpa only [hb, and_self, if_true] using hinv
  · simp only [hb, if_false]
    cases direction <;> simp only []
    · exact hinv
    · cases priority <;> simp only []
      · cases hashtable_get s.osas key with
        | none => exact hinv
        | some e =>
          simp only []
          by_cases hl : (s.heap e).sps.length = 0
          · simp only [hl, if_true]
            refine index_inv_shrink s _ hinv (fun p hp => hp) (fun p hp => hp)
              (fun p hp => hp) (le_refl _) ?_
            exact same_keys_update _ _ _
              (same_keys_trans _ _ _ (install_keys _ _) ⟨rfl, rfl, rfl⟩)
          · simpa only [hl, if_false] using hinv
      · exact hinv
      · exact hinv
    · exact hinv

theorem step_index_inv (s : private_kernel_wfp_ipsec_t) (c : call_t) (hinv : index_inv s) :
    index_inv (step s c) := by
  cases c with
  | add_sa src dst spi protocol reqid lifetime enc_alg enc_key int_alg int_key mode encap
      inbound => exact add_sa_index_inv s _ _ _ _ _ _ _ _ _ _ _ _ _ hinv
  | del_sa dst spi => exact del_sa_index_inv s dst spi hinv
  | add_policy dst src_ts dst_ts direction sa priority =>
    exact add_policy_index_inv s _ _ _ _ _ _ hinv
  | expire_job data => exact expire_job_index_inv s data hinv
  | get_spi =>
    exact index_inv_shrink s _ hinv (fun p hp => hp) (fun p hp => hp) (fun p hp => hp)
      (le_refl _) (fun _ => same_keys_refl _)
  | get_features => exact hinv
  | get_cpi => exact hinv
  | update_sa => exact hinv
  | query_sa => exact hinv
  | flush_sas => exact hinv
  | query_policy => exact hinv
  | del_policy => exact hinv
  | flush_policies => exact hinv
  | bypass_socket => exact hinv
  | enable_udp_decap => exact hinv

theorem reachable_index_inv (s : private_kernel_wfp_ipsec_t) (hr : Reachable s) :
    index_inv s := by
  obtain ⟨replies, rng, s0, calls, hc, rfl⟩ := hr
  have h0 : index_inv s0 := by
    unfold kernel_wfp_ipsec_create at hc
    simp only [] at hc
    split_ifs at hc
    simp only [Option.some.injEq] at hc
    subst hc
    exact ⟨fun p hp => absurd hp (List.not_mem_nil _),
      fun p hp => absurd hp (List.not_mem_nil _), fun p hp => absurd hp (List.not_mem_nil _)⟩
  clear hc
  induction calls generalizing s0 with
  | nil => exact h0
  | cons c cs ih => exact ih (step s0 c) (step_index_inv s0 c h0)

theorem expire_job_soft_found (s : private_kernel_wfp_ipsec_t) (data : expire_data_t)
    (entry : Nat) (hs : data.hard = false)
    (h : hashtable_get s.isas { spi := data.spi, dst := data.dst } = some entry) :
    expire_job s data =
      { s with expired := s.expired ++
          (if (s.heap entry).reqid ≠ 0 then
            [ { reqid := (s.heap entry).reqid, protocol := (s.heap entry).isa.protocol,
                spi := data.spi, hard := data.hard } ]
           else []) } := by
  unfold expire_job
  simp only [hs, Bool.false_eq_true, if_false, h]
  split_ifs <;> simp

theorem expire_job_hard_fields (s : private_kernel_wfp_ipsec_t) (data : expire_data_t)
    (entry : Nat) (hh : data.hard = true)
    (h : hashtable_get s.isas { spi := data.spi, dst := data.dst } = some entry) :
    (expire_job s data).isas = hashtable_erase s.isas { spi := data.spi, dst := data.dst } ∧
    (expire_job s data).osas =
      (match (s.heap entry).osa.dst with
       | some d => hashtable_erase s.osas { spi := (s.heap entry).osa.spi, dst := d }
       | none => s.osas) ∧
    (expire_job s data).destroyed = s.destroyed ++ [entry] ∧
    (expire_job s data).expired = s.expired ++
      (if (s.heap entry).reqid ≠ 0 then
        [ { reqid := (s.heap entry).reqid, protocol := (s.heap entry).isa.protocol,
            spi := data.spi, hard := data.hard } ]
       else []) := by
  unfold expire_job
  simp only [hh, if_true, hashtable_remove, h]
  cases (s.heap entry).osa.dst <;> simp only [] <;> split_ifs <;>
    simp [entry_destroy_indexes, entry_destroy]

/-- C27, amended: in every reachable state, for every expire job (hard or soft) whose
key (spi, dst) is bound to an entry E in the inbound index: when the request
identifier of E is not zero, exactly one notification is delivered, with the
arguments (E.reqid, protocol of the inbound SA of E, spi, hard), and when it is
zero none is delivered; a soft expire leaves everything else as it was; a hard
expire unbinds the key in the inbound index, leaves no binding of E in the
inbound and in the outbound index, and destroys E. -/
theorem expire_job_found (s : private_kernel_wfp_ipsec_t) (hr : Reachable s)
    (data : expire_data_t) (entry : Nat)
    (h : hashtable_get s.isas { spi := data.spi, dst := data.dst } = some entry) :
    (expire_job s data).expired = s.expired ++
      (if (s.heap entry).reqid ≠ 0 then
        [ { reqid := (s.heap entry).reqid, protocol := (s.heap entry).isa.protocol,
            spi := data.spi, hard := data.hard } ]
       else []) ∧
    (data.hard = false →
      expire_job s data = { s with expired := (expire_job s data).expired }) ∧
    (data.hard = true →
      hashtable_get (expire_job s data).isas { spi := data.spi, dst := data.dst } = none ∧
      (∀ p ∈ (expire_job s data).isas, p.2 ≠ entry) ∧
      (∀ p ∈ (expire_job s data).osas, p.2 ≠ entry) ∧
      (expire_job s data).destroyed = s.destroyed ++ [entry]) := by
  obtain ⟨_, h2, h3⟩ := reachable_index_inv s hr
  obtain ⟨_, ks, kd⟩ := h2 _ (hashtable_get_mem _ _ _ h)
  simp only at ks kd
  cases hh : data.hard
  · have e := expire_job_soft_found s data entry hh h
    rw [hh] at e
    refine ⟨by rw [e], fun _ => by rw [e], fun hc => Bool.noConfusion hc⟩
  · obtain ⟨f1, f2, f3, f4⟩ := expire_job_hard_fields s data entry hh h
    rw [hh] at f4
    refine ⟨f4, fun hc => Bool.noConfusion hc, fun _ => ⟨?_, ?_, ?_, f3⟩⟩
    · rw [f1]
      exact hashtable_get_erase_self _ _
    · intro p hp hpe
      rw [f1] at hp
      obtain ⟨hm, hne⟩ := hashtable_mem_erase _ _ _ hp
      obtain ⟨_, ps, pd⟩ := h2 p hm
      rw [hpe, ks] at ps
      rw [hpe, kd] at pd
      simp only [Option.some.injEq] at pd
      apply hne
      cases hp1 : p.1
      rw [hp1] at ps pd
      simp only at ps pd
      rw [ps, pd]
    · intro p hp hpe
      rw [f2] at hp
      cases ho : (s.heap entry).osa.dst with
      | none =>
        rw [ho] at hp
        obtain ⟨_, _, pd⟩ := h3 p hp
        rw [hpe, ho] at pd
        exact Option.noConfusion pd
      | some d =>
        rw [ho] at hp
        obtain ⟨hm, hne⟩ := hashtable_mem_erase _ _ _ hp
        obtain ⟨_, ps, pd⟩ := h3 p hm
        rw [hpe] at ps
        rw [hpe, ho] at pd
        simp only [Option.some.injEq] at pd
        apply hne
        cases hp1 : p.1
        rw [hp1] at ps pd
        simp only at ps pd
        rw [ps, pd]

/-- Witness of C27 (amended): the hard expire job of the inbound SA of the complete
entry 0, whose request identifier is 1. -/
theorem expire_job_found_witness :
    (expire_job (backend_pair wfp_accept) { spi := 1, dst := host_a, hard := true }).expired =
      [ { reqid := 1, protocol := IPPROTO_ESP, spi := 1, hard := true } ] ∧
    (expire_job (backend_pair wfp_accept)
      { spi := 1, dst := host_a, hard := true }).destroyed = [0] :=
  ⟨(expire_job_found (backend_pair wfp_accept)
      ⟨wfp_accept, rng_fixed, backend_new wfp_accept,
        [ sample_add_sa true 1 1 host_b host_a AUTH_HMAC_SHA1_96,
          sample_add_sa false 1 2 host_a host_b AUTH_HMAC_SHA1_96 ],
        backend_new_created _ rfl rfl, rfl⟩
      { spi := 1, dst := host_a, hard := true } 0 (by decide)).1,
   ((expire_job_found (backend_pair wfp_accept)
      ⟨wfp_accept, rng_fixed, backend_new wfp_accept,
        [ sample_add_sa true 1 1 host_b host_a AUTH_HMAC_SHA1_96,
          sample_add_sa false 1 2 host_a host_b AUTH_HMAC_SHA1_96 ],
        backend_new_created _ rfl rfl, rfl⟩
      { spi := 1, dst := host_a, hard := true } 0 (by decide)).2.2 rfl).2.2.2⟩

/-- Counterexample to C27 as stated: after an inbound `add_sa` with the request
identifier 0, the entry is bound under (1, 10.0.0.1) in the inbound index, and
neither the soft nor the hard expire job for that key delivers a notification. -/
theorem expire_job_reqid_zero_silent :
    Reachable (backend_reqid_zero wfp_accept) ∧
    hashtable_get (backend_reqid_zero wfp_accept).isas { spi := 1, dst := host_a } = some 0 ∧
    (expire_job (backend_reqid_zero wfp_accept)
      { spi := 1, dst := host_a, hard := false }).expired = [] ∧
    (expire_job (backend_reqid_zero wfp_accept)
      { spi := 1, dst := host_a, hard := true }).expired = [] ∧
    (expire_job (backend_reqid_zero wfp_accept)
      { spi := 1, dst := host_a, hard := true }).destroyed = [0] := by
  refine ⟨⟨wfp_accept, rng_fixed, backend_new wfp_accept,
    [ sample_add_sa true 0 1 host_b host_a AUTH_HMAC_SHA1_96 ],
    backend_new_created _ rfl rfl, rfl⟩, ?_, ?_, ?_, ?_⟩ <;> decide

/-! ## Rollback of a failed installation (C31) -/

/-- C31: a tunnel mode installation in which the engine accepts
`FwpmIPsecTunnelAdd0` and fails `FwpmProviderContextGetByKey0`. Before the call
the engine holds nothing; `install` returns FALSE after these two requests and
sends no delete request, `policy_in` is still zero, and the engine holds the tunnel
policy with the key 42; `add_policy` returns FAILED in that state. When instead
the context is resolved and the next request, the creation of the SA context,
fails, `cleanup_policies` deletes the tunnel policy and the engine holds nothing. -/
theorem install_tunnel_unresolved_context_leaks :
    Reachable (backend_tunnel (wfp_accept_first 3)) ∧
    engine_of (backend_tunnel (wfp_accept_first 3)).handle =
      { filters := [], tunnels := [], contexts := [] } ∧
    (install (backend_tunnel (wfp_accept_first 3)).handle
      (sample_entry_tunnel (wfp_accept_first 3))).1 = false ∧
    (install (backend_tunnel (wfp_accept_first 3)).handle
      (sample_entry_tunnel (wfp_accept_first 3))).2.1.trace =
      (backend_tunnel (wfp_accept_first 3)).handle.trace ++
        [ wfp_request.FwpmIPsecTunnelAdd0 42
            { ipVersion := FWP_IP_VERSION.FWP_IP_VERSION_V4,
              localAddress := wfp_address.v4 (untoh32 host_a.get_address),
              remoteAddress := wfp_address.v4 (untoh32 host_b.get_address) }
            (ts2condition (sample_ts host_b) false
              (ts2condition (sample_ts host_a) true []).2).2,
          wfp_request.FwpmProviderContextGetByKey0 42 ] ∧
    (install (backend_tunnel (wfp_accept_first 3)).handle
      (sample_entry_tunnel (wfp_accept_first 3))).2.2.policy_in = 0 ∧
    engine_of (install (backend_tunnel (wfp_accept_first 3)).handle
      (sample_entry_tunnel (wfp_accept_first 3))).2.1 =
      { filters := [], tunnels := [42], contexts := [] } ∧
    (add_policy (backend_tunnel (wfp_accept_first 3)) host_b (sample_ts host_a)
      (sample_ts host_b) policy_dir_t.POLICY_OUT sample_sa_cfg
      policy_priority_t.POLICY_PRIORITY_DEFAULT).1 = status_t.FAILED ∧
    engine_of (add_policy (backend_tunnel (wfp_accept_first 3)) host_b (sample_ts host_a)
      (sample_ts host_b) policy_dir_t.POLICY_OUT sample_sa_cfg
      policy_priority_t.POLICY_PRIORITY_DEFAULT).2.handle =
      { filters := [], tunnels := [42], contexts := [] } ∧
    (install (backend_tunnel (wfp_fail_at 4 42)).handle
      (sample_entry_tunnel (wfp_fail_at 4 42))).1 = false ∧
    engine_of (install (backend_tunnel (wfp_fail_at 4 42)).handle
      (sample_entry_tunnel (wfp_fail_at 4 42))).2.1 =
      { filters := [], tunnels := [], contexts := [] } := by
  refine ⟨⟨wfp_accept_first 3, rng_fixed, backend_new (wfp_accept_first 3),
    [ sample_add_sa_tunnel true 1 1 host_b host_a,
      sample_add_sa_tunnel false 1 2 host_a host_b ],
    backend_new_created _ rfl rfl, rfl⟩, ?_, ?_, ?_, ?_, ?_, ?_, ?_, ?_, ?_⟩ <;> decide

/-! ## Entries waiting for their outbound SA (C32) -/

/-- C32: an inbound `add_sa` with request identifier 1 and a hard lifetime, followed
by the firing of the hard expire job it scheduled. The entry 0 is destroyed and
the index of request identifiers still binds 1 to it; the outbound `add_sa` for
request identifier 1 that follows returns SUCCESS, writes the outbound SA into
the destroyed entry and binds it in the outbound index. -/
theorem hard_expire_leaves_reqid_binding :
    Reachable (backend_expired_pending wfp_accept) ∧
    (step (backend_new wfp_accept) sample_add_sa_life).scheduled =
      [ ({ spi := 1, dst := host_a, hard := true }, 10) ] ∧
    (backend_expired_pending wfp_accept).destroyed = [0] ∧
    hashtable_get (backend_expired_pending wfp_accept).tsas 1 = some 0 ∧
    (add_sa (backend_expired_pending wfp_accept) host_a host_b 2 IPPROTO_ESP 1
      { life := 0, rekey := 0 } ENCR_AES_CBC (List.replicate 16 1) AUTH_HMAC_SHA1_96
      (List.replicate 20 2) ipsec_mode_t.MODE_TRANSPORT false false).1 = status_t.SUCCESS ∧
    ((add_sa (backend_expired_pending wfp_accept) host_a host_b 2 IPPROTO_ESP 1
      { life := 0, rekey := 0 } ENCR_AES_CBC (List.replicate 16 1) AUTH_HMAC_SHA1_96
      (List.replicate 20 2) ipsec_mode_t.MODE_TRANSPORT false false).2.heap 0).osa.spi = 2 ∧
    hashtable_get (add_sa (backend_expired_pending wfp_accept) host_a host_b 2 IPPROTO_ESP 1
      { life := 0, rekey := 0 } ENCR_AES_CBC (List.replicate 16 1) AUTH_HMAC_SHA1_96
      (List.replicate 20 2) ipsec_mode_t.MODE_TRANSPORT false false).2.osas
      { spi := 2, dst := host_b } = some 0 := by
  refine ⟨⟨wfp_accept, rng_fixed, backend_new wfp_accept,
    [ sample_add_sa_life, call_t.expire_job { spi := 1, dst := host_a, hard := true } ],
    backend_new_created _ rfl rfl, rfl⟩, ?_, ?_, ?_, ?_, ?_, ?_⟩ <;> decide

/-! ## Consistency of the translation tables (C33) -/

/-- C33: for every encryption algorithm and key length for which `encr2integ`
returns an integrity algorithm other than AUTH_UNDEFINED, `alg2auth` finds that
algorithm; and for every key length for which `alg2cipher` finds
(ENCR_AES_GCM_ICV16, k), `alg2auth` finds `encr2integ(ENCR_AES_GCM_ICV16, k)` and
stores the auth transform of the AES key size of the cipher transform that
`alg2cipher` stores: GCM_AES_128 with GCM_AES_128, 192 with 192, 256 with 256. -/
theorem aead_tables_consistent (e : Nat) (k : Int) (ainfo : IPSEC_SA_AUTH_INFORMATION0)
    (cinfo : IPSEC_SA_CIPHER_INFORMATION0) :
    (encr2integ e k ≠ AUTH_UNDEFINED → (alg2auth (encr2integ e k) ainfo).1 = true) ∧
    ((alg2cipher ENCR_AES_GCM_ICV16 k cinfo).1 = true →
      (alg2auth (encr2integ ENCR_AES_GCM_ICV16 k) ainfo).1 = true ∧
      (((alg2cipher ENCR_AES_GCM_ICV16 k cinfo).2.cipherTransformId =
            IPSEC_CIPHER_TRANSFORM_ID0.IPSEC_CIPHER_TRANSFORM_ID_GCM_AES_128 ∧
          (alg2auth (encr2integ ENCR_AES_GCM_ICV16 k) ainfo).2.authTransformId =
            IPSEC_AUTH_TRANSFORM_ID0.IPSEC_AUTH_TRANSFORM_ID_GCM_AES_128) ∨
        ((alg2cipher ENCR_AES_GCM_ICV16 k cinfo).2.cipherTransformId =
            IPSEC_CIPHER_TRANSFORM_ID0.IPSEC_CIPHER_TRANSFORM_ID_GCM_AES_192 ∧
          (alg2auth (encr2integ ENCR_AES_GCM_ICV16 k) ainfo).2.authTransformId =
            IPSEC_AUTH_TRANSFORM_ID0.IPSEC_AUTH_TRANSFORM_ID_GCM_AES_192) ∨
        ((alg2cipher ENCR_AES_GCM_ICV16 k cinfo).2.cipherTransformId =
            IPSEC_CIPHER_TRANSFORM_ID0.IPSEC_CIPHER_TRANSFORM_ID_GCM_AES_256 ∧
          (alg2auth (encr2integ ENCR_AES_GCM_ICV16 k) ainfo).2.authTransformId =
            IPSEC_AUTH_TRANSFORM_ID0.IPSEC_AUTH_TRANSFORM_ID_GCM_AES_256))) := by
  constructor
  · simp only [encr2integ, encr2integ_map, encr2integ_scan]
    split_ifs <;> simp [alg2auth, alg2auth_map, alg2auth_scan]
  · intro hk
    have hk3 : k = 20 ∨ k = 28 ∨ k = 36 := by
      simp only [alg2cipher, alg2cipher_map, alg2cipher_scan] at hk
      split_ifs at hk <;> simp_all
    rcases hk3 with rfl | rfl | rfl <;>
      simp [alg2cipher, alg2cipher_map, alg2cipher_scan, encr2integ, encr2integ_map,
        encr2integ_scan, alg2auth, alg2auth_map, alg2auth_scan]

end KernelWfp
